import Mathlib

/-!
Verification development for the Ynvisible ECD Driver v5 Arduino library
(`src/YnvisibleECD.cpp`).

The driver is shallowly embedded as pure Lean functions over an explicit
driver-state record (`ECD`) and an execution record (`Exec`) that accumulates a
trace of hardware events (pin-mode changes, digital writes, analog reads and
writes, delays).  The environment (`Env`) supplies the values the hardware
returns: the analog sample stream of each pin, and the observed value of the
externally mutable `m_stopDrivingFlag` at each of the polls the code performs.

The companion header `YnvisibleECD.h` (types of the member fields and the
constants `SEGMENT_STATE_*`, `ADC_DAC_MAX_LSB`, `MAX_REFRESH_RETRIES`,
`PIN_CE`) is not part of the sources; those parts are modelled from the spec,
as flagged in the individual doc comments.  Voltages, refresh limits and delay
durations are modelled as exact rationals, analog samples as integers.
-/

namespace YnvECD

/-- Modelled from the spec: the per-segment state values.  The
`SEGMENT_STATE_BLEACH / SEGMENT_STATE_COLOR / SEGMENT_STATE_UNDEFINED`
constants are declared in the missing header `YnvisibleECD.h`; spec section 3
gives `currentState, nextState ∈ {Bleached, Colored, Undefined}`.
`SEGMENT_STATE_BLEACH`/`SEGMENT_STATE_COLOR` double as the logic levels
LOW/HIGH passed to `digitalWrite` (cf. `begin()` passing `true` to
`setSegmentState` for coloring, and the refresh loops writing LOW when
bleaching and HIGH when coloring). -/
inductive SegState where
  | bleached
  | colored
  | undefined
deriving DecidableEq, Repr

/-- One hardware-abstraction-layer event, as listed in spec section 6:
pin-mode control, digital write, analog read (with the sample it returned),
analog write, and blocking delay. -/
inductive Ev where
  | pinModeOut (pin : Nat)
  | pinModeIn (pin : Nat)
  | digWrite (pin : Nat) (level : Bool)
  | anWrite (pin : Nat) (lsb : Int)
  | anRead (pin : Nat) (val : Int)
  | sleepMs (ms : ℚ)
deriving DecidableEq, Repr

/-- The `m_cfg` configuration record (spec section 3 "Configuration"; the
declaring header is not in the sources, the field set is exactly the one the
`.cpp` file reads). -/
structure Config where
  coloringVoltage : ℚ
  bleachingVoltage : ℚ
  coloringTime : ℚ
  bleachingTime : ℚ
  refreshColoringVoltage : ℚ
  refreshBleachingVoltage : ℚ
  refreshColorPulseTime : ℚ
  refreshBleachPulseTime : ℚ
  refreshColorLimitHVoltage : ℚ
  refreshColorLimitLVoltage : ℚ
  refreshBleachLimitHVoltage : ℚ
  refreshBleachLimitLVoltage : ℚ

/-- Modelled from the spec: the compile-time constants of the missing header.
`maxLSB` is `ADC_DAC_MAX_LSB` (the top of the sample domain,
`2 ^ resolution - 1`, spec section 6); `maxRefreshRetries` is
`MAX_REFRESH_RETRIES` (the fixed retry cap, spec sections 4.1 and 5). -/
structure Consts where
  maxLSB : ℚ
  maxRefreshRetries : Nat

/-- The driver's member state: segment count, pin bindings, per-segment
current/next state and refresh-needed flag, supply voltage, the four derived
refresh limits, configuration and constants, and the resting value of
`m_stopDrivingFlag`.  Per-segment arrays are total functions on `Nat`; only
indices below `n` are meaningful. -/
structure ECD where
  n : Nat
  pins : Nat → Nat
  cePin : Nat
  currentState : Nat → SegState
  nextState : Nat → SegState
  refreshSegmentNeeded : Nat → Bool
  supplyVoltage : ℚ
  refreshColorLimitH : ℚ
  refreshColorLimitL : ℚ
  refreshBleachLimitH : ℚ
  refreshBleachLimitL : ℚ
  cfg : Config
  consts : Consts
  stopDrivingFlag : Bool

/-- The environment of one run: `samples pin k` is the value the `k`-th
`analogRead` of `pin` returns, and `stop k` is the value of the externally
mutable `m_stopDrivingFlag` observed at the `k`-th poll of the run (the flag
may be set by an interrupt at any time, so each poll gets its own value). -/
structure Env where
  samples : Nat → Nat → Int
  stop : Nat → Bool

/-- Execution state threaded through the embedded methods: the driver state,
the number of stop-flag polls done so far, the per-pin count of analog reads
done so far, and the hardware event trace. -/
structure Exec where
  ecd : ECD
  checks : Nat
  reads : Nat → Nat
  trace : List Ev

/-- Pointwise update of a `Nat`-indexed array. -/
def setIdx {α : Type} (f : Nat → α) (i : Nat) (v : α) : Nat → α :=
  fun j => if j = i then v else f j

/-- C-style cast `int(q)` of a real quantity: truncation toward zero. -/
def cIntTrunc (q : ℚ) : Int :=
  q.num.tdiv (q.den : Int)

/-- Append one event to the trace. -/
def emit (ex : Exec) (e : Ev) : Exec :=
  { ex with trace := ex.trace ++ [e] }

/-- One poll of `m_stopDrivingFlag`; returns the observed value. -/
def checkStop (env : Env) (ex : Exec) : Exec × Bool :=
  ({ ex with checks := ex.checks + 1 }, env.stop ex.checks)

/-- `analogRead(pin)`: consumes the next sample of `pin` from the
environment and records it in the trace. -/
def readAnalog (env : Env) (ex : Exec) (pin : Nat) : Exec × Int :=
  let v := env.samples pin (ex.reads pin)
  ({ ex with reads := setIdx ex.reads pin (ex.reads pin + 1),
             trace := ex.trace ++ [Ev.anRead pin v] }, v)

/-- The trace footprint of `enableCounterElectrode`: the analog write of the
voltage converted to the sample domain, then the 50 ms settle. -/
def ceTrace (e : ECD) (v : ℚ) : List Ev :=
  [Ev.anWrite e.cePin (cIntTrunc (e.consts.maxLSB * (v / e.supplyVoltage))),
   Ev.sleepMs 50]

/-- `YNV_ECD::enableCounterElectrode` (cpp lines 525-529):
`analogWrite(ce, int(ADC_DAC_MAX_LSB * (t_voltage / m_supplyVoltage)))`
followed by `delay(50)`. -/
def enableCounterElectrode (ex : Exec) (v : ℚ) : Exec :=
  { ex with trace := ex.trace ++ ceTrace ex.ecd v }

/-- `YNV_ECD::disableCounterElectrode` (cpp lines 536-539):
`analogWrite(ce, 0)`. -/
def disableCounterElectrode (ex : Exec) : Exec :=
  emit ex (Ev.anWrite ex.ecd.cePin 0)

/-- The trace footprint of `disableAllSegments`: every segment pin put back
to input (high-impedance) mode, in index order. -/
def floatTrace (e : ECD) : List Ev :=
  (List.range e.n).map fun i => Ev.pinModeIn (e.pins i)

/-- `YNV_ECD::disableAllSegments` (cpp lines 512-517). -/
def disableAllSegments (ex : Exec) : Exec :=
  { ex with trace := ex.trace ++ floatTrace ex.ecd }

/-- `delay(ms)`. -/
def delayE (ex : Exec) (ms : ℚ) : Exec :=
  emit ex (Ev.sleepMs ms)

/-- Write one segment's current state. -/
def setCurrent (ex : Exec) (i : Nat) (s : SegState) : Exec :=
  { ex with ecd := { ex.ecd with currentState := setIdx ex.ecd.currentState i s } }

/-- Set one segment's refresh-needed flag (the only assignment the source
ever makes to `m_refreshSegmentNeeded` is `= true`). -/
def setFlag (ex : Exec) (i : Nat) : Exec :=
  { ex with ecd := { ex.ecd with refreshSegmentNeeded := setIdx ex.ecd.refreshSegmentNeeded i true } }

/-- The transition guard of the bleach phase of `executeDisplay` (cpp line
90): `m_nextState[i] != m_currentState[i] && m_nextState[i] == SEGMENT_STATE_BLEACH`. -/
def bleachGuard (e : ECD) (i : Nat) : Prop :=
  e.nextState i ≠ e.currentState i ∧ e.nextState i = SegState.bleached

instance (e : ECD) (i : Nat) : Decidable (bleachGuard e i) :=
  inferInstanceAs (Decidable (_ ∧ _))

/-- The transition guard of the color phase of `executeDisplay` (cpp line
130). -/
def colorGuard (e : ECD) (i : Nat) : Prop :=
  e.nextState i ≠ e.currentState i ∧ e.nextState i = SegState.colored

instance (e : ECD) (i : Nat) : Decidable (colorGuard e i) :=
  inferInstanceAs (Decidable (_ ∧ _))

/-- The bleach-phase for loop of `executeDisplay` (cpp lines 83-104).  Each
iteration polls the stop flag (returning with the abort flag `true` if set),
then, when the transition guard holds, switches the pin to output, drives it
to the bleach level (LOW), and records `m_currentState[i] = m_nextState[i]`.
Returns the abort flag and `isDelayRequired`. -/
def bleachPhaseLoop (env : Env) (ex : Exec) (idxs : List Nat) (d : Bool) :
    Exec × Bool × Bool :=
  match idxs with
  | [] => (ex, false, d)
  | i :: rest =>
    let p := checkStop env ex
    if p.2 then (p.1, true, d)
    else if bleachGuard p.1.ecd i then
      let ex1 := emit p.1 (Ev.pinModeOut (p.1.ecd.pins i))
      let ex2 := emit ex1 (Ev.digWrite (ex1.ecd.pins i) false)
      let ex3 := setCurrent ex2 i (ex2.ecd.nextState i)
      bleachPhaseLoop env ex3 rest true
    else bleachPhaseLoop env p.1 rest d

/-- The color-phase for loop of `executeDisplay` (cpp lines 124-144);
drives to the color level (HIGH). -/
def colorPhaseLoop (env : Env) (ex : Exec) (idxs : List Nat) (d : Bool) :
    Exec × Bool × Bool :=
  match idxs with
  | [] => (ex, false, d)
  | i :: rest =>
    let p := checkStop env ex
    if p.2 then (p.1, true, d)
    else if colorGuard p.1.ecd i then
      let ex1 := emit p.1 (Ev.pinModeOut (p.1.ecd.pins i))
      let ex2 := emit ex1 (Ev.digWrite (ex1.ecd.pins i) true)
      let ex3 := setCurrent ex2 i (ex2.ecd.nextState i)
      colorPhaseLoop env ex3 rest true
    else colorPhaseLoop env p.1 rest d

/-- The bleach phase of `executeDisplay` (cpp lines 76-116): enable the
counter electrode at `bleachingVoltage`, run the bleach loop, then if any
segment transitioned poll the stop flag and hold for `bleachingTime`, and
finally float all segment pins.  Returns the abort flag. -/
def execBleachPhase (env : Env) (ex : Exec) : Exec × Bool :=
  let ex1 := enableCounterElectrode ex ex.ecd.cfg.bleachingVoltage
  let l := bleachPhaseLoop env ex1 (List.range ex1.ecd.n) false
  if l.2.1 then (l.1, true)
  else if l.2.2 then
    let p := checkStop env l.1
    if p.2 then (p.1, true)
    else (disableAllSegments (delayE p.1 p.1.ecd.cfg.bleachingTime), false)
  else (disableAllSegments l.1, false)

/-- The color phase of `executeDisplay` (cpp lines 118-157): enable the
counter electrode at `supplyVoltage - coloringVoltage`, run the color loop,
optionally poll and hold for `coloringTime`, float all segment pins, and
disable the counter electrode. -/
def execColorPhase (env : Env) (ex : Exec) : Exec × Bool :=
  let ex1 := enableCounterElectrode ex (ex.ecd.supplyVoltage - ex.ecd.cfg.coloringVoltage)
  let l := colorPhaseLoop env ex1 (List.range ex1.ecd.n) false
  if l.2.1 then (l.1, true)
  else if l.2.2 then
    let p := checkStop env l.1
    if p.2 then (p.1, true)
    else (disableCounterElectrode (disableAllSegments (delayE p.1 p.1.ecd.cfg.coloringTime)), false)
  else (disableCounterElectrode (disableAllSegments l.1), false)

/-- The classification loop of `refreshDisplay` (cpp lines 199-223): for each
segment, poll the stop flag, put the pin in input mode, sample it, and flag
`m_refreshSegmentNeeded[i]` when the segment's current state is COLOR and the
sample is below `m_refreshColorLimitL`, or is BLEACH and the sample is above
`m_refreshBleachLimitH`.  Accumulates `refresh_color_needed` and
`refresh_bleach_needed`; returns `(exec, aborted, colorNeeded, bleachNeeded)`. -/
def classifyLoop (env : Env) (ex : Exec) (idxs : List Nat) (cN bN : Bool) :
    Exec × Bool × Bool × Bool :=
  match idxs with
  | [] => (ex, false, cN, bN)
  | i :: rest =>
    let p := checkStop env ex
    if p.2 then (p.1, true, cN, bN)
    else
      let ex1 := emit p.1 (Ev.pinModeIn (p.1.ecd.pins i))
      let q := readAnalog env ex1 (ex1.ecd.pins i)
      if q.1.ecd.currentState i = SegState.colored ∧ (q.2 : ℚ) < q.1.ecd.refreshColorLimitL then
        classifyLoop env (setFlag q.1 i) rest true bN
      else if q.1.ecd.currentState i = SegState.bleached ∧ (q.2 : ℚ) > q.1.ecd.refreshBleachLimitH then
        classifyLoop env (setFlag q.1 i) rest cN true
      else classifyLoop env q.1 rest cN bN

/-- The bleach-refresh pulse loop (cpp lines 271-282): poll per iteration,
and drive every segment whose current state is BLEACH and whose
refresh-needed flag is set to the bleach level (LOW). -/
def bleachPulseLoop (env : Env) (ex : Exec) (idxs : List Nat) : Exec × Bool :=
  match idxs with
  | [] => (ex, false)
  | i :: rest =>
    let p := checkStop env ex
    if p.2 then (p.1, true)
    else if p.1.ecd.currentState i = SegState.bleached ∧ p.1.ecd.refreshSegmentNeeded i = true then
      let ex1 := emit p.1 (Ev.pinModeOut (p.1.ecd.pins i))
      let ex2 := emit ex1 (Ev.digWrite (ex1.ecd.pins i) false)
      bleachPulseLoop env ex2 rest
    else bleachPulseLoop env p.1 rest

/-- The color-refresh pulse loop (cpp lines 362-373): drives flagged COLOR
segments to the color level (HIGH). -/
def colorPulseLoop (env : Env) (ex : Exec) (idxs : List Nat) : Exec × Bool :=
  match idxs with
  | [] => (ex, false)
  | i :: rest =>
    let p := checkStop env ex
    if p.2 then (p.1, true)
    else if p.1.ecd.currentState i = SegState.colored ∧ p.1.ecd.refreshSegmentNeeded i = true then
      let ex1 := emit p.1 (Ev.pinModeOut (p.1.ecd.pins i))
      let ex2 := emit ex1 (Ev.digWrite (ex1.ecd.pins i) true)
      colorPulseLoop env ex2 rest
    else colorPulseLoop env p.1 rest

/-- The bleach-refresh re-sampling loop (cpp lines 295-314): for each segment
whose current state is BLEACH, provided `retries < MAX_REFRESH_RETRIES`, put
the pin in input mode, sample it, and if the sample is above
`m_refreshBleachLimitL` set the flag and `refresh_bleach_needed`.  Returns
`(exec, aborted, needed)`. -/
def bleachRecheckLoop (env : Env) (ex : Exec) (idxs : List Nat) (retries : Nat)
    (needed : Bool) : Exec × Bool × Bool :=
  match idxs with
  | [] => (ex, false, needed)
  | i :: rest =>
    let p := checkStop env ex
    if p.2 then (p.1, true, needed)
    else if p.1.ecd.currentState i = SegState.bleached ∧ retries < p.1.ecd.consts.maxRefreshRetries then
      let ex1 := emit p.1 (Ev.pinModeIn (p.1.ecd.pins i))
      let q := readAnalog env ex1 (ex1.ecd.pins i)
      if (q.2 : ℚ) > q.1.ecd.refreshBleachLimitL then
        bleachRecheckLoop env (setFlag q.1 i) rest retries true
      else bleachRecheckLoop env q.1 rest retries needed
    else bleachRecheckLoop env p.1 rest retries needed

/-- The color-refresh re-sampling loop (cpp lines 386-405): segments whose
current state is COLOR are re-sampled against `currentLimit`, which the code
set to `m_refreshColorLimitH` at cpp line 326 (neither changes during the
loop). -/
def colorRecheckLoop (env : Env) (ex : Exec) (idxs : List Nat) (retries : Nat)
    (needed : Bool) : Exec × Bool × Bool :=
  match idxs with
  | [] => (ex, false, needed)
  | i :: rest =>
    let p := checkStop env ex
    if p.2 then (p.1, true, needed)
    else if p.1.ecd.currentState i = SegState.colored ∧ retries < p.1.ecd.consts.maxRefreshRetries then
      let ex1 := emit p.1 (Ev.pinModeIn (p.1.ecd.pins i))
      let q := readAnalog env ex1 (ex1.ecd.pins i)
      if (q.2 : ℚ) < q.1.ecd.refreshColorLimitH then
        colorRecheckLoop env (setFlag q.1 i) rest retries true
      else colorRecheckLoop env q.1 rest retries needed
    else colorRecheckLoop env p.1 rest retries needed

/-- Exit status of the two refresh while loops: `done` when the loop
condition became false, `stopped` on cooperative abort, `fuelOut` when the
structural fuel ran out (proved unreachable for the fuel `refreshDisplay`
supplies, see `bleachWhile_no_fuelOut` / `colorWhile_no_fuelOut`). -/
inductive LoopExit where
  | done
  | stopped
  | fuelOut
deriving DecidableEq, Repr

/-- The bleach-refresh while loop (cpp lines 264-320).  One iteration: poll
the stop flag; pulse all flagged BLEACH segments; hold for
`refreshBleachPulseTime` (the source has no poll between the pulse loop and
this delay); float all segment pins; clear `refresh_bleach_needed`; poll;
re-sample (cpp line 300 guards both the sampling and the correction by
`retries < MAX_REFRESH_RETRIES`); increment `retries`; wait the fixed 500 ms
settle; re-test the loop condition.  The C++ `while` is modelled with
structural fuel; `refreshDisplay` supplies `MAX_REFRESH_RETRIES + 1`, which
is proved sufficient. -/
def bleachWhile (env : Env) (ex : Exec) (needed : Bool) (retries : Nat)
    (fuel : Nat) : Exec × LoopExit :=
  match fuel with
  | 0 => if needed = false then (ex, LoopExit.done) else (ex, LoopExit.fuelOut)
  | fuel + 1 =>
    if needed = false then (ex, LoopExit.done)
    else
      let p := checkStop env ex
      if p.2 then (p.1, LoopExit.stopped)
      else
        let pl := bleachPulseLoop env p.1 (List.range p.1.ecd.n)
        if pl.2 then (pl.1, LoopExit.stopped)
        else
          let ex2 := disableAllSegments (delayE pl.1 pl.1.ecd.cfg.refreshBleachPulseTime)
          let p2 := checkStop env ex2
          if p2.2 then (p2.1, LoopExit.stopped)
          else
            let rl := bleachRecheckLoop env p2.1 (List.range p2.1.ecd.n) retries false
            if rl.2.1 then (rl.1, LoopExit.stopped)
            else bleachWhile env (delayE rl.1 500) rl.2.2 (retries + 1) fuel

/-- The color-refresh while loop (cpp lines 354-411).  Same shape as
`bleachWhile` except that the stop flag is polled after the pulse delay (cpp
line 377) instead of after `disableAllSegments`. -/
def colorWhile (env : Env) (ex : Exec) (needed : Bool) (retries : Nat)
    (fuel : Nat) : Exec × LoopExit :=
  match fuel with
  | 0 => if needed = false then (ex, LoopExit.done) else (ex, LoopExit.fuelOut)
  | fuel + 1 =>
    if needed = false then (ex, LoopExit.done)
    else
      let p := checkStop env ex
      if p.2 then (p.1, LoopExit.stopped)
      else
        let pl := colorPulseLoop env p.1 (List.range p.1.ecd.n)
        if pl.2 then (pl.1, LoopExit.stopped)
        else
          let ex2 := delayE pl.1 pl.1.ecd.cfg.refreshColorPulseTime
          let p2 := checkStop env ex2
          if p2.2 then (p2.1, LoopExit.stopped)
          else
            let ex3 := disableAllSegments p2.1
            let rl := colorRecheckLoop env ex3 (List.range ex3.ecd.n) retries false
            if rl.2.1 then (rl.1, LoopExit.stopped)
            else colorWhile env (delayE rl.1 500) rl.2.2 (retries + 1) fuel

/-- `YNV_ECD::refreshDisplay` (cpp lines 171-415): poll; counter electrode to
mid-rail `supplyVoltage / 2`; float all segments; classify; poll; return
early when neither refresh is needed (cpp lines 230-233 — note this path does
not touch the counter electrode again); bleach-refresh while loop at
`refreshBleachingVoltage`; color-refresh while loop at
`supplyVoltage - refreshColoringVoltage`; finally disable the counter
electrode.  Returns the abort flag. -/
def refreshDisplay (env : Env) (ex : Exec) : Exec × Bool :=
  let p := checkStop env ex
  if p.2 then (p.1, true)
  else
    let ex1 := disableAllSegments (enableCounterElectrode p.1 (p.1.ecd.supplyVoltage / 2))
    let cl := classifyLoop env ex1 (List.range ex1.ecd.n) false false
    if cl.2.1 then (cl.1, true)
    else
      let cN := cl.2.2.1
      let bN := cl.2.2.2
      let p2 := checkStop env cl.1
      if p2.2 then (p2.1, true)
      else if (bN || cN) = false then (p2.1, false)
      else
        let ex2 := enableCounterElectrode p2.1 p2.1.ecd.cfg.refreshBleachingVoltage
        let bw := bleachWhile env ex2 bN 0 (ex2.ecd.consts.maxRefreshRetries + 1)
        if bw.2 = LoopExit.stopped then (bw.1, true)
        else
          let ex3 := enableCounterElectrode bw.1
            (bw.1.ecd.supplyVoltage - bw.1.ecd.cfg.refreshColoringVoltage)
          let cw := colorWhile env ex3 cN 0 (ex3.ecd.consts.maxRefreshRetries + 1)
          if cw.2 = LoopExit.stopped then (cw.1, true)
          else (disableCounterElectrode cw.1, false)

/-- `YNV_ECD::executeDisplay` (cpp lines 73-165): bleach phase, color phase,
then `refreshDisplay`, then one final poll of the stop flag (cpp line 160 —
the source reaches this poll whether or not `refreshDisplay` returned early,
and returns either way; the poll's value is the reported abort flag). -/
def executeDisplay (env : Env) (ex : Exec) : Exec × Bool :=
  let b := execBleachPhase env ex
  if b.2 then (b.1, true)
  else
    let c := execColorPhase env b.1
    if c.2 then (c.1, true)
    else checkStop env (refreshDisplay env c.1).1

/-- `YNV_ECD::setSegmentState` (cpp lines 64-66): pure bookkeeping,
`m_nextState[t_segment] = t_state` and nothing else.  The `bool` argument is
the segment-state value (`true` = COLOR, `false` = BLEACH). -/
def setSegmentState (e : ECD) (i : Nat) (b : Bool) : ECD :=
  { e with nextState := setIdx e.nextState i (if b then SegState.colored else SegState.bleached) }

/-- `YNV_ECD::updateRefreshLimits` (cpp lines 461-503): the four derived
refresh limits, in sample-domain units, recomputed from the configuration and
`m_supplyVoltage`. -/
def updateRefreshLimits (e : ECD) : ECD :=
  { e with
    refreshColorLimitH :=
      ((e.supplyVoltage - e.cfg.refreshColoringVoltage) + e.cfg.refreshColorLimitHVoltage)
        * e.consts.maxLSB / e.supplyVoltage,
    refreshColorLimitL :=
      (e.supplyVoltage / 2 + e.cfg.refreshColorLimitLVoltage)
        * e.consts.maxLSB / e.supplyVoltage,
    refreshBleachLimitH :=
      (e.supplyVoltage / 2 - e.cfg.refreshBleachLimitHVoltage)
        * e.consts.maxLSB / e.supplyVoltage,
    refreshBleachLimitL :=
      (e.cfg.refreshBleachingVoltage - e.cfg.refreshBleachLimitLVoltage)
        * e.consts.maxLSB / e.supplyVoltage }

/-- `YNV_ECD::updateSupplyVoltage` (cpp lines 421-424): set `m_supplyVoltage`
and immediately recompute the derived refresh limits. -/
def updateSupplyVoltage (e : ECD) (v : ℚ) : ECD :=
  updateRefreshLimits { e with supplyVoltage := v }

/-- `YNV_ECD::setStopDrivingFlag` (cpp lines 432-434). -/
def setStopDrivingFlag (e : ECD) : ECD :=
  { e with stopDrivingFlag := true }

/-- `YNV_ECD::clearStopDriving` (cpp lines 441-443). -/
def clearStopDriving (e : ECD) : ECD :=
  { e with stopDrivingFlag := false }

/-- `YNV_ECD::setAllSegmentsBleach` (cpp lines 446-450). -/
def setAllSegmentsBleach (e : ECD) : ECD :=
  (List.range e.n).foldl (fun a i => setSegmentState a i false) e

/-- The `YNV_ECD` constructor (cpp lines 17-36): binds the segment pins and
sets every segment's current and next state to UNDEFINED for `i < n`.  The
member fields the constructor leaves untouched — in particular the
`m_refreshSegmentNeeded` array, which it does not initialize — are taken from
`rest`, the arbitrary pre-construction memory contents. -/
def constructECD (nSeg : Nat) (segPins : Nat → Nat) (cePin : Nat) (rest : ECD) : ECD :=
  { rest with
    n := nSeg
    cePin := cePin
    pins := fun i => if i < nSeg then segPins i else rest.pins i
    currentState := fun i => if i < nSeg then SegState.undefined else rest.currentState i
    nextState := fun i => if i < nSeg then SegState.undefined else rest.nextState i }

/-- Execution-level view of `setSegmentState`: the method body contains no
hardware-abstraction call, so lifting it to an execution only rewrites the
driver state. -/
def setSegmentStateExec (ex : Exec) (i : Nat) (b : Bool) : Exec :=
  { ex with ecd := setSegmentState ex.ecd i b }

/-- Concrete driving configuration used by the closed witness and
counterexample runs. -/
def cfgW : Config :=
  { coloringVoltage := 3, bleachingVoltage := 1, coloringTime := 1000, bleachingTime := 2000,
    refreshColoringVoltage := 2, refreshBleachingVoltage := 1, refreshColorPulseTime := 100,
    refreshBleachPulseTime := 200, refreshColorLimitHVoltage := 1, refreshColorLimitLVoltage := 1,
    refreshBleachLimitHVoltage := 1, refreshBleachLimitLVoltage := 1 }

/-- Concrete one-segment driver state (pin 0, counter electrode pin 99,
supply 5 V, retry cap 1) used by the closed runs. -/
def ecdW : ECD :=
  { n := 1, pins := fun i => i, cePin := 99,
    currentState := fun _ => SegState.undefined,
    nextState := fun _ => SegState.colored,
    refreshSegmentNeeded := fun _ => false,
    supplyVoltage := 5,
    refreshColorLimitH := 900, refreshColorLimitL := 100,
    refreshBleachLimitH := 600, refreshBleachLimitL := 500,
    cfg := cfgW, consts := { maxLSB := 1023, maxRefreshRetries := 1 },
    stopDrivingFlag := false }

/-- Environment with the stop flag never set and every analog sample 500. -/
def envW : Env := ⟨fun _ _ => 500, fun _ => false⟩

/-- Fresh execution over `ecdW`. -/
def exW : Exec := ⟨ecdW, 0, fun _ => 0, []⟩

/-- One bleached segment whose bleach-refresh limits both sit at 100, so the
constant 500-sample environment keeps it permanently out of range (above
`refreshBleachLimitH` at classification, above `refreshBleachLimitL` at every
re-sample). -/
def ecdC : ECD :=
  { ecdW with
    currentState := fun _ => SegState.bleached,
    nextState := fun _ => SegState.bleached,
    refreshBleachLimitH := 100, refreshBleachLimitL := 100 }

/-- Fresh execution over `ecdC`. -/
def exC : Exec := ⟨ecdC, 0, fun _ => 0, []⟩

/-- `ecdC` with the segment's refresh flag already raised, as it is when the
bleach retry loop is entered. -/
def ecdC2 : ECD :=
  { ecdC with refreshSegmentNeeded := fun _ => true }

/-- Fresh execution over `ecdC2`. -/
def exC2 : Exec := ⟨ecdC2, 0, fun _ => 0, []⟩

/-- One colored, in-range segment (sample 500 between `refreshColorLimitL` =
100 and `refreshColorLimitH` = 900): `refreshDisplay` classifies nothing and
takes the early-return path. -/
def ecdD : ECD :=
  { ecdW with
    currentState := fun _ => SegState.colored,
    nextState := fun _ => SegState.colored }

/-- Fresh execution over `ecdD`. -/
def exD : Exec := ⟨ecdD, 0, fun _ => 0, []⟩

/-- Two colored segments: pin 0 samples 50 (below `refreshColorLimitL` = 100,
so classification flags segment 0), pin 1 samples 500 (inside the
classification window, but below `refreshColorLimitH` = 900, so the color
retry re-sampling re-flags segment 1). -/
def ecdE : ECD :=
  { ecdW with
    n := 2,
    currentState := fun _ => SegState.colored,
    nextState := fun _ => SegState.colored }

/-- Environment for `ecdE`: pin 0 always reads 50, every other pin 500; the
stop flag is never set. -/
def envE : Env := ⟨fun p _ => if p = 0 then 50 else 500, fun _ => false⟩

/-- Fresh execution over `ecdE`. -/
def exE : Exec := ⟨ecdE, 0, fun _ => 0, []⟩



/-! Specification vocabulary used by the theorem statements. -/

/-- The pointwise effect of the bleach-phase loop on `currentState`, relative
to the state at loop entry: segments in `idxs` whose transition guard holds
get their commanded state, all others are untouched. -/
def phaseApplyB (e : ECD) (idxs : List Nat) : Nat → SegState :=
  fun i => if i ∈ idxs ∧ bleachGuard e i then e.nextState i else e.currentState i

/-- The pointwise effect of the color-phase loop on `currentState`. -/
def phaseApplyC (e : ECD) (idxs : List Nat) : Nat → SegState :=
  fun i => if i ∈ idxs ∧ colorGuard e i then e.nextState i else e.currentState i

/-- The indices the bleach-phase loop transitions. -/
def bTransIdxs (e : ECD) (idxs : List Nat) : List Nat :=
  idxs.filter fun i => decide (bleachGuard e i)

/-- The indices the color-phase loop transitions. -/
def cTransIdxs (e : ECD) (idxs : List Nat) : List Nat :=
  idxs.filter fun i => decide (colorGuard e i)

/-- The hardware events the bleach-phase loop emits: for each transitioned
segment, its pin is switched to output and driven to the bleach level. -/
def bTransTrace (e : ECD) (idxs : List Nat) : List Ev :=
  (bTransIdxs e idxs).foldr
    (fun i acc => Ev.pinModeOut (e.pins i) :: Ev.digWrite (e.pins i) false :: acc) []

/-- The hardware events the color-phase loop emits. -/
def cTransTrace (e : ECD) (idxs : List Nat) : List Ev :=
  (cTransIdxs e idxs).foldr
    (fun i acc => Ev.pinModeOut (e.pins i) :: Ev.digWrite (e.pins i) true :: acc) []

/-- The segments the bleach-refresh pulse loop drives: current state BLEACH
and refresh-needed flag set (cpp line 276). -/
def bPulseIdxs (e : ECD) (idxs : List Nat) : List Nat :=
  idxs.filter fun i =>
    decide (e.currentState i = SegState.bleached ∧ e.refreshSegmentNeeded i = true)

/-- The events the bleach-refresh pulse loop emits. -/
def bPulseTrace (e : ECD) (idxs : List Nat) : List Ev :=
  (bPulseIdxs e idxs).foldr
    (fun i acc => Ev.pinModeOut (e.pins i) :: Ev.digWrite (e.pins i) false :: acc) []

/-- The segments the color-refresh pulse loop drives (cpp line 367). -/
def cPulseIdxs (e : ECD) (idxs : List Nat) : List Nat :=
  idxs.filter fun i =>
    decide (e.currentState i = SegState.colored ∧ e.refreshSegmentNeeded i = true)

/-- The events the color-refresh pulse loop emits. -/
def cPulseTrace (e : ECD) (idxs : List Nat) : List Ev :=
  (cPulseIdxs e idxs).foldr
    (fun i acc => Ev.pinModeOut (e.pins i) :: Ev.digWrite (e.pins i) true :: acc) []

/-- Number of analog reads of pin `p` recorded in a trace. -/
def readsTo (p : Nat) (t : List Ev) : Nat :=
  t.countP fun e =>
    match e with
    | Ev.anRead q _ => decide (q = p)
    | _ => false

/-- The digital (segment-level) writes of a trace, in order. -/
def segDigWrites (t : List Ev) : List Ev :=
  t.filter fun e =>
    match e with
    | Ev.digWrite _ _ => true
    | _ => false

/-- The value of the last analog write to pin `p` in a trace, if any: the
level the pin is left driven at when the trace ends. -/
def lastAnWrite (p : Nat) (t : List Ev) : Option Int :=
  t.foldl
    (fun acc e =>
      match e with
      | Ev.anWrite q v => if q = p then some v else acc
      | _ => acc) none

/-- Pins of distinct segments in `idxs` are distinct. -/
def PinsInjOn (e : ECD) (idxs : List Nat) : Prop :=
  ∀ i ∈ idxs, ∀ j ∈ idxs, e.pins i = e.pins j → i = j

/-- The classification condition of cpp line 212: current state COLOR and the
sample the next `analogRead` of the segment's pin returns is below
`m_refreshColorLimitL`. -/
def classColorCond (env : Env) (ex : Exec) (i : Nat) : Prop :=
  ex.ecd.currentState i = SegState.colored ∧
  ((env.samples (ex.ecd.pins i) (ex.reads (ex.ecd.pins i)) : ℚ) < ex.ecd.refreshColorLimitL)

instance (env : Env) (ex : Exec) (i : Nat) : Decidable (classColorCond env ex i) :=
  inferInstanceAs (Decidable (_ ∧ _))

/-- The classification condition of cpp line 217: current state BLEACH and
the sample above `m_refreshBleachLimitH`. -/
def classBleachCond (env : Env) (ex : Exec) (i : Nat) : Prop :=
  ex.ecd.currentState i = SegState.bleached ∧
  ((env.samples (ex.ecd.pins i) (ex.reads (ex.ecd.pins i)) : ℚ) > ex.ecd.refreshBleachLimitH)

instance (env : Env) (ex : Exec) (i : Nat) : Decidable (classBleachCond env ex i) :=
  inferInstanceAs (Decidable (_ ∧ _))

/-- The re-flagging condition of the bleach retry re-sampling loop (cpp lines
300-311): current state BLEACH, `retries < MAX_REFRESH_RETRIES`, and the
sample above `m_refreshBleachLimitL`. -/
def recheckBleachCond (env : Env) (ex : Exec) (retries i : Nat) : Prop :=
  ex.ecd.currentState i = SegState.bleached ∧
  retries < ex.ecd.consts.maxRefreshRetries ∧
  ((env.samples (ex.ecd.pins i) (ex.reads (ex.ecd.pins i)) : ℚ) > ex.ecd.refreshBleachLimitL)

instance (env : Env) (ex : Exec) (retries i : Nat) : Decidable (recheckBleachCond env ex retries i) :=
  inferInstanceAs (Decidable (_ ∧ _ ∧ _))

/-- The re-flagging condition of the color retry re-sampling loop (cpp lines
391-402): current state COLOR, `retries < MAX_REFRESH_RETRIES`, and the
sample below `m_refreshColorLimitH`. -/
def recheckColorCond (env : Env) (ex : Exec) (retries i : Nat) : Prop :=
  ex.ecd.currentState i = SegState.colored ∧
  retries < ex.ecd.consts.maxRefreshRetries ∧
  ((env.samples (ex.ecd.pins i) (ex.reads (ex.ecd.pins i)) : ℚ) < ex.ecd.refreshColorLimitH)

instance (env : Env) (ex : Exec) (retries i : Nat) : Decidable (recheckColorCond env ex retries i) :=
  inferInstanceAs (Decidable (_ ∧ _ ∧ _))

/-- Result `b` differs from `a` at most in the refresh-needed flags (the
refresh machinery never writes any other member). -/
def FlagsOnly (a b : ECD) : Prop :=
  b.n = a.n ∧ b.pins = a.pins ∧ b.cePin = a.cePin ∧ b.currentState = a.currentState ∧
  b.nextState = a.nextState ∧ b.supplyVoltage = a.supplyVoltage ∧
  b.refreshColorLimitH = a.refreshColorLimitH ∧ b.refreshColorLimitL = a.refreshColorLimitL ∧
  b.refreshBleachLimitH = a.refreshBleachLimitH ∧ b.refreshBleachLimitL = a.refreshBleachLimitL ∧
  b.cfg = a.cfg ∧ b.consts = a.consts ∧ b.stopDrivingFlag = a.stopDrivingFlag

/-- Refresh-needed flags are only ever set, never cleared. -/
def FlagMono (a b : ECD) : Prop :=
  ∀ i, a.refreshSegmentNeeded i = true → b.refreshSegmentNeeded i = true

/-- The execution frame of the refresh machinery: the driver state changes at
most in the refresh-needed flags, flags are only set, and the trace is only
appended to. -/
def RFrame (a b : Exec) : Prop :=
  FlagsOnly a.ecd b.ecd ∧ FlagMono a.ecd b.ecd ∧ ∃ tr, b.trace = a.trace ++ tr

/-- Everything `executeDisplay` is allowed to change is `currentState` and the
refresh-needed flags; all other driver members are preserved. -/
def EFrame (a b : ECD) : Prop :=
  b.n = a.n ∧ b.pins = a.pins ∧ b.cePin = a.cePin ∧ b.nextState = a.nextState ∧
  b.supplyVoltage = a.supplyVoltage ∧
  b.refreshColorLimitH = a.refreshColorLimitH ∧ b.refreshColorLimitL = a.refreshColorLimitL ∧
  b.refreshBleachLimitH = a.refreshBleachLimitH ∧ b.refreshBleachLimitL = a.refreshBleachLimitL ∧
  b.cfg = a.cfg ∧ b.consts = a.consts ∧ b.stopDrivingFlag = a.stopDrivingFlag

/-- The execution point inside one bleach-refresh loop iteration right before
the re-sampling pass (cpp lines 267-293): stop poll, pulse pass over all
segments, pulse-time delay, all segments floated, second stop poll. -/
def bIterMid (env : Env) (ex : Exec) : Exec :=
  (checkStop env (disableAllSegments (delayE
    (bleachPulseLoop env (checkStop env ex).1 (List.range (checkStop env ex).1.ecd.n)).1
    (bleachPulseLoop env (checkStop env ex).1
      (List.range (checkStop env ex).1.ecd.n)).1.ecd.cfg.refreshBleachPulseTime))).1


/-! Basic lemmas about the primitives. -/

@[simp] lemma setIdx_same {α : Type} (f : Nat → α) (i : Nat) (v : α) : setIdx f i v i = v := by
  simp [setIdx]

lemma setIdx_other {α : Type} (f : Nat → α) {i j : Nat} (v : α) (h : j ≠ i) :
    setIdx f i v j = f j := by
  simp [setIdx, h]

@[simp] lemma checkStop_fst_ecd (env : Env) (ex : Exec) : (checkStop env ex).1.ecd = ex.ecd := rfl

@[simp] lemma checkStop_fst_trace (env : Env) (ex : Exec) :
    (checkStop env ex).1.trace = ex.trace := rfl

@[simp] lemma checkStop_fst_reads (env : Env) (ex : Exec) :
    (checkStop env ex).1.reads = ex.reads := rfl

@[simp] lemma checkStop_fst_checks (env : Env) (ex : Exec) :
    (checkStop env ex).1.checks = ex.checks + 1 := rfl

@[simp] lemma checkStop_snd (env : Env) (ex : Exec) :
    (checkStop env ex).2 = env.stop ex.checks := rfl

@[simp] lemma emit_ecd (ex : Exec) (e : Ev) : (emit ex e).ecd = ex.ecd := rfl

@[simp] lemma emit_trace (ex : Exec) (e : Ev) : (emit ex e).trace = ex.trace ++ [e] := rfl

@[simp] lemma emit_reads (ex : Exec) (e : Ev) : (emit ex e).reads = ex.reads := rfl

@[simp] lemma emit_checks (ex : Exec) (e : Ev) : (emit ex e).checks = ex.checks := rfl

@[simp] lemma readAnalog_fst_ecd (env : Env) (ex : Exec) (p : Nat) :
    (readAnalog env ex p).1.ecd = ex.ecd := rfl

@[simp] lemma readAnalog_fst_trace (env : Env) (ex : Exec) (p : Nat) :
    (readAnalog env ex p).1.trace = ex.trace ++ [Ev.anRead p (env.samples p (ex.reads p))] := rfl

@[simp] lemma readAnalog_fst_checks (env : Env) (ex : Exec) (p : Nat) :
    (readAnalog env ex p).1.checks = ex.checks := rfl

@[simp] lemma readAnalog_fst_reads (env : Env) (ex : Exec) (p : Nat) :
    (readAnalog env ex p).1.reads = setIdx ex.reads p (ex.reads p + 1) := rfl

@[simp] lemma readAnalog_snd (env : Env) (ex : Exec) (p : Nat) :
    (readAnalog env ex p).2 = env.samples p (ex.reads p) := rfl

@[simp] lemma setCurrent_ecd (ex : Exec) (i : Nat) (s : SegState) :
    (setCurrent ex i s).ecd = { ex.ecd with currentState := setIdx ex.ecd.currentState i s } := rfl

@[simp] lemma setCurrent_trace (ex : Exec) (i : Nat) (s : SegState) :
    (setCurrent ex i s).trace = ex.trace := rfl

@[simp] lemma setCurrent_checks (ex : Exec) (i : Nat) (s : SegState) :
    (setCurrent ex i s).checks = ex.checks := rfl

@[simp] lemma setCurrent_reads (ex : Exec) (i : Nat) (s : SegState) :
    (setCurrent ex i s).reads = ex.reads := rfl

@[simp] lemma setFlag_ecd (ex : Exec) (i : Nat) :
    (setFlag ex i).ecd
      = { ex.ecd with refreshSegmentNeeded := setIdx ex.ecd.refreshSegmentNeeded i true } := rfl

@[simp] lemma setFlag_trace (ex : Exec) (i : Nat) : (setFlag ex i).trace = ex.trace := rfl

@[simp] lemma setFlag_reads (ex : Exec) (i : Nat) : (setFlag ex i).reads = ex.reads := rfl

@[simp] lemma setFlag_checks (ex : Exec) (i : Nat) : (setFlag ex i).checks = ex.checks := rfl

@[simp] lemma setFlag_flags (ex : Exec) (i : Nat) :
    (setFlag ex i).ecd.refreshSegmentNeeded = setIdx ex.ecd.refreshSegmentNeeded i true := rfl

@[simp] lemma enableCounterElectrode_ecd (ex : Exec) (v : ℚ) :
    (enableCounterElectrode ex v).ecd = ex.ecd := rfl

@[simp] lemma enableCounterElectrode_trace (ex : Exec) (v : ℚ) :
    (enableCounterElectrode ex v).trace = ex.trace ++ ceTrace ex.ecd v := rfl

@[simp] lemma enableCounterElectrode_reads (ex : Exec) (v : ℚ) :
    (enableCounterElectrode ex v).reads = ex.reads := rfl

@[simp] lemma enableCounterElectrode_checks (ex : Exec) (v : ℚ) :
    (enableCounterElectrode ex v).checks = ex.checks := rfl

@[simp] lemma disableCounterElectrode_ecd (ex : Exec) :
    (disableCounterElectrode ex).ecd = ex.ecd := rfl

@[simp] lemma disableCounterElectrode_trace (ex : Exec) :
    (disableCounterElectrode ex).trace = ex.trace ++ [Ev.anWrite ex.ecd.cePin 0] := rfl

@[simp] lemma disableAllSegments_ecd (ex : Exec) : (disableAllSegments ex).ecd = ex.ecd := rfl

@[simp] lemma disableAllSegments_trace (ex : Exec) :
    (disableAllSegments ex).trace = ex.trace ++ floatTrace ex.ecd := rfl

@[simp] lemma disableAllSegments_reads (ex : Exec) : (disableAllSegments ex).reads = ex.reads := rfl

@[simp] lemma disableAllSegments_checks (ex : Exec) :
    (disableAllSegments ex).checks = ex.checks := rfl

@[simp] lemma delayE_ecd (ex : Exec) (ms : ℚ) : (delayE ex ms).ecd = ex.ecd := rfl

@[simp] lemma delayE_trace (ex : Exec) (ms : ℚ) :
    (delayE ex ms).trace = ex.trace ++ [Ev.sleepMs ms] := rfl

@[simp] lemma delayE_reads (ex : Exec) (ms : ℚ) : (delayE ex ms).reads = ex.reads := rfl

@[simp] lemma delayE_checks (ex : Exec) (ms : ℚ) : (delayE ex ms).checks = ex.checks := rfl

/-! The refresh-frame relation and its closure properties. -/

lemma flagsOnly_refl (a : ECD) : FlagsOnly a a :=
  ⟨rfl, rfl, rfl, rfl, rfl, rfl, rfl, rfl, rfl, rfl, rfl, rfl, rfl⟩

lemma flagsOnly_trans {a b c : ECD} (h1 : FlagsOnly a b) (h2 : FlagsOnly b c) : FlagsOnly a c := by
  obtain ⟨e1, e2, e3, e4, e5, e6, e7, e8, e9, e10, e11, e12, e13⟩ := h1
  obtain ⟨f1, f2, f3, f4, f5, f6, f7, f8, f9, f10, f11, f12, f13⟩ := h2
  exact ⟨f1.trans e1, f2.trans e2, f3.trans e3, f4.trans e4, f5.trans e5, f6.trans e6,
    f7.trans e7, f8.trans e8, f9.trans e9, f10.trans e10, f11.trans e11, f12.trans e12,
    f13.trans e13⟩

lemma rframe_refl (a : Exec) : RFrame a a :=
  ⟨flagsOnly_refl _, fun _ h => h, [], by simp⟩

lemma rframe_trans {a b c : Exec} (h1 : RFrame a b) (h2 : RFrame b c) : RFrame a c := by
  obtain ⟨f1, m1, t1, ht1⟩ := h1
  obtain ⟨f2, m2, t2, ht2⟩ := h2
  exact ⟨flagsOnly_trans f1 f2, fun i h => m2 i (m1 i h), t1 ++ t2, by rw [ht2, ht1, List.append_assoc]⟩

lemma rframe_of_ecd_eq {a b : Exec} (h : b.ecd = a.ecd) (tr : List Ev)
    (ht : b.trace = a.trace ++ tr) : RFrame a b :=
  ⟨by rw [h]; exact flagsOnly_refl _, by rw [h]; exact fun _ h => h, tr, ht⟩

lemma rframe_emit (ex : Exec) (e : Ev) : RFrame ex (emit ex e) :=
  rframe_of_ecd_eq rfl [e] rfl

lemma rframe_checkStop (env : Env) (ex : Exec) : RFrame ex (checkStop env ex).1 :=
  rframe_of_ecd_eq rfl [] (by simp)

lemma rframe_readAnalog (env : Env) (ex : Exec) (p : Nat) : RFrame ex (readAnalog env ex p).1 :=
  rframe_of_ecd_eq rfl [Ev.anRead p (env.samples p (ex.reads p))] (by simp)

lemma rframe_enableCE (ex : Exec) (v : ℚ) : RFrame ex (enableCounterElectrode ex v) :=
  rframe_of_ecd_eq rfl (ceTrace ex.ecd v) (by simp)

lemma rframe_disableCE (ex : Exec) : RFrame ex (disableCounterElectrode ex) :=
  rframe_of_ecd_eq rfl [Ev.anWrite ex.ecd.cePin 0] (by simp)

lemma rframe_disableAll (ex : Exec) : RFrame ex (disableAllSegments ex) :=
  rframe_of_ecd_eq rfl (floatTrace ex.ecd) (by simp)

lemma rframe_delayE (ex : Exec) (ms : ℚ) : RFrame ex (delayE ex ms) :=
  rframe_of_ecd_eq rfl [Ev.sleepMs ms] (by simp)

lemma rframe_setFlag (ex : Exec) (i : Nat) : RFrame ex (setFlag ex i) := by
  refine ⟨⟨rfl, rfl, rfl, rfl, rfl, rfl, rfl, rfl, rfl, rfl, rfl, rfl, rfl⟩, ?_, [], by simp⟩
  intro j hj
  by_cases h : j = i
  · subst h; simp
  · rw [setFlag_flags, setIdx_other _ _ h]; exact hj

lemma classifyLoop_rframe (env : Env) :
    ∀ (idxs : List Nat) (ex : Exec) (cN bN : Bool),
      RFrame ex (classifyLoop env ex idxs cN bN).1 := by
  intro idxs
  induction idxs with
  | nil => intro ex cN bN; exact rframe_refl ex
  | cons i rest ih =>
    intro ex cN bN
    simp only [classifyLoop]
    split
    · exact rframe_checkStop env ex
    · split
      · exact rframe_trans (rframe_trans (rframe_trans (rframe_trans
          (rframe_checkStop env ex) (rframe_emit _ _)) (rframe_readAnalog _ _ _))
          (rframe_setFlag _ _)) (ih _ _ _)
      · split
        · exact rframe_trans (rframe_trans (rframe_trans (rframe_trans
            (rframe_checkStop env ex) (rframe_emit _ _)) (rframe_readAnalog _ _ _))
            (rframe_setFlag _ _)) (ih _ _ _)
        · exact rframe_trans (rframe_trans (rframe_trans
            (rframe_checkStop env ex) (rframe_emit _ _)) (rframe_readAnalog _ _ _)) (ih _ _ _)

lemma bleachPulseLoop_rframe (env : Env) :
    ∀ (idxs : List Nat) (ex : Exec), RFrame ex (bleachPulseLoop env ex idxs).1 := by
  intro idxs
  induction idxs with
  | nil => intro ex; exact rframe_refl ex
  | cons i rest ih =>
    intro ex
    simp only [bleachPulseLoop]
    split
    · exact rframe_checkStop env ex
    · split
      · exact rframe_trans (rframe_trans (rframe_trans
          (rframe_checkStop env ex) (rframe_emit _ _)) (rframe_emit _ _)) (ih _)
      · exact rframe_trans (rframe_checkStop env ex) (ih _)

lemma colorPulseLoop_rframe (env : Env) :
    ∀ (idxs : List Nat) (ex : Exec), RFrame ex (colorPulseLoop env ex idxs).1 := by
  intro idxs
  induction idxs with
  | nil => intro ex; exact rframe_refl ex
  | cons i rest ih =>
    intro ex
    simp only [colorPulseLoop]
    split
    · exact rframe_checkStop env ex
    · split
      · exact rframe_trans (rframe_trans (rframe_trans
          (rframe_checkStop env ex) (rframe_emit _ _)) (rframe_emit _ _)) (ih _)
      · exact rframe_trans (rframe_checkStop env ex) (ih _)

lemma bleachRecheckLoop_rframe (env : Env) :
    ∀ (idxs : List Nat) (ex : Exec) (retries : Nat) (needed : Bool),
      RFrame ex (bleachRecheckLoop env ex idxs retries needed).1 := by
  intro idxs
  induction idxs with
  | nil => intro ex r nd; exact rframe_refl ex
  | cons i rest ih =>
    intro ex r nd
    simp only [bleachRecheckLoop]
    split
    · exact rframe_checkStop env ex
    · split
      · split
        · exact rframe_trans (rframe_trans (rframe_trans (rframe_trans
            (rframe_checkStop env ex) (rframe_emit _ _)) (rframe_readAnalog _ _ _))
            (rframe_setFlag _ _)) (ih _ _ _)
        · exact rframe_trans (rframe_trans (rframe_trans
            (rframe_checkStop env ex) (rframe_emit _ _)) (rframe_readAnalog _ _ _)) (ih _ _ _)
      · exact rframe_trans (rframe_checkStop env ex) (ih _ _ _)

lemma colorRecheckLoop_rframe (env : Env) :
    ∀ (idxs : List Nat) (ex : Exec) (retries : Nat) (needed : Bool),
      RFrame ex (colorRecheckLoop env ex idxs retries needed).1 := by
  intro idxs
  induction idxs with
  | nil => intro ex r nd; exact rframe_refl ex
  | cons i rest ih =>
    intro ex r nd
    simp only [colorRecheckLoop]
    split
    · exact rframe_checkStop env ex
    · split
      · split
        · exact rframe_trans (rframe_trans (rframe_trans (rframe_trans
            (rframe_checkStop env ex) (rframe_emit _ _)) (rframe_readAnalog _ _ _))
            (rframe_setFlag _ _)) (ih _ _ _)
        · exact rframe_trans (rframe_trans (rframe_trans
            (rframe_checkStop env ex) (rframe_emit _ _)) (rframe_readAnalog _ _ _)) (ih _ _ _)
      · exact rframe_trans (rframe_checkStop env ex) (ih _ _ _)

lemma bleachWhile_rframe (env : Env) :
    ∀ (fuel : Nat) (ex : Exec) (needed : Bool) (retries : Nat),
      RFrame ex (bleachWhile env ex needed retries fuel).1 := by
  intro fuel
  induction fuel with
  | zero =>
    intro ex needed retries
    simp only [bleachWhile]
    split <;> exact rframe_refl ex
  | succ fuel ih =>
    intro ex needed retries
    simp only [bleachWhile]
    split
    · exact rframe_refl ex
    · split
      · exact rframe_checkStop env ex
      · split
        · exact rframe_trans (rframe_checkStop env ex) (bleachPulseLoop_rframe env _ _)
        · split
          · exact rframe_trans (rframe_checkStop env ex)
              (rframe_trans (bleachPulseLoop_rframe env _ _)
                (rframe_trans (rframe_delayE _ _)
                  (rframe_trans (rframe_disableAll _) (rframe_checkStop env _))))
          · split
            · exact rframe_trans (rframe_checkStop env ex)
                (rframe_trans (bleachPulseLoop_rframe env _ _)
                  (rframe_trans (rframe_delayE _ _)
                    (rframe_trans (rframe_disableAll _)
                      (rframe_trans (rframe_checkStop env _)
                        (bleachRecheckLoop_rframe env _ _ _ _)))))
            · exact rframe_trans (rframe_checkStop env ex)
                (rframe_trans (bleachPulseLoop_rframe env _ _)
                  (rframe_trans (rframe_delayE _ _)
                    (rframe_trans (rframe_disableAll _)
                      (rframe_trans (rframe_checkStop env _)
                        (rframe_trans (bleachRecheckLoop_rframe env _ _ _ _)
                          (rframe_trans (rframe_delayE _ _) (ih _ _ _)))))))

lemma colorWhile_rframe (env : Env) :
    ∀ (fuel : Nat) (ex : Exec) (needed : Bool) (retries : Nat),
      RFrame ex (colorWhile env ex needed retries fuel).1 := by
  intro fuel
  induction fuel with
  | zero =>
    intro ex needed retries
    simp only [colorWhile]
    split <;> exact rframe_refl ex
  | succ fuel ih =>
    intro ex needed retries
    simp only [colorWhile]
    split
    · exact rframe_refl ex
    · split
      · exact rframe_checkStop env ex
      · split
        · exact rframe_trans (rframe_checkStop env ex) (colorPulseLoop_rframe env _ _)
        · split
          · exact rframe_trans (rframe_checkStop env ex)
              (rframe_trans (colorPulseLoop_rframe env _ _)
                (rframe_trans (rframe_delayE _ _) (rframe_checkStop env _)))
          · split
            · exact rframe_trans (rframe_checkStop env ex)
                (rframe_trans (colorPulseLoop_rframe env _ _)
                  (rframe_trans (rframe_delayE _ _)
                    (rframe_trans (rframe_checkStop env _)
                      (rframe_trans (rframe_disableAll _)
                        (colorRecheckLoop_rframe env _ _ _ _)))))
            · exact rframe_trans (rframe_checkStop env ex)
                (rframe_trans (colorPulseLoop_rframe env _ _)
                  (rframe_trans (rframe_delayE _ _)
                    (rframe_trans (rframe_checkStop env _)
                      (rframe_trans (rframe_disableAll _)
                        (rframe_trans (colorRecheckLoop_rframe env _ _ _ _)
                          (rframe_trans (rframe_delayE _ _) (ih _ _ _)))))))

lemma refreshDisplay_rframe (env : Env) (ex : Exec) :
    RFrame ex (refreshDisplay env ex).1 := by
  rw [refreshDisplay]
  split
  · exact rframe_checkStop env ex
  · dsimp only
    split
    · exact rframe_trans (rframe_checkStop env ex)
        (rframe_trans (rframe_enableCE _ _)
          (rframe_trans (rframe_disableAll _) (classifyLoop_rframe env _ _ _ _)))
    · split
      · exact rframe_trans (rframe_checkStop env ex)
          (rframe_trans (rframe_enableCE _ _)
            (rframe_trans (rframe_disableAll _)
              (rframe_trans (classifyLoop_rframe env _ _ _ _) (rframe_checkStop env _))))
      · split
        · exact rframe_trans (rframe_checkStop env ex)
            (rframe_trans (rframe_enableCE _ _)
              (rframe_trans (rframe_disableAll _)
                (rframe_trans (classifyLoop_rframe env _ _ _ _) (rframe_checkStop env _))))
        · split
          · exact rframe_trans (rframe_checkStop env ex)
              (rframe_trans (rframe_enableCE _ _)
                (rframe_trans (rframe_disableAll _)
                  (rframe_trans (classifyLoop_rframe env _ _ _ _)
                    (rframe_trans (rframe_checkStop env _)
                      (rframe_trans (rframe_enableCE _ _) (bleachWhile_rframe env _ _ _ _))))))
          · split
            · exact rframe_trans (rframe_checkStop env ex)
                (rframe_trans (rframe_enableCE _ _)
                  (rframe_trans (rframe_disableAll _)
                    (rframe_trans (classifyLoop_rframe env _ _ _ _)
                      (rframe_trans (rframe_checkStop env _)
                        (rframe_trans (rframe_enableCE _ _)
                          (rframe_trans (bleachWhile_rframe env _ _ _ _)
                            (rframe_trans (rframe_enableCE _ _)
                              (colorWhile_rframe env _ _ _ _))))))))
            · exact rframe_trans (rframe_checkStop env ex)
                (rframe_trans (rframe_enableCE _ _)
                  (rframe_trans (rframe_disableAll _)
                    (rframe_trans (classifyLoop_rframe env _ _ _ _)
                      (rframe_trans (rframe_checkStop env _)
                        (rframe_trans (rframe_enableCE _ _)
                          (rframe_trans (bleachWhile_rframe env _ _ _ _)
                            (rframe_trans (rframe_enableCE _ _)
                              (rframe_trans (colorWhile_rframe env _ _ _ _)
                                (rframe_disableCE _)))))))))

/-! Characterization of the executeDisplay phase loops. -/

lemma bleachGuard_update {e : ECD} {i j : Nat} {v : SegState} (h : j ≠ i) :
    bleachGuard { e with currentState := setIdx e.currentState i v } j ↔ bleachGuard e j := by
  unfold bleachGuard
  rw [show ({ e with currentState := setIdx e.currentState i v } : ECD).currentState j
        = e.currentState j from setIdx_other _ _ h]

lemma colorGuard_update {e : ECD} {i j : Nat} {v : SegState} (h : j ≠ i) :
    colorGuard { e with currentState := setIdx e.currentState i v } j ↔ colorGuard e j := by
  unfold colorGuard
  rw [show ({ e with currentState := setIdx e.currentState i v } : ECD).currentState j
        = e.currentState j from setIdx_other _ _ h]

lemma bTransIdxs_update {e : ECD} {i : Nat} {v : SegState} {rest : List Nat} (hir : i ∉ rest) :
    bTransIdxs { e with currentState := setIdx e.currentState i v } rest = bTransIdxs e rest := by
  unfold bTransIdxs
  refine List.filter_congr ?_
  intro j hj
  have hji : j ≠ i := fun h => hir (h ▸ hj)
  simp [bleachGuard_update hji]

lemma cTransIdxs_update {e : ECD} {i : Nat} {v : SegState} {rest : List Nat} (hir : i ∉ rest) :
    cTransIdxs { e with currentState := setIdx e.currentState i v } rest = cTransIdxs e rest := by
  unfold cTransIdxs
  refine List.filter_congr ?_
  intro j hj
  have hji : j ≠ i := fun h => hir (h ▸ hj)
  simp [colorGuard_update hji]

lemma bTransTrace_update {e : ECD} {i : Nat} {v : SegState} {rest : List Nat} (hir : i ∉ rest) :
    bTransTrace { e with currentState := setIdx e.currentState i v } rest = bTransTrace e rest := by
  unfold bTransTrace
  rw [bTransIdxs_update hir]

lemma cTransTrace_update {e : ECD} {i : Nat} {v : SegState} {rest : List Nat} (hir : i ∉ rest) :
    cTransTrace { e with currentState := setIdx e.currentState i v } rest = cTransTrace e rest := by
  unfold cTransTrace
  rw [cTransIdxs_update hir]

lemma bTransIdxs_cons (e : ECD) (i : Nat) (rest : List Nat) :
    bTransIdxs e (i :: rest)
      = if bleachGuard e i then i :: bTransIdxs e rest else bTransIdxs e rest := by
  unfold bTransIdxs
  rw [List.filter_cons]
  by_cases hg : bleachGuard e i <;> simp [hg]

lemma cTransIdxs_cons (e : ECD) (i : Nat) (rest : List Nat) :
    cTransIdxs e (i :: rest)
      = if colorGuard e i then i :: cTransIdxs e rest else cTransIdxs e rest := by
  unfold cTransIdxs
  rw [List.filter_cons]
  by_cases hg : colorGuard e i <;> simp [hg]

lemma phaseApplyB_cons_guard {e : ECD} {i : Nat} {rest : List Nat} (hir : i ∉ rest)
    (hg : bleachGuard e i) :
    phaseApplyB { e with currentState := setIdx e.currentState i (e.nextState i) } rest
      = phaseApplyB e (i :: rest) := by
  funext j
  unfold phaseApplyB
  by_cases hji : j = i
  · subst hji
    have : j ∉ rest := hir
    simp only [this, false_and, if_false, List.mem_cons, true_or, hg, and_true, if_true]
    simp [setIdx_same]
  · by_cases hjr : j ∈ rest
    · simp only [hjr, true_and, List.mem_cons, or_true, if_true]
      rw [show ({ e with currentState := setIdx e.currentState i (e.nextState i) } : ECD).nextState j
            = e.nextState j from rfl]
      by_cases hg2 : bleachGuard e j
      · simp [(bleachGuard_update hji).mpr hg2, hg2]
      · have : ¬ bleachGuard { e with currentState := setIdx e.currentState i (e.nextState i) } j :=
          fun h => hg2 ((bleachGuard_update hji).mp h)
        simp [this, hg2, setIdx_other _ _ hji]
    · have hjc : j ∉ (i :: rest) := by
        simp [List.mem_cons, hji, hjr]
      simp [hjr, hjc, setIdx_other _ _ hji]

lemma phaseApplyC_cons_guard {e : ECD} {i : Nat} {rest : List Nat} (hir : i ∉ rest)
    (hg : colorGuard e i) :
    phaseApplyC { e with currentState := setIdx e.currentState i (e.nextState i) } rest
      = phaseApplyC e (i :: rest) := by
  funext j
  unfold phaseApplyC
  by_cases hji : j = i
  · subst hji
    have : j ∉ rest := hir
    simp only [this, false_and, if_false, List.mem_cons, true_or, hg, and_true, if_true]
    simp [setIdx_same]
  · by_cases hjr : j ∈ rest
    · simp only [hjr, true_and, List.mem_cons, or_true, if_true]
      by_cases hg2 : colorGuard e j
      · simp [(colorGuard_update hji).mpr hg2, hg2]
      · have : ¬ colorGuard { e with currentState := setIdx e.currentState i (e.nextState i) } j :=
          fun h => hg2 ((colorGuard_update hji).mp h)
        simp [this, hg2, setIdx_other _ _ hji]
    · have hjc : j ∉ (i :: rest) := by
        simp [List.mem_cons, hji, hjr]
      simp [hjr, hjc, setIdx_other _ _ hji]

lemma phaseApplyB_cons_of_not {e : ECD} {i : Nat} {rest : List Nat} (hir : i ∉ rest)
    (hg : ¬ bleachGuard e i) :
    phaseApplyB e rest = phaseApplyB e (i :: rest) := by
  funext j
  unfold phaseApplyB
  by_cases hji : j = i
  · subst hji
    simp [hir, hg]
  · by_cases hjr : j ∈ rest
    · simp [hjr, List.mem_cons]
    · have hjc : j ∉ (i :: rest) := by simp [List.mem_cons, hji, hjr]
      simp [hjr, hjc]

lemma phaseApplyC_cons_of_not {e : ECD} {i : Nat} {rest : List Nat} (hir : i ∉ rest)
    (hg : ¬ colorGuard e i) :
    phaseApplyC e rest = phaseApplyC e (i :: rest) := by
  funext j
  unfold phaseApplyC
  by_cases hji : j = i
  · subst hji
    simp [hir, hg]
  · by_cases hjr : j ∈ rest
    · simp [hjr, List.mem_cons]
    · have hjc : j ∉ (i :: rest) := by simp [List.mem_cons, hji, hjr]
      simp [hjr, hjc]

lemma phaseApplyB_nil (e : ECD) : phaseApplyB e [] = e.currentState := by
  funext j
  simp [phaseApplyB]

lemma phaseApplyC_nil (e : ECD) : phaseApplyC e [] = e.currentState := by
  funext j
  simp [phaseApplyC]

lemma bleachPhaseLoop_noStop (env : Env) (hstop : ∀ k, env.stop k = false) :
    ∀ (idxs : List Nat) (ex : Exec) (d : Bool), idxs.Nodup →
      bleachPhaseLoop env ex idxs d =
        ({ ex with
            ecd := { ex.ecd with currentState := phaseApplyB ex.ecd idxs },
            checks := ex.checks + idxs.length,
            trace := ex.trace ++ bTransTrace ex.ecd idxs },
         false, d || !(bTransIdxs ex.ecd idxs).isEmpty) := by
  intro idxs
  induction idxs with
  | nil =>
    intro ex d _
    rw [bleachPhaseLoop]
    rw [phaseApplyB_nil]
    simp [bTransTrace, bTransIdxs]
  | cons i rest ih =>
    intro ex d hnd
    rw [List.nodup_cons] at hnd
    obtain ⟨hir, hndr⟩ := hnd
    rw [bleachPhaseLoop]
    simp only [checkStop_snd, hstop, Bool.false_eq_true, if_false, checkStop_fst_ecd]
    by_cases hg : bleachGuard ex.ecd i
    · rw [if_pos hg]
      rw [ih _ true hndr]
      simp only [setCurrent_ecd, emit_ecd, emit_trace, emit_checks, emit_reads,
        checkStop_fst_ecd, checkStop_fst_checks, checkStop_fst_reads, checkStop_fst_trace,
        setCurrent_checks, setCurrent_reads, setCurrent_trace]
      rw [phaseApplyB_cons_guard hir hg, bTransTrace_update hir, bTransIdxs_update hir]
      have htr : bTransTrace ex.ecd (i :: rest)
          = Ev.pinModeOut (ex.ecd.pins i) :: Ev.digWrite (ex.ecd.pins i) false
              :: bTransTrace ex.ecd rest := by
        unfold bTransTrace
        rw [bTransIdxs_cons, if_pos hg]
        simp
      rw [htr, bTransIdxs_cons, if_pos hg]
      simp [Nat.add_assoc, Nat.add_comm 1, List.append_assoc]
    · rw [if_neg hg]
      rw [ih _ d hndr]
      simp only [checkStop_fst_ecd, checkStop_fst_checks, checkStop_fst_reads,
        checkStop_fst_trace]
      rw [phaseApplyB_cons_of_not hir hg]
      have htr : bTransTrace ex.ecd (i :: rest) = bTransTrace ex.ecd rest := by
        unfold bTransTrace
        rw [bTransIdxs_cons, if_neg hg]
      rw [htr, bTransIdxs_cons, if_neg hg]
      simp [Nat.add_assoc, Nat.add_comm 1]

lemma colorPhaseLoop_noStop (env : Env) (hstop : ∀ k, env.stop k = false) :
    ∀ (idxs : List Nat) (ex : Exec) (d : Bool), idxs.Nodup →
      colorPhaseLoop env ex idxs d =
        ({ ex with
            ecd := { ex.ecd with currentState := phaseApplyC ex.ecd idxs },
            checks := ex.checks + idxs.length,
            trace := ex.trace ++ cTransTrace ex.ecd idxs },
         false, d || !(cTransIdxs ex.ecd idxs).isEmpty) := by
  intro idxs
  induction idxs with
  | nil =>
    intro ex d _
    rw [colorPhaseLoop]
    rw [phaseApplyC_nil]
    simp [cTransTrace, cTransIdxs]
  | cons i rest ih =>
    intro ex d hnd
    rw [List.nodup_cons] at hnd
    obtain ⟨hir, hndr⟩ := hnd
    rw [colorPhaseLoop]
    simp only [checkStop_snd, hstop, Bool.false_eq_true, if_false, checkStop_fst_ecd]
    by_cases hg : colorGuard ex.ecd i
    · rw [if_pos hg]
      rw [ih _ true hndr]
      simp only [setCurrent_ecd, emit_ecd, emit_trace, emit_checks, emit_reads,
        checkStop_fst_ecd, checkStop_fst_checks, checkStop_fst_reads, checkStop_fst_trace,
        setCurrent_checks, setCurrent_reads, setCurrent_trace]
      rw [phaseApplyC_cons_guard hir hg, cTransTrace_update hir, cTransIdxs_update hir]
      have htr : cTransTrace ex.ecd (i :: rest)
          = Ev.pinModeOut (ex.ecd.pins i) :: Ev.digWrite (ex.ecd.pins i) true
              :: cTransTrace ex.ecd rest := by
        unfold cTransTrace
        rw [cTransIdxs_cons, if_pos hg]
        simp
      rw [htr, cTransIdxs_cons, if_pos hg]
      simp [Nat.add_assoc, Nat.add_comm 1, List.append_assoc]
    · rw [if_neg hg]
      rw [ih _ d hndr]
      simp only [checkStop_fst_ecd, checkStop_fst_checks, checkStop_fst_reads,
        checkStop_fst_trace]
      rw [phaseApplyC_cons_of_not hir hg]
      have htr : cTransTrace ex.ecd (i :: rest) = cTransTrace ex.ecd rest := by
        unfold cTransTrace
        rw [cTransIdxs_cons, if_neg hg]
      rw [htr, cTransIdxs_cons, if_neg hg]
      simp [Nat.add_assoc, Nat.add_comm 1]

lemma bleachPhaseLoop_take (env : Env) :
    ∀ (idxs : List Nat) (ex : Exec) (d : Bool), idxs.Nodup →
      ∃ t, t ≤ idxs.length ∧
        ((bleachPhaseLoop env ex idxs d).1).ecd
          = { ex.ecd with currentState := phaseApplyB ex.ecd (idxs.take t) } ∧
        ((bleachPhaseLoop env ex idxs d).2.1 = false → idxs.take t = idxs) := by
  intro idxs
  induction idxs with
  | nil =>
    intro ex d _
    refine ⟨0, Nat.le_refl _, ?_, fun _ => rfl⟩
    rw [bleachPhaseLoop]
    rw [List.take_nil, phaseApplyB_nil]
  | cons i rest ih =>
    intro ex d hnd
    rw [List.nodup_cons] at hnd
    obtain ⟨hir, hndr⟩ := hnd
    rw [bleachPhaseLoop]
    simp only [checkStop_snd, checkStop_fst_ecd]
    by_cases hb : env.stop ex.checks = true
    · rw [if_pos hb]
      refine ⟨0, Nat.zero_le _, ?_, fun h => absurd h (by simp)⟩
      simp only [checkStop_fst_ecd]
      rw [List.take_zero, phaseApplyB_nil]
    · rw [if_neg hb]
      by_cases hg : bleachGuard ex.ecd i
      · rw [if_pos hg]
        obtain ⟨t, ht, hecd, himp⟩ := ih
          (setCurrent (emit (emit (checkStop env ex).1 (Ev.pinModeOut (ex.ecd.pins i)))
            (Ev.digWrite ((emit (checkStop env ex).1 (Ev.pinModeOut (ex.ecd.pins i))).ecd.pins i)
              false)) i
            ((emit (emit (checkStop env ex).1 (Ev.pinModeOut (ex.ecd.pins i)))
              (Ev.digWrite ((emit (checkStop env ex).1
                (Ev.pinModeOut (ex.ecd.pins i))).ecd.pins i) false)).ecd.nextState i))
          true hndr
        refine ⟨t + 1, by simpa using Nat.succ_le_succ ht, ?_, ?_⟩
        · rw [hecd]
          simp only [setCurrent_ecd, emit_ecd, checkStop_fst_ecd]
          have hit : i ∉ rest.take t := fun h => hir (List.take_subset t rest h)
          rw [List.take_succ_cons, phaseApplyB_cons_guard hit hg]
        · intro h
          rw [List.take_succ_cons, himp h]
      · rw [if_neg hg]
        obtain ⟨t, ht, hecd, himp⟩ := ih (checkStop env ex).1 d hndr
        refine ⟨t + 1, by simpa using Nat.succ_le_succ ht, ?_, ?_⟩
        · rw [hecd]
          simp only [checkStop_fst_ecd]
          have hit : i ∉ rest.take t := fun h => hir (List.take_subset t rest h)
          rw [List.take_succ_cons, ← phaseApplyB_cons_of_not hit hg]
        · intro h
          rw [List.take_succ_cons, himp h]

lemma colorPhaseLoop_take (env : Env) :
    ∀ (idxs : List Nat) (ex : Exec) (d : Bool), idxs.Nodup →
      ∃ t, t ≤ idxs.length ∧
        ((colorPhaseLoop env ex idxs d).1).ecd
          = { ex.ecd with currentState := phaseApplyC ex.ecd (idxs.take t) } ∧
        ((colorPhaseLoop env ex idxs d).2.1 = false → idxs.take t = idxs) := by
  intro idxs
  induction idxs with
  | nil =>
    intro ex d _
    refine ⟨0, Nat.le_refl _, ?_, fun _ => rfl⟩
    rw [colorPhaseLoop]
    rw [List.take_nil, phaseApplyC_nil]
  | cons i rest ih =>
    intro ex d hnd
    rw [List.nodup_cons] at hnd
    obtain ⟨hir, hndr⟩ := hnd
    rw [colorPhaseLoop]
    simp only [checkStop_snd, checkStop_fst_ecd]
    by_cases hb : env.stop ex.checks = true
    · rw [if_pos hb]
      refine ⟨0, Nat.zero_le _, ?_, fun h => absurd h (by simp)⟩
      simp only [checkStop_fst_ecd]
      rw [List.take_zero, phaseApplyC_nil]
    · rw [if_neg hb]
      by_cases hg : colorGuard ex.ecd i
      · rw [if_pos hg]
        obtain ⟨t, ht, hecd, himp⟩ := ih
          (setCurrent (emit (emit (checkStop env ex).1 (Ev.pinModeOut (ex.ecd.pins i)))
            (Ev.digWrite ((emit (checkStop env ex).1 (Ev.pinModeOut (ex.ecd.pins i))).ecd.pins i)
              true)) i
            ((emit (emit (checkStop env ex).1 (Ev.pinModeOut (ex.ecd.pins i)))
              (Ev.digWrite ((emit (checkStop env ex).1
                (Ev.pinModeOut (ex.ecd.pins i))).ecd.pins i) true)).ecd.nextState i))
          true hndr
        refine ⟨t + 1, by simpa using Nat.succ_le_succ ht, ?_, ?_⟩
        · rw [hecd]
          simp only [setCurrent_ecd, emit_ecd, checkStop_fst_ecd]
          have hit : i ∉ rest.take t := fun h => hir (List.take_subset t rest h)
          rw [List.take_succ_cons, phaseApplyC_cons_guard hit hg]
        · intro h
          rw [List.take_succ_cons, himp h]
      · rw [if_neg hg]
        obtain ⟨t, ht, hecd, himp⟩ := ih (checkStop env ex).1 d hndr
        refine ⟨t + 1, by simpa using Nat.succ_le_succ ht, ?_, ?_⟩
        · rw [hecd]
          simp only [checkStop_fst_ecd]
          have hit : i ∉ rest.take t := fun h => hir (List.take_subset t rest h)
          rw [List.take_succ_cons, ← phaseApplyC_cons_of_not hit hg]
        · intro h
          rw [List.take_succ_cons, himp h]

lemma execBleachPhase_noStop (env : Env) (hstop : ∀ k, env.stop k = false) (ex : Exec) :
    execBleachPhase env ex =
      ({ ex with
          ecd := { ex.ecd with currentState := phaseApplyB ex.ecd (List.range ex.ecd.n) },
          checks := ex.checks + (List.range ex.ecd.n).length
            + (if (bTransIdxs ex.ecd (List.range ex.ecd.n)).isEmpty then 0 else 1),
          trace := ex.trace ++ ceTrace ex.ecd ex.ecd.cfg.bleachingVoltage
            ++ bTransTrace ex.ecd (List.range ex.ecd.n)
            ++ (if (bTransIdxs ex.ecd (List.range ex.ecd.n)).isEmpty then []
                else [Ev.sleepMs ex.ecd.cfg.bleachingTime])
            ++ floatTrace ex.ecd },
       false) := by
  rw [execBleachPhase]
  rw [bleachPhaseLoop_noStop env hstop _ _ _ (List.nodup_range _)]
  simp only [enableCounterElectrode_ecd, enableCounterElectrode_checks,
    enableCounterElectrode_reads, enableCounterElectrode_trace, Bool.false_eq_true, if_false,
    Bool.false_or]
  by_cases hemp : (bTransIdxs ex.ecd (List.range ex.ecd.n)).isEmpty
  · rw [hemp]
    simp only [Bool.not_true, Bool.false_eq_true, if_false, if_true]
    simp [disableAllSegments, floatTrace, List.append_assoc]
  · have hemp2 : (bTransIdxs ex.ecd (List.range ex.ecd.n)).isEmpty = false :=
      Bool.eq_false_iff.mpr hemp
    rw [hemp2]
    simp only [Bool.not_false, if_true, if_false, Bool.false_eq_true, checkStop_snd, hstop]
    simp [disableAllSegments, delayE, emit, floatTrace, checkStop, List.append_assoc]

lemma execColorPhase_noStop (env : Env) (hstop : ∀ k, env.stop k = false) (ex : Exec) :
    execColorPhase env ex =
      ({ ex with
          ecd := { ex.ecd with currentState := phaseApplyC ex.ecd (List.range ex.ecd.n) },
          checks := ex.checks + (List.range ex.ecd.n).length
            + (if (cTransIdxs ex.ecd (List.range ex.ecd.n)).isEmpty then 0 else 1),
          trace := ex.trace ++ ceTrace ex.ecd (ex.ecd.supplyVoltage - ex.ecd.cfg.coloringVoltage)
            ++ cTransTrace ex.ecd (List.range ex.ecd.n)
            ++ (if (cTransIdxs ex.ecd (List.range ex.ecd.n)).isEmpty then []
                else [Ev.sleepMs ex.ecd.cfg.coloringTime])
            ++ floatTrace ex.ecd
            ++ [Ev.anWrite ex.ecd.cePin 0] },
       false) := by
  rw [execColorPhase]
  rw [colorPhaseLoop_noStop env hstop _ _ _ (List.nodup_range _)]
  simp only [enableCounterElectrode_ecd, enableCounterElectrode_checks,
    enableCounterElectrode_reads, enableCounterElectrode_trace, Bool.false_eq_true, if_false,
    Bool.false_or]
  by_cases hemp : (cTransIdxs ex.ecd (List.range ex.ecd.n)).isEmpty
  · rw [hemp]
    simp only [Bool.not_true, Bool.false_eq_true, if_false, if_true]
    simp [disableAllSegments, disableCounterElectrode, emit, floatTrace, List.append_assoc]
  · have hemp2 : (cTransIdxs ex.ecd (List.range ex.ecd.n)).isEmpty = false :=
      Bool.eq_false_iff.mpr hemp
    rw [hemp2]
    simp only [Bool.not_false, if_true, if_false, Bool.false_eq_true, checkStop_snd, hstop]
    simp [disableAllSegments, disableCounterElectrode, delayE, emit, floatTrace, checkStop,
      List.append_assoc]

lemma execBleachPhase_partial (env : Env) (ex : Exec) :
    ∃ t, t ≤ ex.ecd.n ∧
      (execBleachPhase env ex).1.ecd
        = { ex.ecd with currentState := phaseApplyB ex.ecd ((List.range ex.ecd.n).take t) } ∧
      ((execBleachPhase env ex).2 = false → (List.range ex.ecd.n).take t = List.range ex.ecd.n) := by
  obtain ⟨t, ht, hecd, himp⟩ := bleachPhaseLoop_take env
    (List.range (enableCounterElectrode ex ex.ecd.cfg.bleachingVoltage).ecd.n)
    (enableCounterElectrode ex ex.ecd.cfg.bleachingVoltage) false (List.nodup_range _)
  simp only [enableCounterElectrode_ecd, List.length_range] at ht hecd himp
  refine ⟨t, ht, ?_, ?_⟩ <;> rw [execBleachPhase]
  · split
    · exact hecd
    · split
      · dsimp only
        split
        · exact hecd
        · simp only [disableAllSegments_ecd, delayE_ecd, checkStop_fst_ecd]
          exact hecd
      · simp only [disableAllSegments_ecd]
        exact hecd
  · intro hfin
    split at hfin
    · exact absurd hfin (by simp)
    · next hl =>
      exact himp (Bool.eq_false_iff.mpr hl)

lemma execColorPhase_partial (env : Env) (ex : Exec) :
    ∃ t, t ≤ ex.ecd.n ∧
      (execColorPhase env ex).1.ecd
        = { ex.ecd with currentState := phaseApplyC ex.ecd ((List.range ex.ecd.n).take t) } ∧
      ((execColorPhase env ex).2 = false → (List.range ex.ecd.n).take t = List.range ex.ecd.n) := by
  obtain ⟨t, ht, hecd, himp⟩ := colorPhaseLoop_take env
    (List.range (enableCounterElectrode ex (ex.ecd.supplyVoltage - ex.ecd.cfg.coloringVoltage)).ecd.n)
    (enableCounterElectrode ex (ex.ecd.supplyVoltage - ex.ecd.cfg.coloringVoltage)) false
    (List.nodup_range _)
  simp only [enableCounterElectrode_ecd, List.length_range] at ht hecd himp
  refine ⟨t, ht, ?_, ?_⟩ <;> rw [execColorPhase]
  · split
    · exact hecd
    · split
      · dsimp only
        split
        · exact hecd
        · simp only [disableCounterElectrode_ecd, disableAllSegments_ecd, delayE_ecd,
            checkStop_fst_ecd]
          exact hecd
      · simp only [disableCounterElectrode_ecd, disableAllSegments_ecd]
        exact hecd
  · intro hfin
    split at hfin
    · exact absurd hfin (by simp)
    · next hl =>
      exact himp (Bool.eq_false_iff.mpr hl)

lemma flagsOnly_n {a b : ECD} (h : FlagsOnly a b) : b.n = a.n := h.1

lemma flagsOnly_pins {a b : ECD} (h : FlagsOnly a b) : b.pins = a.pins := h.2.1

lemma flagsOnly_cePin {a b : ECD} (h : FlagsOnly a b) : b.cePin = a.cePin := h.2.2.1

lemma flagsOnly_currentState {a b : ECD} (h : FlagsOnly a b) :
    b.currentState = a.currentState := h.2.2.2.1

lemma flagsOnly_nextState {a b : ECD} (h : FlagsOnly a b) :
    b.nextState = a.nextState := h.2.2.2.2.1

lemma flagsOnly_supply {a b : ECD} (h : FlagsOnly a b) :
    b.supplyVoltage = a.supplyVoltage := h.2.2.2.2.2.1

lemma flagsOnly_colH {a b : ECD} (h : FlagsOnly a b) :
    b.refreshColorLimitH = a.refreshColorLimitH := h.2.2.2.2.2.2.1

lemma flagsOnly_colL {a b : ECD} (h : FlagsOnly a b) :
    b.refreshColorLimitL = a.refreshColorLimitL := h.2.2.2.2.2.2.2.1

lemma flagsOnly_bleH {a b : ECD} (h : FlagsOnly a b) :
    b.refreshBleachLimitH = a.refreshBleachLimitH := h.2.2.2.2.2.2.2.2.1

lemma flagsOnly_bleL {a b : ECD} (h : FlagsOnly a b) :
    b.refreshBleachLimitL = a.refreshBleachLimitL := h.2.2.2.2.2.2.2.2.2.1

lemma flagsOnly_cfg {a b : ECD} (h : FlagsOnly a b) : b.cfg = a.cfg := h.2.2.2.2.2.2.2.2.2.2.1

lemma flagsOnly_consts {a b : ECD} (h : FlagsOnly a b) :
    b.consts = a.consts := h.2.2.2.2.2.2.2.2.2.2.2.1

lemma executeDisplay_partial (env : Env) (ex : Exec) :
    ∃ tB tC, tB ≤ ex.ecd.n ∧ tC ≤ ex.ecd.n ∧
      (executeDisplay env ex).1.ecd.currentState
        = phaseApplyC
            { ex.ecd with currentState := phaseApplyB ex.ecd ((List.range ex.ecd.n).take tB) }
            ((List.range ex.ecd.n).take tC) ∧
      (executeDisplay env ex).1.ecd.nextState = ex.ecd.nextState ∧
      ((executeDisplay env ex).2 = false →
        (List.range ex.ecd.n).take tB = List.range ex.ecd.n ∧
        (List.range ex.ecd.n).take tC = List.range ex.ecd.n) := by
  obtain ⟨tB, htB, hecdB, himpB⟩ := execBleachPhase_partial env ex
  rw [executeDisplay]
  by_cases hb : (execBleachPhase env ex).2 = true
  · rw [if_pos hb]
    refine ⟨tB, 0, htB, Nat.zero_le _, ?_, ?_, ?_⟩
    · rw [List.take_zero, phaseApplyC_nil, hecdB]
    · rw [hecdB]
    · intro h
      exact absurd h (by simp)
  · rw [if_neg hb]
    obtain ⟨tC, htC, hecdC, himpC⟩ := execColorPhase_partial env (execBleachPhase env ex).1
    have hn : (execBleachPhase env ex).1.ecd.n = ex.ecd.n := by rw [hecdB]
    rw [hn] at htC hecdC himpC
    rw [hecdB] at hecdC
    by_cases hc : (execColorPhase env (execBleachPhase env ex).1).2 = true
    · rw [if_pos hc]
      refine ⟨tB, tC, htB, htC, ?_, ?_, ?_⟩
      · rw [hecdC]
      · rw [hecdC]
      · intro h
        exact absurd h (by simp)
    · rw [if_neg hc]
      obtain ⟨hfo, _, _⟩ := refreshDisplay_rframe env (execColorPhase env (execBleachPhase env ex).1).1
      refine ⟨tB, tC, htB, htC, ?_, ?_, ?_⟩
      · rw [checkStop_fst_ecd] at *
        rw [flagsOnly_currentState hfo, hecdC]
      · rw [checkStop_fst_ecd] at *
        rw [flagsOnly_nextState hfo, hecdC]
      · intro _
        exact ⟨himpB (Bool.eq_false_iff.mpr hb), himpC (Bool.eq_false_iff.mpr hc)⟩

lemma phaseApply_complete {e : ECD} {i : Nat} (hi : i < e.n)
    (h : e.nextState i = SegState.bleached ∨ e.nextState i = SegState.colored) :
    phaseApplyC { e with currentState := phaseApplyB e (List.range e.n) } (List.range e.n) i
      = e.nextState i := by
  have him : i ∈ List.range e.n := List.mem_range.mpr hi
  have hAB : phaseApplyB e (List.range e.n) i = e.nextState i ∨
      phaseApplyB e (List.range e.n) i = e.currentState i := by
    unfold phaseApplyB
    by_cases hgb : bleachGuard e i
    · simp [him, hgb]
    · simp [him, hgb]
  by_cases hg : colorGuard { e with currentState := phaseApplyB e (List.range e.n) } i
  · unfold phaseApplyC
    simp [him, hg]
  · unfold phaseApplyC
    simp only [him, true_and, hg, if_false]
    rcases h with h | h
    · unfold phaseApplyB
      by_cases hgb : bleachGuard e i
      · simp [him, hgb]
      · have heq : e.nextState i = e.currentState i := by
          by_contra hne
          exact hgb ⟨hne, h⟩
        simp [him, hgb, heq]
    · by_contra hne
      exact hg ⟨fun hx => hne hx.symm, h⟩

lemma refresh_current_eq (env : Env) (ex : Exec) :
    (refreshDisplay env ex).1.ecd.currentState = ex.ecd.currentState :=
  flagsOnly_currentState (refreshDisplay_rframe env ex).1

lemma refresh_next_eq (env : Env) (ex : Exec) :
    (refreshDisplay env ex).1.ecd.nextState = ex.ecd.nextState :=
  flagsOnly_nextState (refreshDisplay_rframe env ex).1

lemma executeDisplay_noStop (env : Env) (hstop : ∀ k, env.stop k = false) (ex : Exec) :
    (executeDisplay env ex).2 = false ∧
    ∀ i, i < ex.ecd.n →
      (ex.ecd.nextState i = SegState.bleached ∨ ex.ecd.nextState i = SegState.colored) →
      (executeDisplay env ex).1.ecd.currentState i = ex.ecd.nextState i := by
  rw [executeDisplay]
  rw [execBleachPhase_noStop env hstop ex]
  dsimp only
  rw [if_neg (by simp)]
  rw [execColorPhase_noStop env hstop _]
  dsimp only
  rw [if_neg (by simp)]
  constructor
  · rw [checkStop_snd, hstop]
  · intro i hi hbc
    rw [checkStop_fst_ecd, refresh_current_eq]
    exact phaseApply_complete hi hbc
lemma segDigWrites_append (t u : List Ev) :
    segDigWrites (t ++ u) = segDigWrites t ++ segDigWrites u := by
  unfold segDigWrites
  rw [List.filter_append]

lemma segDigWrites_ceTrace (e : ECD) (v : ℚ) : segDigWrites (ceTrace e v) = [] := by
  simp [segDigWrites, ceTrace]

lemma segDigWrites_floatTrace (e : ECD) : segDigWrites (floatTrace e) = [] := by
  unfold segDigWrites floatTrace
  induction List.range e.n with
  | nil => simp
  | cons i rest ih => simp [ih]

lemma segDigWrites_bTransTrace (e : ECD) (idxs : List Nat) :
    segDigWrites (bTransTrace e idxs)
      = (bTransIdxs e idxs).map fun i => Ev.digWrite (e.pins i) false := by
  unfold bTransTrace segDigWrites
  induction bTransIdxs e idxs with
  | nil => simp
  | cons i rest ih => simp [ih]

lemma segDigWrites_cTransTrace (e : ECD) (idxs : List Nat) :
    segDigWrites (cTransTrace e idxs)
      = (cTransIdxs e idxs).map fun i => Ev.digWrite (e.pins i) true := by
  unfold cTransTrace segDigWrites
  induction cTransIdxs e idxs with
  | nil => simp
  | cons i rest ih => simp [ih]

lemma eframe_refl (a : ECD) : EFrame a a :=
  ⟨rfl, rfl, rfl, rfl, rfl, rfl, rfl, rfl, rfl, rfl, rfl, rfl⟩

lemma eframe_trans {a b c : ECD} (h1 : EFrame a b) (h2 : EFrame b c) : EFrame a c := by
  obtain ⟨e1, e2, e3, e4, e5, e6, e7, e8, e9, e10, e11, e12⟩ := h1
  obtain ⟨f1, f2, f3, f4, f5, f6, f7, f8, f9, f10, f11, f12⟩ := h2
  exact ⟨f1.trans e1, f2.trans e2, f3.trans e3, f4.trans e4, f5.trans e5, f6.trans e6,
    f7.trans e7, f8.trans e8, f9.trans e9, f10.trans e10, f11.trans e11, f12.trans e12⟩

lemma eframe_of_flagsOnly {a b : ECD} (h : FlagsOnly a b) : EFrame a b :=
  ⟨flagsOnly_n h, flagsOnly_pins h, flagsOnly_cePin h, flagsOnly_nextState h,
   flagsOnly_supply h, flagsOnly_colH h, flagsOnly_colL h, flagsOnly_bleH h,
   flagsOnly_bleL h, flagsOnly_cfg h, flagsOnly_consts h, h.2.2.2.2.2.2.2.2.2.2.2.2⟩

lemma eframe_update_cur (a : ECD) (c : Nat → SegState) :
    EFrame a { a with currentState := c } :=
  ⟨rfl, rfl, rfl, rfl, rfl, rfl, rfl, rfl, rfl, rfl, rfl, rfl⟩

lemma execBleachPhase_eframe (env : Env) (ex : Exec) :
    EFrame ex.ecd (execBleachPhase env ex).1.ecd := by
  obtain ⟨tB, _, hecdB, _⟩ := execBleachPhase_partial env ex
  rw [hecdB]
  exact eframe_update_cur _ _

lemma execColorPhase_eframe (env : Env) (ex : Exec) :
    EFrame ex.ecd (execColorPhase env ex).1.ecd := by
  obtain ⟨tC, _, hecdC, _⟩ := execColorPhase_partial env ex
  rw [hecdC]
  exact eframe_update_cur _ _

lemma executeDisplay_eframe (env : Env) (ex : Exec) :
    EFrame ex.ecd (executeDisplay env ex).1.ecd := by
  rw [executeDisplay]
  by_cases hb : (execBleachPhase env ex).2 = true
  · rw [if_pos hb]
    exact execBleachPhase_eframe env ex
  · rw [if_neg hb]
    by_cases hc : (execColorPhase env (execBleachPhase env ex).1).2 = true
    · rw [if_pos hc]
      exact eframe_trans (execBleachPhase_eframe env ex) (execColorPhase_eframe env _)
    · rw [if_neg hc]
      rw [checkStop_fst_ecd]
      exact eframe_trans (execBleachPhase_eframe env ex)
        (eframe_trans (execColorPhase_eframe env _)
          (eframe_of_flagsOnly (refreshDisplay_rframe env _).1))

lemma phaseApplyB_cases (e : ECD) (idxs : List Nat) (i : Nat) :
    phaseApplyB e idxs i = e.nextState i ∨ phaseApplyB e idxs i = e.currentState i := by
  unfold phaseApplyB
  split
  · exact Or.inl rfl
  · exact Or.inr rfl

lemma phaseApplyC_cases (e : ECD) (idxs : List Nat) (i : Nat) :
    phaseApplyC e idxs i = e.nextState i ∨ phaseApplyC e idxs i = e.currentState i := by
  unfold phaseApplyC
  split
  · exact Or.inl rfl
  · exact Or.inr rfl

lemma segDigWrites_sleep_cond (b : Bool) (t : ℚ) :
    segDigWrites (if b then [] else [Ev.sleepMs t]) = [] := by
  split <;> simp [segDigWrites]

/-! The claim theorems. -/

/-- C1: when `executeDisplay` runs with the stop flag never observed set, it
reports no abort and, for every segment `i < n` whose commanded `nextState`
is Bleached or Colored, `currentState[i] = nextState[i]` on return.
Moreover the digital segment writes of the bleach and color phases are
exactly the segments selected by the transition guard
`nextState[i] ≠ currentState[i] ∧ nextState[i] = phase state` (which is what
`bTransIdxs` / `cTransIdxs` filter by), so a transition — pin drive plus
`currentState` update — is applied to a segment only when
`nextState[i] ≠ currentState[i]`. -/
theorem C1_executeDisplay_reaches_commanded (env : Env) (ex : Exec)
    (hstop : ∀ k, env.stop k = false) :
    (executeDisplay env ex).2 = false ∧
    (∀ i, i < ex.ecd.n →
      (ex.ecd.nextState i = SegState.bleached ∨ ex.ecd.nextState i = SegState.colored) →
      (executeDisplay env ex).1.ecd.currentState i = ex.ecd.nextState i) ∧
    segDigWrites ((execBleachPhase env ex).1.trace)
      = segDigWrites ex.trace
        ++ ((bTransIdxs ex.ecd (List.range ex.ecd.n)).map
            fun i => Ev.digWrite (ex.ecd.pins i) false) ∧
    segDigWrites ((execColorPhase env (execBleachPhase env ex).1).1.trace)
      = segDigWrites ((execBleachPhase env ex).1.trace)
        ++ ((cTransIdxs (execBleachPhase env ex).1.ecd (List.range ex.ecd.n)).map
            fun i => Ev.digWrite (ex.ecd.pins i) true) := by
  obtain ⟨h1, h2⟩ := executeDisplay_noStop env hstop ex
  refine ⟨h1, h2, ?_, ?_⟩
  · rw [execBleachPhase_noStop env hstop ex]
    dsimp only
    rw [segDigWrites_append, segDigWrites_append, segDigWrites_append, segDigWrites_append,
      segDigWrites_ceTrace, segDigWrites_floatTrace, segDigWrites_bTransTrace,
      segDigWrites_sleep_cond]
    simp
  · rw [execColorPhase_noStop env hstop ((execBleachPhase env ex).1)]
    dsimp only
    rw [segDigWrites_append, segDigWrites_append, segDigWrites_append, segDigWrites_append,
      segDigWrites_append, segDigWrites_ceTrace, segDigWrites_floatTrace,
      segDigWrites_cTransTrace, segDigWrites_sleep_cond]
    have hn : (execBleachPhase env ex).1.ecd.n = ex.ecd.n := (execBleachPhase_eframe env ex).1
    have hp : (execBleachPhase env ex).1.ecd.pins = ex.ecd.pins :=
      (execBleachPhase_eframe env ex).2.1
    simp [segDigWrites, hn, hp]

/-- C3: whatever the stop-flag oracle does, `executeDisplay` transitions an
index-order prefix of the segments in each phase and nothing past it: the
final `currentState` is `phaseApplyC` of a prefix of the color-phase range
applied over `phaseApplyB` of a prefix of the bleach-phase range; segments in
those prefixes that transitioned hold their new commanded state, all other
segments keep their old `currentState` (an abort, not a rollback — every
segment ends at its old state or its commanded state), `nextState` is
untouched, and a run that reports no abort processed both full ranges. -/
theorem C3_executeDisplay_abort_prefix (env : Env) (ex : Exec) :
    ∃ tB tC, tB ≤ ex.ecd.n ∧ tC ≤ ex.ecd.n ∧
      (executeDisplay env ex).1.ecd.currentState
        = phaseApplyC
            { ex.ecd with currentState := phaseApplyB ex.ecd ((List.range ex.ecd.n).take tB) }
            ((List.range ex.ecd.n).take tC) ∧
      (∀ i, (executeDisplay env ex).1.ecd.currentState i = ex.ecd.nextState i ∨
            (executeDisplay env ex).1.ecd.currentState i = ex.ecd.currentState i) ∧
      (executeDisplay env ex).1.ecd.nextState = ex.ecd.nextState ∧
      ((executeDisplay env ex).2 = false →
        (List.range ex.ecd.n).take tB = List.range ex.ecd.n ∧
        (List.range ex.ecd.n).take tC = List.range ex.ecd.n) := by
  obtain ⟨tB, tC, htB, htC, hcur, hnext, himp⟩ := executeDisplay_partial env ex
  refine ⟨tB, tC, htB, htC, hcur, ?_, hnext, himp⟩
  intro i
  rw [hcur]
  rcases phaseApplyC_cases
      { ex.ecd with currentState := phaseApplyB ex.ecd ((List.range ex.ecd.n).take tB) }
      ((List.range ex.ecd.n).take tC) i with h | h
  · exact Or.inl h
  · rw [h]
    exact phaseApplyB_cases ex.ecd ((List.range ex.ecd.n).take tB) i

/-- C1 witness: the concrete one-segment run (segment commanded Colored from
Undefined, samples in range, stop flag never set) completes without abort and
leaves the segment Colored. -/
theorem C1_witness :
    (executeDisplay envW exW).2 = false ∧
    (executeDisplay envW exW).1.ecd.currentState 0 = SegState.colored := by
  obtain ⟨h1, h2, _, _⟩ := C1_executeDisplay_reaches_commanded envW exW (fun _ => rfl)
  exact ⟨h1, h2 0 (by decide) (Or.inr rfl)⟩

/-- C8: `setSegmentState(index, state)` with `index ∈ [0, N)` writes the
commanded state to `nextState[index]` and changes nothing else: every other
segment's `nextState`, the whole of `currentState`, the refresh-needed flags,
the limits, the configuration, the constants and the stop flag are untouched,
and the lifted execution performs no hardware primitive — trace, poll count
and read counts are unchanged. -/
theorem C8_setSegmentState_frame (e : ECD) (i : Nat) (b : Bool) (h : i < e.n) :
    (setSegmentState e i b).nextState i
      = (if b then SegState.colored else SegState.bleached) ∧
    (∀ j, j ≠ i → (setSegmentState e i b).nextState j = e.nextState j) ∧
    (setSegmentState e i b).currentState = e.currentState ∧
    (setSegmentState e i b).refreshSegmentNeeded = e.refreshSegmentNeeded ∧
    (setSegmentState e i b).n = e.n ∧
    (setSegmentState e i b).pins = e.pins ∧
    (setSegmentState e i b).cePin = e.cePin ∧
    (setSegmentState e i b).supplyVoltage = e.supplyVoltage ∧
    (setSegmentState e i b).refreshColorLimitH = e.refreshColorLimitH ∧
    (setSegmentState e i b).refreshColorLimitL = e.refreshColorLimitL ∧
    (setSegmentState e i b).refreshBleachLimitH = e.refreshBleachLimitH ∧
    (setSegmentState e i b).refreshBleachLimitL = e.refreshBleachLimitL ∧
    (setSegmentState e i b).cfg = e.cfg ∧
    (setSegmentState e i b).consts = e.consts ∧
    (setSegmentState e i b).stopDrivingFlag = e.stopDrivingFlag ∧
    (∀ ex : Exec, (setSegmentStateExec ex i b).trace = ex.trace ∧
      (setSegmentStateExec ex i b).checks = ex.checks ∧
      (setSegmentStateExec ex i b).reads = ex.reads) := by
  refine ⟨?_, ?_, rfl, rfl, rfl, rfl, rfl, rfl, rfl, rfl, rfl, rfl, rfl, rfl, rfl,
    fun ex => ⟨rfl, rfl, rfl⟩⟩
  · rw [show (setSegmentState e i b).nextState
        = setIdx e.nextState i (if b then SegState.colored else SegState.bleached) from rfl]
    exact setIdx_same _ _ _
  · intro j hj
    rw [show (setSegmentState e i b).nextState
        = setIdx e.nextState i (if b then SegState.colored else SegState.bleached) from rfl]
    exact setIdx_other _ _ hj

/-- C8 witness at segment 0 of the concrete one-segment driver. -/
theorem C8_witness :
    (setSegmentState ecdW 0 true).nextState 0 = SegState.colored ∧
    (setSegmentState ecdW 0 true).currentState = ecdW.currentState := by
  obtain ⟨h1, _, h3, _⟩ := C8_setSegmentState_frame ecdW 0 true (by decide)
  exact ⟨h1, h3⟩

lemma contrib_antitone {c v1 v2 : ℚ} (hc : 0 ≤ c) (hv1 : 0 < v1) (h12 : v1 ≤ v2) :
    c / v2 ≤ c / v1 :=
  div_le_div_of_nonneg_left hc hv1 h12

lemma contrib_monotone {c v1 v2 : ℚ} (hc : c ≤ 0) (hv1 : 0 < v1) (h12 : v1 ≤ v2) :
    c / v1 ≤ c / v2 := by
  have h := contrib_antitone (c := -c) (by linarith) hv1 h12
  rw [neg_div, neg_div] at h
  linarith

lemma colH_formula (e : ECD) (v : ℚ) (hv : v ≠ 0) :
    ((v - e.cfg.refreshColoringVoltage) + e.cfg.refreshColorLimitHVoltage) * e.consts.maxLSB / v
      = e.consts.maxLSB
        + (e.cfg.refreshColorLimitHVoltage - e.cfg.refreshColoringVoltage) * e.consts.maxLSB / v := by
  field_simp
  ring

lemma colL_formula (e : ECD) (v : ℚ) (hv : v ≠ 0) :
    (v / 2 + e.cfg.refreshColorLimitLVoltage) * e.consts.maxLSB / v
      = e.consts.maxLSB / 2 + e.cfg.refreshColorLimitLVoltage * e.consts.maxLSB / v := by
  field_simp
  ring

lemma bleH_formula (e : ECD) (v : ℚ) (hv : v ≠ 0) :
    (v / 2 - e.cfg.refreshBleachLimitHVoltage) * e.consts.maxLSB / v
      = e.consts.maxLSB / 2 - e.cfg.refreshBleachLimitHVoltage * e.consts.maxLSB / v := by
  field_simp
  ring

/-- C6: `updateSupplyVoltage(v)` sets `supplyVoltage` to `v` and immediately
recomputes all four derived refresh limits from `v` and the configuration
(the limit formulas of `updateRefreshLimits` evaluated at `v`, so a limit
read immediately afterwards reflects `v`); and for a fixed configuration each
limit is monotone in the supply voltage — the contribution of the fixed
voltage offset scales as `offset * maxLSB / v`, so the direction is fixed by
the sign of that offset. -/
theorem C6_updateSupplyVoltage (e : ECD) (v v1 v2 : ℚ) (hM : 0 ≤ e.consts.maxLSB)
    (hv1 : 0 < v1) (h12 : v1 ≤ v2) :
    (updateSupplyVoltage e v).supplyVoltage = v ∧
    (updateSupplyVoltage e v).refreshColorLimitH
      = ((v - e.cfg.refreshColoringVoltage) + e.cfg.refreshColorLimitHVoltage)
          * e.consts.maxLSB / v ∧
    (updateSupplyVoltage e v).refreshColorLimitL
      = (v / 2 + e.cfg.refreshColorLimitLVoltage) * e.consts.maxLSB / v ∧
    (updateSupplyVoltage e v).refreshBleachLimitH
      = (v / 2 - e.cfg.refreshBleachLimitHVoltage) * e.consts.maxLSB / v ∧
    (updateSupplyVoltage e v).refreshBleachLimitL
      = (e.cfg.refreshBleachingVoltage - e.cfg.refreshBleachLimitLVoltage)
          * e.consts.maxLSB / v ∧
    (0 ≤ e.cfg.refreshColorLimitHVoltage - e.cfg.refreshColoringVoltage →
      (updateSupplyVoltage e v2).refreshColorLimitH
        ≤ (updateSupplyVoltage e v1).refreshColorLimitH) ∧
    (e.cfg.refreshColorLimitHVoltage - e.cfg.refreshColoringVoltage ≤ 0 →
      (updateSupplyVoltage e v1).refreshColorLimitH
        ≤ (updateSupplyVoltage e v2).refreshColorLimitH) ∧
    (0 ≤ e.cfg.refreshColorLimitLVoltage →
      (updateSupplyVoltage e v2).refreshColorLimitL
        ≤ (updateSupplyVoltage e v1).refreshColorLimitL) ∧
    (e.cfg.refreshColorLimitLVoltage ≤ 0 →
      (updateSupplyVoltage e v1).refreshColorLimitL
        ≤ (updateSupplyVoltage e v2).refreshColorLimitL) ∧
    (0 ≤ e.cfg.refreshBleachLimitHVoltage →
      (updateSupplyVoltage e v1).refreshBleachLimitH
        ≤ (updateSupplyVoltage e v2).refreshBleachLimitH) ∧
    (e.cfg.refreshBleachLimitHVoltage ≤ 0 →
      (updateSupplyVoltage e v2).refreshBleachLimitH
        ≤ (updateSupplyVoltage e v1).refreshBleachLimitH) ∧
    (0 ≤ e.cfg.refreshBleachingVoltage - e.cfg.refreshBleachLimitLVoltage →
      (updateSupplyVoltage e v2).refreshBleachLimitL
        ≤ (updateSupplyVoltage e v1).refreshBleachLimitL) ∧
    (e.cfg.refreshBleachingVoltage - e.cfg.refreshBleachLimitLVoltage ≤ 0 →
      (updateSupplyVoltage e v1).refreshBleachLimitL
        ≤ (updateSupplyVoltage e v2).refreshBleachLimitL) := by
  have hv2 : 0 < v2 := lt_of_lt_of_le hv1 h12
  have hne1 : v1 ≠ 0 := ne_of_gt hv1
  have hne2 : v2 ≠ 0 := ne_of_gt hv2
  refine ⟨rfl, rfl, rfl, rfl, rfl, ?_, ?_, ?_, ?_, ?_, ?_, ?_, ?_⟩
  · intro hoff
    show ((v2 - e.cfg.refreshColoringVoltage) + e.cfg.refreshColorLimitHVoltage)
        * e.consts.maxLSB / v2
      ≤ ((v1 - e.cfg.refreshColoringVoltage) + e.cfg.refreshColorLimitHVoltage)
          * e.consts.maxLSB / v1
    rw [colH_formula e v1 hne1, colH_formula e v2 hne2]
    have := contrib_antitone (c := (e.cfg.refreshColorLimitHVoltage
      - e.cfg.refreshColoringVoltage) * e.consts.maxLSB) (mul_nonneg hoff hM) hv1 h12
    linarith
  · intro hoff
    show ((v1 - e.cfg.refreshColoringVoltage) + e.cfg.refreshColorLimitHVoltage)
        * e.consts.maxLSB / v1
      ≤ ((v2 - e.cfg.refreshColoringVoltage) + e.cfg.refreshColorLimitHVoltage)
          * e.consts.maxLSB / v2
    rw [colH_formula e v1 hne1, colH_formula e v2 hne2]
    have := contrib_monotone (c := (e.cfg.refreshColorLimitHVoltage
      - e.cfg.refreshColoringVoltage) * e.consts.maxLSB)
      (mul_nonpos_of_nonpos_of_nonneg hoff hM) hv1 h12
    linarith
  · intro hoff
    show (v2 / 2 + e.cfg.refreshColorLimitLVoltage) * e.consts.maxLSB / v2
      ≤ (v1 / 2 + e.cfg.refreshColorLimitLVoltage) * e.consts.maxLSB / v1
    rw [colL_formula e v1 hne1, colL_formula e v2 hne2]
    have := contrib_antitone (c := e.cfg.refreshColorLimitLVoltage * e.consts.maxLSB)
      (mul_nonneg hoff hM) hv1 h12
    linarith
  · intro hoff
    show (v1 / 2 + e.cfg.refreshColorLimitLVoltage) * e.consts.maxLSB / v1
      ≤ (v2 / 2 + e.cfg.refreshColorLimitLVoltage) * e.consts.maxLSB / v2
    rw [colL_formula e v1 hne1, colL_formula e v2 hne2]
    have := contrib_monotone (c := e.cfg.refreshColorLimitLVoltage * e.consts.maxLSB)
      (mul_nonpos_of_nonpos_of_nonneg hoff hM) hv1 h12
    linarith
  · intro hoff
    show (v1 / 2 - e.cfg.refreshBleachLimitHVoltage) * e.consts.maxLSB / v1
      ≤ (v2 / 2 - e.cfg.refreshBleachLimitHVoltage) * e.consts.maxLSB / v2
    rw [bleH_formula e v1 hne1, bleH_formula e v2 hne2]
    have := contrib_antitone (c := e.cfg.refreshBleachLimitHVoltage * e.consts.maxLSB)
      (mul_nonneg hoff hM) hv1 h12
    linarith
  · intro hoff
    show (v2 / 2 - e.cfg.refreshBleachLimitHVoltage) * e.consts.maxLSB / v2
      ≤ (v1 / 2 - e.cfg.refreshBleachLimitHVoltage) * e.consts.maxLSB / v1
    rw [bleH_formula e v1 hne1, bleH_formula e v2 hne2]
    have := contrib_monotone (c := e.cfg.refreshBleachLimitHVoltage * e.consts.maxLSB)
      (mul_nonpos_of_nonpos_of_nonneg hoff hM) hv1 h12
    linarith
  · intro hoff
    show (e.cfg.refreshBleachingVoltage - e.cfg.refreshBleachLimitLVoltage)
        * e.consts.maxLSB / v2
      ≤ (e.cfg.refreshBleachingVoltage - e.cfg.refreshBleachLimitLVoltage)
          * e.consts.maxLSB / v1
    exact contrib_antitone (mul_nonneg hoff hM) hv1 h12
  · intro hoff
    show (e.cfg.refreshBleachingVoltage - e.cfg.refreshBleachLimitLVoltage)
        * e.consts.maxLSB / v1
      ≤ (e.cfg.refreshBleachingVoltage - e.cfg.refreshBleachLimitLVoltage)
          * e.consts.maxLSB / v2
    exact contrib_monotone (mul_nonpos_of_nonpos_of_nonneg hoff hM) hv1 h12

/-- C6 witness at the concrete driver, `v = 5`, `v1 = 2`, `v2 = 4`. -/
theorem C6_witness :
    (updateSupplyVoltage ecdW 5).supplyVoltage = 5 ∧
    ((0 : ℚ) ≤ ecdW.cfg.refreshColorLimitLVoltage →
      (updateSupplyVoltage ecdW 4).refreshColorLimitL
        ≤ (updateSupplyVoltage ecdW 2).refreshColorLimitL) := by
  obtain ⟨h1, _, _, _, _, _, _, h8, _⟩ :=
    C6_updateSupplyVoltage ecdW 5 2 4 (by norm_num [ecdW]) (by norm_num) (by norm_num)
  exact ⟨h1, h8⟩

lemma list_any_congr {α : Type} {f g : α → Bool} :
    ∀ {l : List α}, (∀ a ∈ l, f a = g a) → l.any f = l.any g := by
  intro l
  induction l with
  | nil => intro _; rfl
  | cons a rest ih =>
    intro h
    rw [List.any_cons, List.any_cons, h a (List.mem_cons_self a rest),
      ih fun b hb => h b (List.mem_cons_of_mem a hb)]

lemma classColorCond_shift (env : Env) {ex ex' : Exec} (j : Nat)
    (hcur : ex'.ecd.currentState j = ex.ecd.currentState j)
    (hpins : ex'.ecd.pins j = ex.ecd.pins j)
    (hreads : ex'.reads (ex.ecd.pins j) = ex.reads (ex.ecd.pins j))
    (hlim : ex'.ecd.refreshColorLimitL = ex.ecd.refreshColorLimitL) :
    classColorCond env ex' j ↔ classColorCond env ex j := by
  unfold classColorCond
  rw [hcur, hpins, hreads, hlim]

lemma classBleachCond_shift (env : Env) {ex ex' : Exec} (j : Nat)
    (hcur : ex'.ecd.currentState j = ex.ecd.currentState j)
    (hpins : ex'.ecd.pins j = ex.ecd.pins j)
    (hreads : ex'.reads (ex.ecd.pins j) = ex.reads (ex.ecd.pins j))
    (hlim : ex'.ecd.refreshBleachLimitH = ex.ecd.refreshBleachLimitH) :
    classBleachCond env ex' j ↔ classBleachCond env ex j := by
  unfold classBleachCond
  rw [hcur, hpins, hreads, hlim]

lemma classifyLoop_noStop (env : Env) (hstop : ∀ k, env.stop k = false) :
    ∀ (idxs : List Nat) (ex : Exec) (cN bN : Bool), idxs.Nodup → PinsInjOn ex.ecd idxs →
      (classifyLoop env ex idxs cN bN).2.1 = false ∧
      (classifyLoop env ex idxs cN bN).2.2.1
        = (cN || idxs.any fun i => decide (classColorCond env ex i)) ∧
      (classifyLoop env ex idxs cN bN).2.2.2
        = (bN || idxs.any fun i => decide (classBleachCond env ex i)) ∧
      ∀ j, (classifyLoop env ex idxs cN bN).1.ecd.refreshSegmentNeeded j
        = (ex.ecd.refreshSegmentNeeded j
           || (decide (j ∈ idxs)
               && (decide (classColorCond env ex j) || decide (classBleachCond env ex j)))) := by
  intro idxs
  induction idxs with
  | nil =>
    intro ex cN bN _ _
    rw [classifyLoop]
    refine ⟨rfl, by simp, by simp, fun j => by simp⟩
  | cons i rest ih =>
    intro ex cN bN hnd hinj
    rw [List.nodup_cons] at hnd
    obtain ⟨hir, hndr⟩ := hnd
    have hinjR : PinsInjOn ex.ecd rest := fun a ha b hb =>
      hinj a (List.mem_cons_of_mem _ ha) b (List.mem_cons_of_mem _ hb)
    have hpinj : ∀ j ∈ rest, ex.ecd.pins j ≠ ex.ecd.pins i := by
      intro j hj heq
      exact hir ((hinj j (List.mem_cons_of_mem _ hj) i (List.mem_cons_self i rest) heq) ▸ hj)
    rw [classifyLoop]
    simp only [checkStop_snd, hstop, Bool.false_eq_true, if_false, checkStop_fst_ecd,
      checkStop_fst_reads, checkStop_fst_trace, checkStop_fst_checks, emit_ecd, emit_reads,
      readAnalog_fst_ecd, readAnalog_snd, readAnalog_fst_reads]
    by_cases hc1 : classColorCond env ex i
    · have hc1u : ex.ecd.currentState i = SegState.colored ∧
          ((env.samples (ex.ecd.pins i) (ex.reads (ex.ecd.pins i)) : ℚ)
            < ex.ecd.refreshColorLimitL) := hc1
      rw [if_pos hc1u]
      have hshiftC : ∀ j ∈ rest,
          (decide (classColorCond env
            (setFlag (readAnalog env (emit (checkStop env ex).1
              (Ev.pinModeIn (ex.ecd.pins i))) (ex.ecd.pins i)).1 i) j) : Bool)
          = decide (classColorCond env ex j) := by
        intro j hj
        refine decide_eq_decide.mpr (classColorCond_shift env j rfl rfl ?_ rfl)
        simp only [setFlag_reads, readAnalog_fst_reads, emit_reads, checkStop_fst_reads]
        exact setIdx_other _ _ (hpinj j hj)
      have hshiftB : ∀ j ∈ rest,
          (decide (classBleachCond env
            (setFlag (readAnalog env (emit (checkStop env ex).1
              (Ev.pinModeIn (ex.ecd.pins i))) (ex.ecd.pins i)).1 i) j) : Bool)
          = decide (classBleachCond env ex j) := by
        intro j hj
        refine decide_eq_decide.mpr (classBleachCond_shift env j rfl rfl ?_ rfl)
        simp only [setFlag_reads, readAnalog_fst_reads, emit_reads, checkStop_fst_reads]
        exact setIdx_other _ _ (hpinj j hj)
      obtain ⟨ih1, ih2, ih3, ih4⟩ := ih
        (setFlag (readAnalog env (emit (checkStop env ex).1
          (Ev.pinModeIn (ex.ecd.pins i))) (ex.ecd.pins i)).1 i) true bN hndr hinjR
      have hnb : ¬ classBleachCond env ex i := by
        intro hb
        rw [classBleachCond] at hb
        rw [hc1.1] at hb
        simp at hb
      refine ⟨ih1, ?_, ?_, ?_⟩
      · rw [ih2, list_any_congr hshiftC]
        simp [List.any_cons, hc1]
      · rw [ih3, list_any_congr hshiftB]
        simp [List.any_cons, hnb]
      · intro j
        rw [ih4 j]
        by_cases hji : j = i
        · subst hji
          simp [hir, hc1]
        · have hmem : (j ∈ i :: rest) ↔ (j ∈ rest) := by
            simp [List.mem_cons, hji]
          by_cases hjr : j ∈ rest
          · simp only [setFlag_flags, setIdx_other _ _ hji]
            rw [hshiftC j hjr, hshiftB j hjr]
            simp [hjr, hmem.mpr hjr]
          · simp only [setFlag_flags, setIdx_other _ _ hji]
            simp [hjr, hji]
    · have hc1u : ¬ (ex.ecd.currentState i = SegState.colored ∧
          ((env.samples (ex.ecd.pins i) (ex.reads (ex.ecd.pins i)) : ℚ)
            < ex.ecd.refreshColorLimitL)) := hc1
      rw [if_neg hc1u]
      by_cases hc2 : classBleachCond env ex i
      · have hc2u : ex.ecd.currentState i = SegState.bleached ∧
            ((env.samples (ex.ecd.pins i) (ex.reads (ex.ecd.pins i)) : ℚ)
              > ex.ecd.refreshBleachLimitH) := hc2
        rw [if_pos hc2u]
        have hshiftC : ∀ j ∈ rest,
            (decide (classColorCond env
              (setFlag (readAnalog env (emit (checkStop env ex).1
                (Ev.pinModeIn (ex.ecd.pins i))) (ex.ecd.pins i)).1 i) j) : Bool)
            = decide (classColorCond env ex j) := by
          intro j hj
          refine decide_eq_decide.mpr (classColorCond_shift env j rfl rfl ?_ rfl)
          simp only [setFlag_reads, readAnalog_fst_reads, emit_reads, checkStop_fst_reads]
          exact setIdx_other _ _ (hpinj j hj)
        have hshiftB : ∀ j ∈ rest,
            (decide (classBleachCond env
              (setFlag (readAnalog env (emit (checkStop env ex).1
                (Ev.pinModeIn (ex.ecd.pins i))) (ex.ecd.pins i)).1 i) j) : Bool)
            = decide (classBleachCond env ex j) := by
          intro j hj
          refine decide_eq_decide.mpr (classBleachCond_shift env j rfl rfl ?_ rfl)
          simp only [setFlag_reads, readAnalog_fst_reads, emit_reads, checkStop_fst_reads]
          exact setIdx_other _ _ (hpinj j hj)
        obtain ⟨ih1, ih2, ih3, ih4⟩ := ih
          (setFlag (readAnalog env (emit (checkStop env ex).1
            (Ev.pinModeIn (ex.ecd.pins i))) (ex.ecd.pins i)).1 i) cN true hndr hinjR
        refine ⟨ih1, ?_, ?_, ?_⟩
        · rw [ih2, list_any_congr hshiftC]
          simp [List.any_cons, hc1]
        · rw [ih3, list_any_congr hshiftB]
          simp [List.any_cons, hc2]
        · intro j
          rw [ih4 j]
          by_cases hji : j = i
          · subst hji
            simp [hir, hc2]
          · have hmem : (j ∈ i :: rest) ↔ (j ∈ rest) := by
              simp [List.mem_cons, hji]
            by_cases hjr : j ∈ rest
            · simp only [setFlag_flags, setIdx_other _ _ hji]
              rw [hshiftC j hjr, hshiftB j hjr]
              simp [hjr, hmem.mpr hjr]
            · simp only [setFlag_flags, setIdx_other _ _ hji]
              simp [hjr, hji]
      · have hc2u : ¬ (ex.ecd.currentState i = SegState.bleached ∧
            ((env.samples (ex.ecd.pins i) (ex.reads (ex.ecd.pins i)) : ℚ)
              > ex.ecd.refreshBleachLimitH)) := hc2
        rw [if_neg hc2u]
        have hshiftC : ∀ j ∈ rest,
            (decide (classColorCond env
              (readAnalog env (emit (checkStop env ex).1
                (Ev.pinModeIn (ex.ecd.pins i))) (ex.ecd.pins i)).1 j) : Bool)
            = decide (classColorCond env ex j) := by
          intro j hj
          refine decide_eq_decide.mpr (classColorCond_shift env j rfl rfl ?_ rfl)
          simp only [readAnalog_fst_reads, emit_reads, checkStop_fst_reads]
          exact setIdx_other _ _ (hpinj j hj)
        have hshiftB : ∀ j ∈ rest,
            (decide (classBleachCond env
              (readAnalog env (emit (checkStop env ex).1
                (Ev.pinModeIn (ex.ecd.pins i))) (ex.ecd.pins i)).1 j) : Bool)
            = decide (classBleachCond env ex j) := by
          intro j hj
          refine decide_eq_decide.mpr (classBleachCond_shift env j rfl rfl ?_ rfl)
          simp only [readAnalog_fst_reads, emit_reads, checkStop_fst_reads]
          exact setIdx_other _ _ (hpinj j hj)
        obtain ⟨ih1, ih2, ih3, ih4⟩ := ih
          (readAnalog env (emit (checkStop env ex).1
            (Ev.pinModeIn (ex.ecd.pins i))) (ex.ecd.pins i)).1 cN bN hndr hinjR
        refine ⟨ih1, ?_, ?_, ?_⟩
        · rw [ih2, list_any_congr hshiftC]
          simp [List.any_cons, hc1]
        · rw [ih3, list_any_congr hshiftB]
          simp [List.any_cons, hc2]
        · intro j
          rw [ih4 j]
          by_cases hji : j = i
          · subst hji
            simp [hir, hc1, hc2]
          · have hmem : (j ∈ i :: rest) ↔ (j ∈ rest) := by
              simp [List.mem_cons, hji]
            by_cases hjr : j ∈ rest
            · rw [hshiftC j hjr, hshiftB j hjr]
              simp [hjr, hmem.mpr hjr]
            · simp [hjr, hji]

lemma bleachPulseLoop_noStop (env : Env) (hstop : ∀ k, env.stop k = false) :
    ∀ (idxs : List Nat) (ex : Exec),
      bleachPulseLoop env ex idxs
        = ({ ex with
              checks := ex.checks + idxs.length,
              trace := ex.trace ++ bPulseTrace ex.ecd idxs }, false) := by
  intro idxs
  induction idxs with
  | nil =>
    intro ex
    rw [bleachPulseLoop]
    simp [bPulseTrace, bPulseIdxs]
  | cons i rest ih =>
    intro ex
    rw [bleachPulseLoop]
    simp only [checkStop_snd, hstop, Bool.false_eq_true, if_false, checkStop_fst_ecd]
    by_cases hg : ex.ecd.currentState i = SegState.bleached ∧ ex.ecd.refreshSegmentNeeded i = true
    · rw [if_pos hg]
      rw [ih]
      have htr : bPulseTrace ex.ecd (i :: rest)
          = Ev.pinModeOut (ex.ecd.pins i) :: Ev.digWrite (ex.ecd.pins i) false
              :: bPulseTrace ex.ecd rest := by
        unfold bPulseTrace bPulseIdxs
        rw [List.filter_cons]
        simp [hg]
      rw [htr]
      simp [Nat.add_assoc, Nat.add_comm 1, List.append_assoc]
    · rw [if_neg hg]
      rw [ih]
      have htr : bPulseTrace ex.ecd (i :: rest) = bPulseTrace ex.ecd rest := by
        unfold bPulseTrace bPulseIdxs
        rw [List.filter_cons]
        simp [hg]
      rw [htr]
      simp [Nat.add_assoc, Nat.add_comm 1]

lemma colorPulseLoop_noStop (env : Env) (hstop : ∀ k, env.stop k = false) :
    ∀ (idxs : List Nat) (ex : Exec),
      colorPulseLoop env ex idxs
        = ({ ex with
              checks := ex.checks + idxs.length,
              trace := ex.trace ++ cPulseTrace ex.ecd idxs }, false) := by
  intro idxs
  induction idxs with
  | nil =>
    intro ex
    rw [colorPulseLoop]
    simp [cPulseTrace, cPulseIdxs]
  | cons i rest ih =>
    intro ex
    rw [colorPulseLoop]
    simp only [checkStop_snd, hstop, Bool.false_eq_true, if_false, checkStop_fst_ecd]
    by_cases hg : ex.ecd.currentState i = SegState.colored ∧ ex.ecd.refreshSegmentNeeded i = true
    · rw [if_pos hg]
      rw [ih]
      have htr : cPulseTrace ex.ecd (i :: rest)
          = Ev.pinModeOut (ex.ecd.pins i) :: Ev.digWrite (ex.ecd.pins i) true
              :: cPulseTrace ex.ecd rest := by
        unfold cPulseTrace cPulseIdxs
        rw [List.filter_cons]
        simp [hg]
      rw [htr]
      simp [Nat.add_assoc, Nat.add_comm 1, List.append_assoc]
    · rw [if_neg hg]
      rw [ih]
      have htr : cPulseTrace ex.ecd (i :: rest) = cPulseTrace ex.ecd rest := by
        unfold cPulseTrace cPulseIdxs
        rw [List.filter_cons]
        simp [hg]
      rw [htr]
      simp [Nat.add_assoc, Nat.add_comm 1]

lemma readsTo_append (p : Nat) (t u : List Ev) :
    readsTo p (t ++ u) = readsTo p t + readsTo p u := by
  unfold readsTo
  rw [List.countP_append]

lemma readsTo_bPulseTrace (p : Nat) (e : ECD) (idxs : List Nat) :
    readsTo p (bPulseTrace e idxs) = 0 := by
  unfold bPulseTrace readsTo
  induction bPulseIdxs e idxs with
  | nil => simp
  | cons i rest ih => simp [ih, List.countP_cons]

lemma readsTo_cPulseTrace (p : Nat) (e : ECD) (idxs : List Nat) :
    readsTo p (cPulseTrace e idxs) = 0 := by
  unfold cPulseTrace readsTo
  induction cPulseIdxs e idxs with
  | nil => simp
  | cons i rest ih => simp [ih, List.countP_cons]

lemma readsTo_floatTrace (p : Nat) (e : ECD) : readsTo p (floatTrace e) = 0 := by
  unfold floatTrace readsTo
  induction List.range e.n with
  | nil => simp
  | cons i rest ih => simp [ih, List.countP_cons]

lemma readsTo_ceTrace (p : Nat) (e : ECD) (v : ℚ) : readsTo p (ceTrace e v) = 0 := by
  simp [readsTo, ceTrace]

lemma count_pulse_fold (e : ECD) (p : Nat) (lvl : Bool) :
    ∀ l : List Nat,
      ((l.foldr (fun j acc => Ev.pinModeOut (e.pins j) :: Ev.digWrite (e.pins j) lvl :: acc)
        []).count (Ev.digWrite p lvl))
        = l.countP fun j => decide (e.pins j = p) := by
  intro l
  induction l with
  | nil => simp
  | cons a rest ih =>
    simp only [List.foldr_cons, List.count_cons, List.countP_cons, ih]
    by_cases hap : e.pins a = p
    · simp [hap]
    · simp [hap, Ev.digWrite.injEq]

lemma countP_pins_single {e : ECD} {p s : Nat} :
    ∀ {l : List Nat}, l.Nodup → s ∈ l → (∀ j ∈ l, e.pins j = p → j = s) → e.pins s = p →
      (l.countP fun j => decide (e.pins j = p)) = 1 := by
  intro l
  induction l with
  | nil => intro _ hs; exact absurd hs (List.not_mem_nil s)
  | cons a rest ih =>
    intro hnd hs hinj hp
    rw [List.nodup_cons] at hnd
    obtain ⟨har, hndr⟩ := hnd
    rw [List.countP_cons]
    by_cases has : a = s
    · subst has
      have hz : rest.countP (fun j => decide (e.pins j = p)) = 0 := by
        rw [List.countP_eq_zero]
        intro j hj
        simp only [decide_eq_true_eq]
        intro heq
        exact har ((hinj j (List.mem_cons_of_mem _ hj) heq) ▸ hj)
      simp [hz, hp]
    · have hap : e.pins a ≠ p := fun h => has (hinj a (List.mem_cons_self a rest) h)
      have hsr : s ∈ rest := by
        rcases List.mem_cons.mp hs with h | h
        · exact absurd h.symm has
        · exact h
      rw [ih hndr hsr (fun j hj => hinj j (List.mem_cons_of_mem _ hj)) hp]
      simp [hap]

lemma count_bPulseTrace_one {e : ECD} {idxs : List Nat} {s : Nat} (hnd : idxs.Nodup)
    (hinj : ∀ j ∈ idxs, e.pins j = e.pins s → j = s) (hs : s ∈ idxs)
    (hcur : e.currentState s = SegState.bleached) (hflag : e.refreshSegmentNeeded s = true) :
    (bPulseTrace e idxs).count (Ev.digWrite (e.pins s) false) = 1 := by
  unfold bPulseTrace
  rw [count_pulse_fold]
  refine countP_pins_single ?_ ?_ ?_ rfl
  · exact List.Nodup.filter _ hnd
  · unfold bPulseIdxs
    rw [List.mem_filter]
    exact ⟨hs, by simp [hcur, hflag]⟩
  · intro j hj
    exact hinj j (List.mem_of_mem_filter hj)

lemma count_cPulseTrace_one {e : ECD} {idxs : List Nat} {s : Nat} (hnd : idxs.Nodup)
    (hinj : ∀ j ∈ idxs, e.pins j = e.pins s → j = s) (hs : s ∈ idxs)
    (hcur : e.currentState s = SegState.colored) (hflag : e.refreshSegmentNeeded s = true) :
    (cPulseTrace e idxs).count (Ev.digWrite (e.pins s) true) = 1 := by
  unfold cPulseTrace
  rw [count_pulse_fold]
  refine countP_pins_single ?_ ?_ ?_ rfl
  · exact List.Nodup.filter _ hnd
  · unfold cPulseIdxs
    rw [List.mem_filter]
    exact ⟨hs, by simp [hcur, hflag]⟩
  · intro j hj
    exact hinj j (List.mem_of_mem_filter hj)

lemma mem_bPulseTrace {e : ECD} {idxs : List Nat} {s : Nat} (hs : s ∈ idxs)
    (hcur : e.currentState s = SegState.bleached) (hflag : e.refreshSegmentNeeded s = true) :
    Ev.digWrite (e.pins s) false ∈ bPulseTrace e idxs := by
  unfold bPulseTrace
  have hsp : s ∈ bPulseIdxs e idxs := by
    unfold bPulseIdxs
    rw [List.mem_filter]
    exact ⟨hs, by simp [hcur, hflag]⟩
  clear hs
  generalize bPulseIdxs e idxs = l at hsp ⊢
  induction l with
  | nil => exact absurd hsp (List.not_mem_nil s)
  | cons a rest ih =>
    rcases List.mem_cons.mp hsp with h | h
    · subst h
      simp
    · simp only [List.foldr_cons, List.mem_cons]
      exact Or.inr (Or.inr (ih h))

lemma recheckBleachCond_shift (env : Env) {ex ex' : Exec} (r j : Nat)
    (hcur : ex'.ecd.currentState j = ex.ecd.currentState j)
    (hpins : ex'.ecd.pins j = ex.ecd.pins j)
    (hreads : ex'.reads (ex.ecd.pins j) = ex.reads (ex.ecd.pins j))
    (hconst : ex'.ecd.consts = ex.ecd.consts)
    (hlim : ex'.ecd.refreshBleachLimitL = ex.ecd.refreshBleachLimitL) :
    recheckBleachCond env ex' r j ↔ recheckBleachCond env ex r j := by
  unfold recheckBleachCond
  rw [hcur, hpins, hreads, hconst, hlim]

lemma recheckColorCond_shift (env : Env) {ex ex' : Exec} (r j : Nat)
    (hcur : ex'.ecd.currentState j = ex.ecd.currentState j)
    (hpins : ex'.ecd.pins j = ex.ecd.pins j)
    (hreads : ex'.reads (ex.ecd.pins j) = ex.reads (ex.ecd.pins j))
    (hconst : ex'.ecd.consts = ex.ecd.consts)
    (hlim : ex'.ecd.refreshColorLimitH = ex.ecd.refreshColorLimitH) :
    recheckColorCond env ex' r j ↔ recheckColorCond env ex r j := by
  unfold recheckColorCond
  rw [hcur, hpins, hreads, hconst, hlim]

lemma bleachRecheckLoop_noStop (env : Env) (hstop : ∀ k, env.stop k = false) :
    ∀ (idxs : List Nat) (ex : Exec) (r : Nat) (nd : Bool), idxs.Nodup →
      PinsInjOn ex.ecd idxs →
      (bleachRecheckLoop env ex idxs r nd).2.1 = false ∧
      (bleachRecheckLoop env ex idxs r nd).2.2
        = (nd || idxs.any fun i => decide (recheckBleachCond env ex r i)) ∧
      ∀ j, (bleachRecheckLoop env ex idxs r nd).1.ecd.refreshSegmentNeeded j
        = (ex.ecd.refreshSegmentNeeded j
           || (decide (j ∈ idxs) && decide (recheckBleachCond env ex r j))) := by
  intro idxs
  induction idxs with
  | nil =>
    intro ex r nd _ _
    rw [bleachRecheckLoop]
    exact ⟨rfl, by simp, fun j => by simp⟩
  | cons i rest ih =>
    intro ex r nd hnd hinj
    rw [List.nodup_cons] at hnd
    obtain ⟨hir, hndr⟩ := hnd
    have hinjR : PinsInjOn ex.ecd rest := fun a ha b hb =>
      hinj a (List.mem_cons_of_mem _ ha) b (List.mem_cons_of_mem _ hb)
    have hpinj : ∀ j ∈ rest, ex.ecd.pins j ≠ ex.ecd.pins i := by
      intro j hj heq
      exact hir ((hinj j (List.mem_cons_of_mem _ hj) i (List.mem_cons_self i rest) heq) ▸ hj)
    rw [bleachRecheckLoop]
    simp only [checkStop_snd, hstop, Bool.false_eq_true, if_false, checkStop_fst_ecd,
      checkStop_fst_reads, emit_ecd, emit_reads, readAnalog_fst_ecd, readAnalog_snd,
      readAnalog_fst_reads]
    by_cases hg : ex.ecd.currentState i = SegState.bleached ∧ r < ex.ecd.consts.maxRefreshRetries
    · rw [if_pos hg]
      by_cases hv : ((env.samples (ex.ecd.pins i) (ex.reads (ex.ecd.pins i)) : ℚ)
          > ex.ecd.refreshBleachLimitL)
      · rw [if_pos hv]
        have hcond : recheckBleachCond env ex r i := ⟨hg.1, hg.2, hv⟩
        have hshift : ∀ j ∈ rest,
            (decide (recheckBleachCond env
              (setFlag (readAnalog env (emit (checkStop env ex).1
                (Ev.pinModeIn (ex.ecd.pins i))) (ex.ecd.pins i)).1 i) r j) : Bool)
            = decide (recheckBleachCond env ex r j) := by
          intro j hj
          refine decide_eq_decide.mpr (recheckBleachCond_shift env r j rfl rfl ?_ rfl rfl)
          simp only [setFlag_reads, readAnalog_fst_reads, emit_reads, checkStop_fst_reads]
          exact setIdx_other _ _ (hpinj j hj)
        obtain ⟨ih1, ih2, ih3⟩ := ih
          (setFlag (readAnalog env (emit (checkStop env ex).1
            (Ev.pinModeIn (ex.ecd.pins i))) (ex.ecd.pins i)).1 i) r true hndr hinjR
        refine ⟨ih1, ?_, ?_⟩
        · rw [ih2, list_any_congr hshift]
          simp [List.any_cons, hcond]
        · intro j
          rw [ih3 j]
          by_cases hji : j = i
          · subst hji
            simp [hir, hcond]
          · by_cases hjr : j ∈ rest
            · simp only [setFlag_flags, setIdx_other _ _ hji]
              rw [hshift j hjr]
              simp [hjr, List.mem_cons]
            · simp only [setFlag_flags, setIdx_other _ _ hji]
              simp [hjr, hji]
      · rw [if_neg hv]
        have hcond : ¬ recheckBleachCond env ex r i := fun h => hv h.2.2
        have hshift : ∀ j ∈ rest,
            (decide (recheckBleachCond env
              (readAnalog env (emit (checkStop env ex).1
                (Ev.pinModeIn (ex.ecd.pins i))) (ex.ecd.pins i)).1 r j) : Bool)
            = decide (recheckBleachCond env ex r j) := by
          intro j hj
          refine decide_eq_decide.mpr (recheckBleachCond_shift env r j rfl rfl ?_ rfl rfl)
          simp only [readAnalog_fst_reads, emit_reads, checkStop_fst_reads]
          exact setIdx_other _ _ (hpinj j hj)
        obtain ⟨ih1, ih2, ih3⟩ := ih
          (readAnalog env (emit (checkStop env ex).1
            (Ev.pinModeIn (ex.ecd.pins i))) (ex.ecd.pins i)).1 r nd hndr hinjR
        refine ⟨ih1, ?_, ?_⟩
        · rw [ih2, list_any_congr hshift]
          simp [List.any_cons, hcond]
        · intro j
          rw [ih3 j]
          by_cases hji : j = i
          · subst hji
            simp [hir, hcond]
          · by_cases hjr : j ∈ rest
            · rw [hshift j hjr]
              simp [hjr, List.mem_cons]
            · simp [hjr, hji]
    · rw [if_neg hg]
      have hcond : ¬ recheckBleachCond env ex r i := fun h => hg ⟨h.1, h.2.1⟩
      obtain ⟨ih1, ih2, ih3⟩ := ih (checkStop env ex).1 r nd hndr hinjR
      have hbr : (rest.any fun a => decide (recheckBleachCond env (checkStop env ex).1 r a))
          = rest.any fun a => decide (recheckBleachCond env ex r a) := rfl
      have hbr2 : ∀ j, (decide (recheckBleachCond env (checkStop env ex).1 r j) : Bool)
          = decide (recheckBleachCond env ex r j) := fun j => rfl
      refine ⟨ih1, ?_, ?_⟩
      · rw [ih2, hbr]
        simp [List.any_cons, hcond]
      · intro j
        rw [ih3 j, hbr2 j]
        by_cases hji : j = i
        · subst hji
          simp [hir, hcond]
        · by_cases hjr : j ∈ rest
          · simp [hjr, List.mem_cons]
          · simp [hjr, hji]

lemma colorRecheckLoop_noStop (env : Env) (hstop : ∀ k, env.stop k = false) :
    ∀ (idxs : List Nat) (ex : Exec) (r : Nat) (nd : Bool), idxs.Nodup →
      PinsInjOn ex.ecd idxs →
      (colorRecheckLoop env ex idxs r nd).2.1 = false ∧
      (colorRecheckLoop env ex idxs r nd).2.2
        = (nd || idxs.any fun i => decide (recheckColorCond env ex r i)) ∧
      ∀ j, (colorRecheckLoop env ex idxs r nd).1.ecd.refreshSegmentNeeded j
        = (ex.ecd.refreshSegmentNeeded j
           || (decide (j ∈ idxs) && decide (recheckColorCond env ex r j))) := by
  intro idxs
  induction idxs with
  | nil =>
    intro ex r nd _ _
    rw [colorRecheckLoop]
    exact ⟨rfl, by simp, fun j => by simp⟩
  | cons i rest ih =>
    intro ex r nd hnd hinj
    rw [List.nodup_cons] at hnd
    obtain ⟨hir, hndr⟩ := hnd
    have hinjR : PinsInjOn ex.ecd rest := fun a ha b hb =>
      hinj a (List.mem_cons_of_mem _ ha) b (List.mem_cons_of_mem _ hb)
    have hpinj : ∀ j ∈ rest, ex.ecd.pins j ≠ ex.ecd.pins i := by
      intro j hj heq
      exact hir ((hinj j (List.mem_cons_of_mem _ hj) i (List.mem_cons_self i rest) heq) ▸ hj)
    rw [colorRecheckLoop]
    simp only [checkStop_snd, hstop, Bool.false_eq_true, if_false, checkStop_fst_ecd,
      checkStop_fst_reads, emit_ecd, emit_reads, readAnalog_fst_ecd, readAnalog_snd,
      readAnalog_fst_reads]
    by_cases hg : ex.ecd.currentState i = SegState.colored ∧ r < ex.ecd.consts.maxRefreshRetries
    · rw [if_pos hg]
      by_cases hv : ((env.samples (ex.ecd.pins i) (ex.reads (ex.ecd.pins i)) : ℚ)
          < ex.ecd.refreshColorLimitH)
      · rw [if_pos hv]
        have hcond : recheckColorCond env ex r i := ⟨hg.1, hg.2, hv⟩
        have hshift : ∀ j ∈ rest,
            (decide (recheckColorCond env
              (setFlag (readAnalog env (emit (checkStop env ex).1
                (Ev.pinModeIn (ex.ecd.pins i))) (ex.ecd.pins i)).1 i) r j) : Bool)
            = decide (recheckColorCond env ex r j) := by
          intro j hj
          refine decide_eq_decide.mpr (recheckColorCond_shift env r j rfl rfl ?_ rfl rfl)
          simp only [setFlag_reads, readAnalog_fst_reads, emit_reads, checkStop_fst_reads]
          exact setIdx_other _ _ (hpinj j hj)
        obtain ⟨ih1, ih2, ih3⟩ := ih
          (setFlag (readAnalog env (emit (checkStop env ex).1
            (Ev.pinModeIn (ex.ecd.pins i))) (ex.ecd.pins i)).1 i) r true hndr hinjR
        refine ⟨ih1, ?_, ?_⟩
        · rw [ih2, list_any_congr hshift]
          simp [List.any_cons, hcond]
        · intro j
          rw [ih3 j]
          by_cases hji : j = i
          · subst hji
            simp [hir, hcond]
          · by_cases hjr : j ∈ rest
            · simp only [setFlag_flags, setIdx_other _ _ hji]
              rw [hshift j hjr]
              simp [hjr, List.mem_cons]
            · simp only [setFlag_flags, setIdx_other _ _ hji]
              simp [hjr, hji]
      · rw [if_neg hv]
        have hcond : ¬ recheckColorCond env ex r i := fun h => hv h.2.2
        have hshift : ∀ j ∈ rest,
            (decide (recheckColorCond env
              (readAnalog env (emit (checkStop env ex).1
                (Ev.pinModeIn (ex.ecd.pins i))) (ex.ecd.pins i)).1 r j) : Bool)
            = decide (recheckColorCond env ex r j) := by
          intro j hj
          refine decide_eq_decide.mpr (recheckColorCond_shift env r j rfl rfl ?_ rfl rfl)
          simp only [readAnalog_fst_reads, emit_reads, checkStop_fst_reads]
          exact setIdx_other _ _ (hpinj j hj)
        obtain ⟨ih1, ih2, ih3⟩ := ih
          (readAnalog env (emit (checkStop env ex).1
            (Ev.pinModeIn (ex.ecd.pins i))) (ex.ecd.pins i)).1 r nd hndr hinjR
        refine ⟨ih1, ?_, ?_⟩
        · rw [ih2, list_any_congr hshift]
          simp [List.any_cons, hcond]
        · intro j
          rw [ih3 j]
          by_cases hji : j = i
          · subst hji
            simp [hir, hcond]
          · by_cases hjr : j ∈ rest
            · rw [hshift j hjr]
              simp [hjr, List.mem_cons]
            · simp [hjr, hji]
    · rw [if_neg hg]
      have hcond : ¬ recheckColorCond env ex r i := fun h => hg ⟨h.1, h.2.1⟩
      obtain ⟨ih1, ih2, ih3⟩ := ih (checkStop env ex).1 r nd hndr hinjR
      have hbr : (rest.any fun a => decide (recheckColorCond env (checkStop env ex).1 r a))
          = rest.any fun a => decide (recheckColorCond env ex r a) := rfl
      have hbr2 : ∀ j, (decide (recheckColorCond env (checkStop env ex).1 r j) : Bool)
          = decide (recheckColorCond env ex r j) := fun j => rfl
      refine ⟨ih1, ?_, ?_⟩
      · rw [ih2, hbr]
        simp [List.any_cons, hcond]
      · intro j
        rw [ih3 j, hbr2 j]
        by_cases hji : j = i
        · subst hji
          simp [hir, hcond]
        · by_cases hjr : j ∈ rest
          · simp [hjr, List.mem_cons]
          · simp [hjr, hji]

lemma count_digWrite_nil_events (p : Nat) (lvl : Bool) (q : Nat) (v : Int) (ms : ℚ) :
    ([Ev.pinModeIn q].count (Ev.digWrite p lvl) = 0) ∧
    ([Ev.anRead q v].count (Ev.digWrite p lvl) = 0) ∧
    ([Ev.sleepMs ms].count (Ev.digWrite p lvl) = 0) ∧
    ([Ev.anWrite q v].count (Ev.digWrite p lvl) = 0) ∧
    ([Ev.pinModeOut q].count (Ev.digWrite p lvl) = 0) := by
  refine ⟨?_, ?_, ?_, ?_, ?_⟩ <;> simp [List.count_cons]

lemma count_digWrite_floatTrace (p : Nat) (lvl : Bool) (e : ECD) :
    (floatTrace e).count (Ev.digWrite p lvl) = 0 := by
  unfold floatTrace
  induction List.range e.n with
  | nil => simp
  | cons i rest ih => simp [List.count_cons, ih]

lemma count_digWrite_ceTrace (p : Nat) (lvl : Bool) (e : ECD) (v : ℚ) :
    (ceTrace e v).count (Ev.digWrite p lvl) = 0 := by
  simp [ceTrace, List.count_cons]

lemma bleachRecheckLoop_counts (env : Env) (hstop : ∀ k, env.stop k = false) :
    ∀ (idxs : List Nat) (ex : Exec) (r : Nat) (nd : Bool) (s : Nat), idxs.Nodup →
      (∀ j ∈ idxs, ex.ecd.pins j = ex.ecd.pins s → j = s) →
      readsTo (ex.ecd.pins s) ((bleachRecheckLoop env ex idxs r nd).1.trace)
        = readsTo (ex.ecd.pins s) ex.trace
          + (if s ∈ idxs ∧ ex.ecd.currentState s = SegState.bleached
               ∧ r < ex.ecd.consts.maxRefreshRetries then 1 else 0) ∧
      ∀ p lvl, ((bleachRecheckLoop env ex idxs r nd).1.trace).count (Ev.digWrite p lvl)
        = ex.trace.count (Ev.digWrite p lvl) := by
  intro idxs
  induction idxs with
  | nil =>
    intro ex r nd s _ _
    rw [bleachRecheckLoop]
    exact ⟨by simp, fun p lvl => rfl⟩
  | cons i rest ih =>
    intro ex r nd s hnd hinj
    rw [List.nodup_cons] at hnd
    obtain ⟨hir, hndr⟩ := hnd
    have hinjR : ∀ j ∈ rest, ex.ecd.pins j = ex.ecd.pins s → j = s :=
      fun j hj => hinj j (List.mem_cons_of_mem _ hj)
    rw [bleachRecheckLoop]
    simp only [checkStop_snd, hstop, Bool.false_eq_true, if_false, checkStop_fst_ecd,
      checkStop_fst_reads, checkStop_fst_trace, emit_ecd, emit_reads, emit_trace,
      readAnalog_fst_ecd, readAnalog_snd, readAnalog_fst_reads, readAnalog_fst_trace]
    by_cases hg : ex.ecd.currentState i = SegState.bleached ∧ r < ex.ecd.consts.maxRefreshRetries
    · rw [if_pos hg]
      by_cases hv : ((env.samples (ex.ecd.pins i) (ex.reads (ex.ecd.pins i)) : ℚ)
          > ex.ecd.refreshBleachLimitL)
      · rw [if_pos hv]
        obtain ⟨ihr, ihc⟩ := ih
          (setFlag (readAnalog env (emit (checkStop env ex).1
            (Ev.pinModeIn (ex.ecd.pins i))) (ex.ecd.pins i)).1 i) r true s hndr hinjR
        simp only [setFlag_trace, setFlag_ecd, setFlag_reads, readAnalog_fst_trace,
          readAnalog_fst_ecd, emit_trace, emit_ecd, checkStop_fst_trace,
          checkStop_fst_ecd] at ihr ihc
        refine ⟨?_, ?_⟩
        · rw [ihr]
          rw [readsTo_append, readsTo_append]
          by_cases his : i = s
          · subst his
            simp [readsTo, hir, hg]
          · have hps : ex.ecd.pins i ≠ ex.ecd.pins s := fun h =>
              his (hinj i (List.mem_cons_self i rest) h)
            have hmem : (s ∈ i :: rest) ↔ (s ∈ rest) := by
              simp [List.mem_cons]
              intro h
              exact absurd h.symm his
            simp [readsTo, hps, hmem]
        · intro p lvl
          rw [ihc p lvl, List.count_append, List.count_append]
          simp [List.count_cons]
      · rw [if_neg hv]
        obtain ⟨ihr, ihc⟩ := ih
          (readAnalog env (emit (checkStop env ex).1
            (Ev.pinModeIn (ex.ecd.pins i))) (ex.ecd.pins i)).1 r nd s hndr hinjR
        simp only [readAnalog_fst_trace, readAnalog_fst_ecd, emit_trace, emit_ecd,
          checkStop_fst_trace, checkStop_fst_ecd] at ihr ihc
        refine ⟨?_, ?_⟩
        · rw [ihr]
          rw [readsTo_append, readsTo_append]
          by_cases his : i = s
          · subst his
            simp [readsTo, hir, hg]
          · have hps : ex.ecd.pins i ≠ ex.ecd.pins s := fun h =>
              his (hinj i (List.mem_cons_self i rest) h)
            have hmem : (s ∈ i :: rest) ↔ (s ∈ rest) := by
              simp [List.mem_cons]
              intro h
              exact absurd h.symm his
            simp [readsTo, hps, hmem]
        · intro p lvl
          rw [ihc p lvl, List.count_append, List.count_append]
          simp [List.count_cons]
    · rw [if_neg hg]
      obtain ⟨ihr, ihc⟩ := ih (checkStop env ex).1 r nd s hndr hinjR
      simp only [checkStop_fst_trace, checkStop_fst_ecd, checkStop_fst_reads] at ihr ihc
      refine ⟨?_, ?_⟩
      · rw [ihr]
        by_cases his : i = s
        · subst his
          simp [hir, hg]
        · have hmem : (s ∈ i :: rest) ↔ (s ∈ rest) := by
            simp [List.mem_cons]
            intro h
            exact absurd h.symm his
          simp only [hmem]
      · exact ihc

lemma bleachRecheckLoop_needed_bound (env : Env) :
    ∀ (idxs : List Nat) (ex : Exec) (r : Nat) (nd : Bool),
      (bleachRecheckLoop env ex idxs r nd).2.2 = true →
      nd = true ∨ r < ex.ecd.consts.maxRefreshRetries := by
  intro idxs
  induction idxs with
  | nil =>
    intro ex r nd h
    rw [bleachRecheckLoop] at h
    exact Or.inl h
  | cons i rest ih =>
    intro ex r nd h
    rw [bleachRecheckLoop] at h
    by_cases hs : (checkStop env ex).2
    · rw [if_pos hs] at h
      exact Or.inl h
    · rw [if_neg hs] at h
      by_cases hg : (checkStop env ex).1.ecd.currentState i = SegState.bleached
          ∧ r < (checkStop env ex).1.ecd.consts.maxRefreshRetries
      · rw [if_pos hg] at h
        exact Or.inr hg.2
      · rw [if_neg hg] at h
        exact ih (checkStop env ex).1 r nd h

lemma colorRecheckLoop_needed_bound (env : Env) :
    ∀ (idxs : List Nat) (ex : Exec) (r : Nat) (nd : Bool),
      (colorRecheckLoop env ex idxs r nd).2.2 = true →
      nd = true ∨ r < ex.ecd.consts.maxRefreshRetries := by
  intro idxs
  induction idxs with
  | nil =>
    intro ex r nd h
    rw [colorRecheckLoop] at h
    exact Or.inl h
  | cons i rest ih =>
    intro ex r nd h
    rw [colorRecheckLoop] at h
    by_cases hs : (checkStop env ex).2
    · rw [if_pos hs] at h
      exact Or.inl h
    · rw [if_neg hs] at h
      by_cases hg : (checkStop env ex).1.ecd.currentState i = SegState.colored
          ∧ r < (checkStop env ex).1.ecd.consts.maxRefreshRetries
      · rw [if_pos hg] at h
        exact Or.inr hg.2
      · rw [if_neg hg] at h
        exact ih (checkStop env ex).1 r nd h

@[simp] lemma bleachPulseLoop_fst_ecd (env : Env) :
    ∀ (idxs : List Nat) (ex : Exec), (bleachPulseLoop env ex idxs).1.ecd = ex.ecd := by
  intro idxs
  induction idxs with
  | nil => intro ex; rfl
  | cons i rest ih =>
    intro ex
    rw [bleachPulseLoop]
    by_cases hs : (checkStop env ex).2
    · rw [if_pos hs]
      rfl
    · rw [if_neg hs]
      split
      · rw [ih]
        rfl
      · rw [ih]
        rfl

@[simp] lemma colorPulseLoop_fst_ecd (env : Env) :
    ∀ (idxs : List Nat) (ex : Exec), (colorPulseLoop env ex idxs).1.ecd = ex.ecd := by
  intro idxs
  induction idxs with
  | nil => intro ex; rfl
  | cons i rest ih =>
    intro ex
    rw [colorPulseLoop]
    by_cases hs : (checkStop env ex).2
    · rw [if_pos hs]
      rfl
    · rw [if_neg hs]
      split
      · rw [ih]
        rfl
      · rw [ih]
        rfl

@[simp] lemma bleachRecheckLoop_fst_consts (env : Env) (idxs : List Nat) (ex : Exec)
    (r : Nat) (nd : Bool) :
    (bleachRecheckLoop env ex idxs r nd).1.ecd.consts = ex.ecd.consts :=
  flagsOnly_consts (bleachRecheckLoop_rframe env idxs ex r nd).1

@[simp] lemma colorRecheckLoop_fst_consts (env : Env) (idxs : List Nat) (ex : Exec)
    (r : Nat) (nd : Bool) :
    (colorRecheckLoop env ex idxs r nd).1.ecd.consts = ex.ecd.consts :=
  flagsOnly_consts (colorRecheckLoop_rframe env idxs ex r nd).1

@[simp] lemma bleachRecheckLoop_fst_currentState (env : Env) (idxs : List Nat) (ex : Exec)
    (r : Nat) (nd : Bool) :
    (bleachRecheckLoop env ex idxs r nd).1.ecd.currentState = ex.ecd.currentState :=
  flagsOnly_currentState (bleachRecheckLoop_rframe env idxs ex r nd).1

@[simp] lemma colorRecheckLoop_fst_currentState (env : Env) (idxs : List Nat) (ex : Exec)
    (r : Nat) (nd : Bool) :
    (colorRecheckLoop env ex idxs r nd).1.ecd.currentState = ex.ecd.currentState :=
  flagsOnly_currentState (colorRecheckLoop_rframe env idxs ex r nd).1

@[simp] lemma bleachRecheckLoop_fst_pins (env : Env) (idxs : List Nat) (ex : Exec)
    (r : Nat) (nd : Bool) :
    (bleachRecheckLoop env ex idxs r nd).1.ecd.pins = ex.ecd.pins :=
  flagsOnly_pins (bleachRecheckLoop_rframe env idxs ex r nd).1

@[simp] lemma colorRecheckLoop_fst_pins (env : Env) (idxs : List Nat) (ex : Exec)
    (r : Nat) (nd : Bool) :
    (colorRecheckLoop env ex idxs r nd).1.ecd.pins = ex.ecd.pins :=
  flagsOnly_pins (colorRecheckLoop_rframe env idxs ex r nd).1

@[simp] lemma bleachRecheckLoop_fst_n (env : Env) (idxs : List Nat) (ex : Exec)
    (r : Nat) (nd : Bool) :
    (bleachRecheckLoop env ex idxs r nd).1.ecd.n = ex.ecd.n :=
  flagsOnly_n (bleachRecheckLoop_rframe env idxs ex r nd).1

@[simp] lemma colorRecheckLoop_fst_n (env : Env) (idxs : List Nat) (ex : Exec)
    (r : Nat) (nd : Bool) :
    (colorRecheckLoop env ex idxs r nd).1.ecd.n = ex.ecd.n :=
  flagsOnly_n (colorRecheckLoop_rframe env idxs ex r nd).1

@[simp] lemma bleachRecheckLoop_fst_bleL (env : Env) (idxs : List Nat) (ex : Exec)
    (r : Nat) (nd : Bool) :
    (bleachRecheckLoop env ex idxs r nd).1.ecd.refreshBleachLimitL
      = ex.ecd.refreshBleachLimitL :=
  flagsOnly_bleL (bleachRecheckLoop_rframe env idxs ex r nd).1

@[simp] lemma colorRecheckLoop_fst_colH (env : Env) (idxs : List Nat) (ex : Exec)
    (r : Nat) (nd : Bool) :
    (colorRecheckLoop env ex idxs r nd).1.ecd.refreshColorLimitH
      = ex.ecd.refreshColorLimitH :=
  flagsOnly_colH (colorRecheckLoop_rframe env idxs ex r nd).1

lemma bleachWhile_no_fuelOut (env : Env) :
    ∀ (fuel : Nat) (ex : Exec) (needed : Bool) (r : Nat),
      ex.ecd.consts.maxRefreshRetries + 1 ≤ r + fuel →
      (needed = true → r ≤ ex.ecd.consts.maxRefreshRetries) →
      (bleachWhile env ex needed r fuel).2 ≠ LoopExit.fuelOut := by
  intro fuel
  induction fuel with
  | zero =>
    intro ex needed r hf hb
    cases hn : needed
    · simp [bleachWhile]
    · exact absurd (hb hn) (by omega)
  | succ fuel ih =>
    intro ex needed r hf hb
    simp only [bleachWhile]
    split
    · simp
    · split
      · simp
      · split
        · simp
        · split
          · simp
          · split
            · simp
            · refine ih _ _ _ ?_ ?_
              · simp only [delayE_ecd, bleachRecheckLoop_fst_consts, checkStop_fst_ecd,
                  disableAllSegments_ecd, bleachPulseLoop_fst_ecd]
                omega
              · intro hneed
                next h5 =>
                  rcases bleachRecheckLoop_needed_bound env _ _ _ _ hneed with h | h
                  · exact absurd h (by simp)
                  · simp only [checkStop_fst_ecd, disableAllSegments_ecd, delayE_ecd,
                      bleachPulseLoop_fst_ecd] at h
                    simp only [delayE_ecd, bleachRecheckLoop_fst_consts, checkStop_fst_ecd,
                      disableAllSegments_ecd, bleachPulseLoop_fst_ecd]
                    omega

lemma colorWhile_no_fuelOut (env : Env) :
    ∀ (fuel : Nat) (ex : Exec) (needed : Bool) (r : Nat),
      ex.ecd.consts.maxRefreshRetries + 1 ≤ r + fuel →
      (needed = true → r ≤ ex.ecd.consts.maxRefreshRetries) →
      (colorWhile env ex needed r fuel).2 ≠ LoopExit.fuelOut := by
  intro fuel
  induction fuel with
  | zero =>
    intro ex needed r hf hb
    cases hn : needed
    · simp [colorWhile]
    · exact absurd (hb hn) (by omega)
  | succ fuel ih =>
    intro ex needed r hf hb
    simp only [colorWhile]
    split
    · simp
    · split
      · simp
      · split
        · simp
        · split
          · simp
          · split
            · simp
            · refine ih _ _ _ ?_ ?_
              · simp only [delayE_ecd, colorRecheckLoop_fst_consts, checkStop_fst_ecd,
                  disableAllSegments_ecd, colorPulseLoop_fst_ecd]
                omega
              · intro hneed
                rcases colorRecheckLoop_needed_bound env _ _ _ _ hneed with h | h
                · exact absurd h (by simp)
                · simp only [checkStop_fst_ecd, disableAllSegments_ecd, delayE_ecd,
                    colorPulseLoop_fst_ecd] at h
                  simp only [delayE_ecd, colorRecheckLoop_fst_consts, checkStop_fst_ecd,
                    disableAllSegments_ecd, colorPulseLoop_fst_ecd]
                  omega

lemma readsTo_single_sleep (p : Nat) (ms : ℚ) : readsTo p [Ev.sleepMs ms] = 0 := by
  simp [readsTo]

lemma count_digWrite_sleep (p : Nat) (lvl : Bool) (ms : ℚ) :
    ([Ev.sleepMs ms]).count (Ev.digWrite p lvl) = 0 := by
  simp

lemma bleachRecheckLoop_stop_false (env : Env) (hstop : ∀ k, env.stop k = false) :
    ∀ (idxs : List Nat) (ex : Exec) (r : Nat) (nd : Bool),
      (bleachRecheckLoop env ex idxs r nd).2.1 = false := by
  intro idxs
  induction idxs with
  | nil => intro ex r nd; rfl
  | cons i rest ih =>
    intro ex r nd
    rw [bleachRecheckLoop]
    by_cases hs : (checkStop env ex).2 = true
    · rw [checkStop_snd, hstop] at hs
      exact absurd hs (by simp)
    · rw [if_neg hs]
      by_cases hg : (checkStop env ex).1.ecd.currentState i = SegState.bleached
          ∧ r < (checkStop env ex).1.ecd.consts.maxRefreshRetries
      · rw [if_pos hg]
        dsimp only
        split
        · exact ih _ _ _
        · exact ih _ _ _
      · rw [if_neg hg]
        exact ih _ _ _

lemma bIterMid_eq (env : Env) (hstop : ∀ k, env.stop k = false) (ex : Exec) :
    bIterMid env ex
      = { ex with
          checks := ex.checks + 1 + (List.range ex.ecd.n).length + 1,
          trace := ((ex.trace ++ bPulseTrace ex.ecd (List.range ex.ecd.n))
              ++ [Ev.sleepMs ex.ecd.cfg.refreshBleachPulseTime]) ++ floatTrace ex.ecd } := by
  unfold bIterMid
  rw [bleachPulseLoop_noStop env hstop]
  rfl

lemma bleachWhile_succ_noStop (env : Env) (hstop : ∀ k, env.stop k = false)
    (ex : Exec) (r fuel : Nat) :
    bleachWhile env ex true r (fuel + 1)
      = bleachWhile env
          (delayE (bleachRecheckLoop env (bIterMid env ex)
              (List.range (bIterMid env ex).ecd.n) r false).1 500)
          (bleachRecheckLoop env (bIterMid env ex)
              (List.range (bIterMid env ex).ecd.n) r false).2.2
          (r + 1) fuel := by
  simp only [bleachWhile]
  split
  · next h => exact absurd h (by simp)
  · split
    · next h =>
        rw [checkStop_snd, hstop] at h
        exact absurd h (by simp)
    · split
      · next h =>
          rw [bleachPulseLoop_noStop env hstop] at h
          exact absurd h (by simp)
      · split
        · next h =>
            rw [checkStop_snd, hstop] at h
            exact absurd h (by simp)
        · split
          · next h =>
              rw [bleachRecheckLoop_stop_false env hstop] at h
              exact absurd h (by simp)
          · rfl

lemma bleachWhile_always_out (env : Env) (hstop : ∀ k, env.stop k = false) :
    ∀ (fuel : Nat) (r : Nat) (ex : Exec) (s : Nat),
      1 ≤ fuel →
      s < ex.ecd.n →
      ex.ecd.currentState s = SegState.bleached →
      ex.ecd.refreshSegmentNeeded s = true →
      PinsInjOn ex.ecd (List.range ex.ecd.n) →
      (∀ k, (env.samples (ex.ecd.pins s) k : ℚ) > ex.ecd.refreshBleachLimitL) →
      r + fuel = ex.ecd.consts.maxRefreshRetries + 1 →
      (bleachWhile env ex true r fuel).2 = LoopExit.done ∧
      ((bleachWhile env ex true r fuel).1.trace).count (Ev.digWrite (ex.ecd.pins s) false)
        = ex.trace.count (Ev.digWrite (ex.ecd.pins s) false) + fuel ∧
      readsTo (ex.ecd.pins s) ((bleachWhile env ex true r fuel).1.trace)
        = readsTo (ex.ecd.pins s) ex.trace + (fuel - 1) := by
  intro fuel
  induction fuel with
  | zero =>
    intro r ex s hf
    exact absurd hf (by omega)
  | succ fuel ih =>
    intro r ex s _ hs hcur hflag hinj hsam harith
    have hmecd : (bIterMid env ex).ecd = ex.ecd := by
      rw [bIterMid_eq env hstop ex]
    have hmreads : (bIterMid env ex).reads = ex.reads := by
      rw [bIterMid_eq env hstop ex]
    have hmtrace : (bIterMid env ex).trace
        = ((ex.trace ++ bPulseTrace ex.ecd (List.range ex.ecd.n))
            ++ [Ev.sleepMs ex.ecd.cfg.refreshBleachPulseTime]) ++ floatTrace ex.ecd := by
      rw [bIterMid_eq env hstop ex]
    have hnd : (List.range ex.ecd.n).Nodup := List.nodup_range _
    have hmem : s ∈ List.range ex.ecd.n := List.mem_range.mpr hs
    have hinjr : ∀ j ∈ List.range ex.ecd.n, ex.ecd.pins j = ex.ecd.pins s → j = s :=
      fun j hj h => hinj j hj s hmem h
    have hinjm : ∀ j ∈ List.range ex.ecd.n,
        (bIterMid env ex).ecd.pins j = (bIterMid env ex).ecd.pins s → j = s := by
      simp only [hmecd]
      exact hinjr
    have hpinjm : PinsInjOn (bIterMid env ex).ecd (List.range ex.ecd.n) := by
      rw [hmecd]
      exact fun i hi j hj h => hinj i hi j hj h
    obtain ⟨hrl1, hrl2, hrl3⟩ := bleachRecheckLoop_noStop env hstop
      (List.range ex.ecd.n) (bIterMid env ex) r false hnd hpinjm
    obtain ⟨hreads, hcnt⟩ := bleachRecheckLoop_counts env hstop
      (List.range ex.ecd.n) (bIterMid env ex) r false s hnd hinjm
    simp only [hmecd] at hreads hrl3
    rw [bleachWhile_succ_noStop env hstop]
    simp only [hmecd]
    by_cases hf0 : fuel = 0
    · -- last pass: retries = maxRefreshRetries, nothing is re-flagged, loop exits
      have hrM : r = ex.ecd.consts.maxRefreshRetries := by omega
      have hany : ((List.range ex.ecd.n).any
          fun i => decide (recheckBleachCond env (bIterMid env ex) r i)) = false := by
        rw [List.any_eq_false]
        intro i _
        simp only [decide_eq_true_eq]
        intro hcond
        have hlt : r < (bIterMid env ex).ecd.consts.maxRefreshRetries := hcond.2.1
        rw [hmecd] at hlt
        omega
      have hneed : (bleachRecheckLoop env (bIterMid env ex)
          (List.range ex.ecd.n) r false).2.2 = false := by
        rw [hrl2, hany]
        rfl
      rw [hneed, hf0]
      have hite : ¬(s ∈ List.range ex.ecd.n ∧ ex.ecd.currentState s = SegState.bleached
          ∧ r < ex.ecd.consts.maxRefreshRetries) :=
        fun h => absurd h.2.2 (by omega)
      rw [if_neg hite] at hreads
      simp only [bleachWhile]
      rw [if_pos trivial]
      refine ⟨rfl, ?_, ?_⟩
      · rw [delayE_trace, List.count_append, hcnt, hmtrace,
          List.count_append, List.count_append, List.count_append,
          count_bPulseTrace_one hnd hinjr hmem hcur hflag,
          count_digWrite_floatTrace, count_digWrite_sleep, count_digWrite_sleep]
      · rw [delayE_trace, readsTo_append, readsTo_single_sleep, hreads, hmtrace,
          readsTo_append, readsTo_append, readsTo_append,
          readsTo_bPulseTrace, readsTo_floatTrace, readsTo_single_sleep]
    · -- an intermediate pass: the segment is re-flagged and the loop recurses
      have hrlt : r < ex.ecd.consts.maxRefreshRetries := by omega
      have hcond : recheckBleachCond env (bIterMid env ex) r s := by
        unfold recheckBleachCond
        refine ⟨?_, ?_, ?_⟩
        · rw [hmecd]; exact hcur
        · rw [hmecd]; exact hrlt
        · rw [hmecd, hmreads]
          exact hsam _
      have hneed : (bleachRecheckLoop env (bIterMid env ex)
          (List.range ex.ecd.n) r false).2.2 = true := by
        rw [hrl2]
        simp only [Bool.false_or]
        rw [List.any_eq_true]
        exact ⟨s, hmem, by rw [decide_eq_true_eq]; exact hcond⟩
      rw [hneed]
      rw [if_pos ⟨hmem, hcur, hrlt⟩] at hreads
      have hpins : (bleachRecheckLoop env (bIterMid env ex)
          (List.range ex.ecd.n) r false).1.ecd.pins = ex.ecd.pins := by
        rw [bleachRecheckLoop_fst_pins, hmecd]
      have hn : (bleachRecheckLoop env (bIterMid env ex)
          (List.range ex.ecd.n) r false).1.ecd.n = ex.ecd.n := by
        rw [bleachRecheckLoop_fst_n, hmecd]
      have hcs : (bleachRecheckLoop env (bIterMid env ex)
          (List.range ex.ecd.n) r false).1.ecd.currentState = ex.ecd.currentState := by
        rw [bleachRecheckLoop_fst_currentState, hmecd]
      have hconsts : (bleachRecheckLoop env (bIterMid env ex)
          (List.range ex.ecd.n) r false).1.ecd.consts = ex.ecd.consts := by
        rw [bleachRecheckLoop_fst_consts, hmecd]
      have hbleL : (bleachRecheckLoop env (bIterMid env ex)
          (List.range ex.ecd.n) r false).1.ecd.refreshBleachLimitL
          = ex.ecd.refreshBleachLimitL := by
        rw [bleachRecheckLoop_fst_bleL, hmecd]
      obtain ⟨ihd, ihc, ihr⟩ := ih (r + 1)
        (delayE (bleachRecheckLoop env (bIterMid env ex)
          (List.range ex.ecd.n) r false).1 500) s
        (by omega)
        (by simp only [delayE_ecd, hn]; exact hs)
        (by simp only [delayE_ecd, hcs]; exact hcur)
        (by
          simp only [delayE_ecd]
          rw [hrl3 s, hflag]
          simp)
        (by
          simp only [PinsInjOn, delayE_ecd, hpins, hn]
          exact fun i hi j hj h => hinj i hi j hj h)
        (by
          simp only [delayE_ecd, hpins, hbleL]
          exact hsam)
        (by
          simp only [delayE_ecd, hconsts]
          omega)
      simp only [delayE_ecd, hpins] at ihc ihr
      rw [delayE_trace, List.count_append, hcnt, hmtrace,
        List.count_append, List.count_append, List.count_append,
        count_bPulseTrace_one hnd hinjr hmem hcur hflag,
        count_digWrite_floatTrace, count_digWrite_sleep, count_digWrite_sleep] at ihc
      rw [delayE_trace, readsTo_append, readsTo_single_sleep, hreads, hmtrace,
        readsTo_append, readsTo_append, readsTo_append,
        readsTo_bPulseTrace, readsTo_floatTrace, readsTo_single_sleep] at ihr
      refine ⟨ihd, ?_, ?_⟩
      · rw [ihc]
        omega
      · rw [ihr]
        omega

lemma colorRecheckLoop_stop_false (env : Env) (hstop : ∀ k, env.stop k = false) :
    ∀ (idxs : List Nat) (ex : Exec) (r : Nat) (nd : Bool),
      (colorRecheckLoop env ex idxs r nd).2.1 = false := by
  intro idxs
  induction idxs with
  | nil => intro ex r nd; rfl
  | cons i rest ih =>
    intro ex r nd
    rw [colorRecheckLoop]
    by_cases hs : (checkStop env ex).2 = true
    · rw [checkStop_snd, hstop] at hs
      exact absurd hs (by simp)
    · rw [if_neg hs]
      by_cases hg : (checkStop env ex).1.ecd.currentState i = SegState.colored
          ∧ r < (checkStop env ex).1.ecd.consts.maxRefreshRetries
      · rw [if_pos hg]
        dsimp only
        split
        · exact ih _ _ _
        · exact ih _ _ _
      · rw [if_neg hg]
        exact ih _ _ _

lemma bleachWhile_not_stopped (env : Env) (hstop : ∀ k, env.stop k = false) :
    ∀ (fuel : Nat) (ex : Exec) (needed : Bool) (r : Nat),
      (bleachWhile env ex needed r fuel).2 ≠ LoopExit.stopped := by
  intro fuel
  induction fuel with
  | zero =>
    intro ex needed r
    simp only [bleachWhile]
    split <;> simp
  | succ fuel ih =>
    intro ex needed r
    simp only [bleachWhile]
    split
    · simp
    · split
      · next h =>
          rw [checkStop_snd, hstop] at h
          exact absurd h (by simp)
      · split
        · next h =>
            rw [bleachPulseLoop_noStop env hstop] at h
            exact absurd h (by simp)
        · split
          · next h =>
              rw [checkStop_snd, hstop] at h
              exact absurd h (by simp)
          · split
            · next h =>
                rw [bleachRecheckLoop_stop_false env hstop] at h
                exact absurd h (by simp)
            · exact ih _ _ _

lemma colorWhile_not_stopped (env : Env) (hstop : ∀ k, env.stop k = false) :
    ∀ (fuel : Nat) (ex : Exec) (needed : Bool) (r : Nat),
      (colorWhile env ex needed r fuel).2 ≠ LoopExit.stopped := by
  intro fuel
  induction fuel with
  | zero =>
    intro ex needed r
    simp only [colorWhile]
    split <;> simp
  | succ fuel ih =>
    intro ex needed r
    simp only [colorWhile]
    split
    · simp
    · split
      · next h =>
          rw [checkStop_snd, hstop] at h
          exact absurd h (by simp)
      · split
        · next h =>
            rw [colorPulseLoop_noStop env hstop] at h
            exact absurd h (by simp)
        · split
          · next h =>
              rw [checkStop_snd, hstop] at h
              exact absurd h (by simp)
          · split
            · next h =>
                rw [colorRecheckLoop_stop_false env hstop] at h
                exact absurd h (by simp)
            · exact ih _ _ _

lemma lastAnWrite_snoc_keep (p : Nat) (t : List Ev) (e : Ev)
    (h : ∀ (q : Nat) (v : Int), e ≠ Ev.anWrite q v) :
    lastAnWrite p (t ++ [e]) = lastAnWrite p t := by
  unfold lastAnWrite
  rw [List.foldl_append]
  cases e with
  | pinModeOut q => rfl
  | pinModeIn q => rfl
  | digWrite q l => rfl
  | anRead q v => rfl
  | sleepMs m => rfl
  | anWrite q v => exact absurd rfl (h q v)

lemma lastAnWrite_snoc_pinModeIn (p q : Nat) (t : List Ev) :
    lastAnWrite p (t ++ [Ev.pinModeIn q]) = lastAnWrite p t :=
  lastAnWrite_snoc_keep p t _ (fun _ _ h => Ev.noConfusion h)

lemma lastAnWrite_snoc_anRead (p q : Nat) (v : Int) (t : List Ev) :
    lastAnWrite p (t ++ [Ev.anRead q v]) = lastAnWrite p t :=
  lastAnWrite_snoc_keep p t _ (fun _ _ h => Ev.noConfusion h)

lemma lastAnWrite_append_floatTrace (p : Nat) (e : ECD) (t : List Ev) :
    lastAnWrite p (t ++ floatTrace e) = lastAnWrite p t := by
  unfold floatTrace
  induction List.range e.n generalizing t with
  | nil => rw [List.map_nil, List.append_nil]
  | cons i rest ih =>
    rw [List.map_cons]
    have hsplit : t ++ (Ev.pinModeIn (e.pins i) :: rest.map fun j => Ev.pinModeIn (e.pins j))
        = (t ++ [Ev.pinModeIn (e.pins i)]) ++ rest.map fun j => Ev.pinModeIn (e.pins j) := by
      rw [List.append_assoc]
      rfl
    rw [hsplit, ih, lastAnWrite_snoc_pinModeIn]

lemma lastAnWrite_append_ceTrace (e : ECD) (v : ℚ) (t : List Ev) :
    lastAnWrite e.cePin (t ++ ceTrace e v)
      = some (cIntTrunc (e.consts.maxLSB * (v / e.supplyVoltage))) := by
  unfold lastAnWrite ceTrace
  rw [List.foldl_append]
  simp

lemma classifyLoop_lastAnWrite (env : Env) (p : Nat) :
    ∀ (idxs : List Nat) (ex : Exec) (cN bN : Bool),
      lastAnWrite p ((classifyLoop env ex idxs cN bN).1.trace) = lastAnWrite p ex.trace := by
  intro idxs
  induction idxs with
  | nil => intro ex cN bN; rfl
  | cons i rest ih =>
    intro ex cN bN
    rw [classifyLoop]
    by_cases hs : (checkStop env ex).2 = true
    · rw [if_pos hs]
      rfl
    · rw [if_neg hs]
      dsimp only
      split
      · rw [ih]
        simp only [setFlag_trace, readAnalog_fst_trace, emit_trace, checkStop_fst_trace]
        rw [lastAnWrite_snoc_anRead, lastAnWrite_snoc_pinModeIn]
      · split
        · rw [ih]
          simp only [setFlag_trace, readAnalog_fst_trace, emit_trace, checkStop_fst_trace]
          rw [lastAnWrite_snoc_anRead, lastAnWrite_snoc_pinModeIn]
        · rw [ih]
          simp only [readAnalog_fst_trace, emit_trace, checkStop_fst_trace]
          rw [lastAnWrite_snoc_anRead, lastAnWrite_snoc_pinModeIn]

lemma refreshDisplay_early (env : Env) (ex : Exec) (hstop : ∀ k, env.stop k = false)
    (hinj : PinsInjOn ex.ecd (List.range ex.ecd.n))
    (htrig : (((List.range ex.ecd.n).any fun i => decide (classBleachCond env ex i))
        || ((List.range ex.ecd.n).any fun i => decide (classColorCond env ex i))) = false) :
    (refreshDisplay env ex).2 = false ∧
    lastAnWrite ex.ecd.cePin ((refreshDisplay env ex).1.trace)
      = some (cIntTrunc (ex.ecd.consts.maxLSB
          * ((ex.ecd.supplyVoltage / 2) / ex.ecd.supplyVoltage))) := by
  simp only [refreshDisplay]
  split
  · next h =>
      rw [checkStop_snd, hstop] at h
      exact absurd h (by simp)
  · obtain ⟨hcl0, hclC, hclB, hclF⟩ := classifyLoop_noStop env hstop
      (List.range (disableAllSegments (enableCounterElectrode (checkStop env ex).1
      ((checkStop env ex).1.ecd.supplyVoltage / 2))).ecd.n)
      (disableAllSegments (enableCounterElectrode (checkStop env ex).1
      ((checkStop env ex).1.ecd.supplyVoltage / 2)))
      false false (List.nodup_range _) hinj
    have htrig2 : (((List.range (disableAllSegments (enableCounterElectrode (checkStop env ex).1
      ((checkStop env ex).1.ecd.supplyVoltage / 2))).ecd.n).any
          fun i => decide (classBleachCond env (disableAllSegments (enableCounterElectrode (checkStop env ex).1
      ((checkStop env ex).1.ecd.supplyVoltage / 2))) i))
        || ((List.range (disableAllSegments (enableCounterElectrode (checkStop env ex).1
      ((checkStop env ex).1.ecd.supplyVoltage / 2))).ecd.n).any
          fun i => decide (classColorCond env (disableAllSegments (enableCounterElectrode (checkStop env ex).1
      ((checkStop env ex).1.ecd.supplyVoltage / 2))) i))) = false := htrig
    have hBC : ((classifyLoop env (disableAllSegments (enableCounterElectrode (checkStop env ex).1
      ((checkStop env ex).1.ecd.supplyVoltage / 2)))
      (List.range (disableAllSegments (enableCounterElectrode (checkStop env ex).1
      ((checkStop env ex).1.ecd.supplyVoltage / 2))).ecd.n) false false).2.2.2
        || (classifyLoop env (disableAllSegments (enableCounterElectrode (checkStop env ex).1
      ((checkStop env ex).1.ecd.supplyVoltage / 2)))
      (List.range (disableAllSegments (enableCounterElectrode (checkStop env ex).1
      ((checkStop env ex).1.ecd.supplyVoltage / 2))).ecd.n) false false).2.2.1) = false := by
      rw [hclB, hclC, Bool.false_or, Bool.false_or]
      exact htrig2
    split
    · next h =>
        rw [hcl0] at h
        exact absurd h (by simp)
    · split
      · next h =>
          rw [checkStop_snd, hstop] at h
          exact absurd h (by simp)
      · refine ⟨rfl, ?_⟩
        rw [checkStop_fst_trace, classifyLoop_lastAnWrite, disableAllSegments_trace,
          lastAnWrite_append_floatTrace, enableCounterElectrode_trace]
        exact lastAnWrite_append_ceTrace (checkStop env ex).1.ecd _ _

lemma refreshDisplay_full (env : Env) (ex : Exec) (hstop : ∀ k, env.stop k = false)
    (hinj : PinsInjOn ex.ecd (List.range ex.ecd.n))
    (htrig : (((List.range ex.ecd.n).any fun i => decide (classBleachCond env ex i))
        || ((List.range ex.ecd.n).any fun i => decide (classColorCond env ex i))) = true) :
    (refreshDisplay env ex).2 = false ∧
    ∃ pre, (refreshDisplay env ex).1.trace = pre ++ [Ev.anWrite ex.ecd.cePin 0] := by
  have h1 : (colorWhile env (enableCounterElectrode (bleachWhile env (enableCounterElectrode (checkStop env (classifyLoop env (disableAllSegments (enableCounterElectrode (checkStop env ex).1
      ((checkStop env ex).1.ecd.supplyVoltage / 2)))
      (List.range (disableAllSegments (enableCounterElectrode (checkStop env ex).1
      ((checkStop env ex).1.ecd.supplyVoltage / 2))).ecd.n) false false).1).1 (checkStop env (classifyLoop env (disableAllSegments (enableCounterElectrode (checkStop env ex).1
      ((checkStop env ex).1.ecd.supplyVoltage / 2)))
      (List.range (disableAllSegments (enableCounterElectrode (checkStop env ex).1
      ((checkStop env ex).1.ecd.supplyVoltage / 2))).ecd.n) false false).1).1.ecd.cfg.refreshBleachingVoltage) (classifyLoop env (disableAllSegments (enableCounterElectrode (checkStop env ex).1
      ((checkStop env ex).1.ecd.supplyVoltage / 2)))
      (List.range (disableAllSegments (enableCounterElectrode (checkStop env ex).1
      ((checkStop env ex).1.ecd.supplyVoltage / 2))).ecd.n) false false).2.2.2 0 ((enableCounterElectrode (checkStop env (classifyLoop env (disableAllSegments (enableCounterElectrode (checkStop env ex).1
      ((checkStop env ex).1.ecd.supplyVoltage / 2)))
      (List.range (disableAllSegments (enableCounterElectrode (checkStop env ex).1
      ((checkStop env ex).1.ecd.supplyVoltage / 2))).ecd.n) false false).1).1 (checkStop env (classifyLoop env (disableAllSegments (enableCounterElectrode (checkStop env ex).1
      ((checkStop env ex).1.ecd.supplyVoltage / 2)))
      (List.range (disableAllSegments (enableCounterElectrode (checkStop env ex).1
      ((checkStop env ex).1.ecd.supplyVoltage / 2))).ecd.n) false false).1).1.ecd.cfg.refreshBleachingVoltage).ecd.consts.maxRefreshRetries + 1)).1
      ((bleachWhile env (enableCounterElectrode (checkStop env (classifyLoop env (disableAllSegments (enableCounterElectrode (checkStop env ex).1
      ((checkStop env ex).1.ecd.supplyVoltage / 2)))
      (List.range (disableAllSegments (enableCounterElectrode (checkStop env ex).1
      ((checkStop env ex).1.ecd.supplyVoltage / 2))).ecd.n) false false).1).1 (checkStop env (classifyLoop env (disableAllSegments (enableCounterElectrode (checkStop env ex).1
      ((checkStop env ex).1.ecd.supplyVoltage / 2)))
      (List.range (disableAllSegments (enableCounterElectrode (checkStop env ex).1
      ((checkStop env ex).1.ecd.supplyVoltage / 2))).ecd.n) false false).1).1.ecd.cfg.refreshBleachingVoltage) (classifyLoop env (disableAllSegments (enableCounterElectrode (checkStop env ex).1
      ((checkStop env ex).1.ecd.supplyVoltage / 2)))
      (List.range (disableAllSegments (enableCounterElectrode (checkStop env ex).1
      ((checkStop env ex).1.ecd.supplyVoltage / 2))).ecd.n) false false).2.2.2 0 ((enableCounterElectrode (checkStop env (classifyLoop env (disableAllSegments (enableCounterElectrode (checkStop env ex).1
      ((checkStop env ex).1.ecd.supplyVoltage / 2)))
      (List.range (disableAllSegments (enableCounterElectrode (checkStop env ex).1
      ((checkStop env ex).1.ecd.supplyVoltage / 2))).ecd.n) false false).1).1 (checkStop env (classifyLoop env (disableAllSegments (enableCounterElectrode (checkStop env ex).1
      ((checkStop env ex).1.ecd.supplyVoltage / 2)))
      (List.range (disableAllSegments (enableCounterElectrode (checkStop env ex).1
      ((checkStop env ex).1.ecd.supplyVoltage / 2))).ecd.n) false false).1).1.ecd.cfg.refreshBleachingVoltage).ecd.consts.maxRefreshRetries + 1)).1.ecd.supplyVoltage - (bleachWhile env (enableCounterElectrode (checkStop env (classifyLoop env (disableAllSegments (enableCounterElectrode (checkStop env ex).1
      ((checkStop env ex).1.ecd.supplyVoltage / 2)))
      (List.range (disableAllSegments (enableCounterElectrode (checkStop env ex).1
      ((checkStop env ex).1.ecd.supplyVoltage / 2))).ecd.n) false false).1).1 (checkStop env (classifyLoop env (disableAllSegments (enableCounterElectrode (checkStop env ex).1
      ((checkStop env ex).1.ecd.supplyVoltage / 2)))
      (List.range (disableAllSegments (enableCounterElectrode (checkStop env ex).1
      ((checkStop env ex).1.ecd.supplyVoltage / 2))).ecd.n) false false).1).1.ecd.cfg.refreshBleachingVoltage) (classifyLoop env (disableAllSegments (enableCounterElectrode (checkStop env ex).1
      ((checkStop env ex).1.ecd.supplyVoltage / 2)))
      (List.range (disableAllSegments (enableCounterElectrode (checkStop env ex).1
      ((checkStop env ex).1.ecd.supplyVoltage / 2))).ecd.n) false false).2.2.2 0 ((enableCounterElectrode (checkStop env (classifyLoop env (disableAllSegments (enableCounterElectrode (checkStop env ex).1
      ((checkStop env ex).1.ecd.supplyVoltage / 2)))
      (List.range (disableAllSegments (enableCounterElectrode (checkStop env ex).1
      ((checkStop env ex).1.ecd.supplyVoltage / 2))).ecd.n) false false).1).1 (checkStop env (classifyLoop env (disableAllSegments (enableCounterElectrode (checkStop env ex).1
      ((checkStop env ex).1.ecd.supplyVoltage / 2)))
      (List.range (disableAllSegments (enableCounterElectrode (checkStop env ex).1
      ((checkStop env ex).1.ecd.supplyVoltage / 2))).ecd.n) false false).1).1.ecd.cfg.refreshBleachingVoltage).ecd.consts.maxRefreshRetries + 1)).1.ecd.cfg.refreshColoringVoltage)) (classifyLoop env (disableAllSegments (enableCounterElectrode (checkStop env ex).1
      ((checkStop env ex).1.ecd.supplyVoltage / 2)))
      (List.range (disableAllSegments (enableCounterElectrode (checkStop env ex).1
      ((checkStop env ex).1.ecd.supplyVoltage / 2))).ecd.n) false false).2.2.1 0 ((enableCounterElectrode (bleachWhile env (enableCounterElectrode (checkStop env (classifyLoop env (disableAllSegments (enableCounterElectrode (checkStop env ex).1
      ((checkStop env ex).1.ecd.supplyVoltage / 2)))
      (List.range (disableAllSegments (enableCounterElectrode (checkStop env ex).1
      ((checkStop env ex).1.ecd.supplyVoltage / 2))).ecd.n) false false).1).1 (checkStop env (classifyLoop env (disableAllSegments (enableCounterElectrode (checkStop env ex).1
      ((checkStop env ex).1.ecd.supplyVoltage / 2)))
      (List.range (disableAllSegments (enableCounterElectrode (checkStop env ex).1
      ((checkStop env ex).1.ecd.supplyVoltage / 2))).ecd.n) false false).1).1.ecd.cfg.refreshBleachingVoltage) (classifyLoop env (disableAllSegments (enableCounterElectrode (checkStop env ex).1
      ((checkStop env ex).1.ecd.supplyVoltage / 2)))
      (List.range (disableAllSegments (enableCounterElectrode (checkStop env ex).1
      ((checkStop env ex).1.ecd.supplyVoltage / 2))).ecd.n) false false).2.2.2 0 ((enableCounterElectrode (checkStop env (classifyLoop env (disableAllSegments (enableCounterElectrode (checkStop env ex).1
      ((checkStop env ex).1.ecd.supplyVoltage / 2)))
      (List.range (disableAllSegments (enableCounterElectrode (checkStop env ex).1
      ((checkStop env ex).1.ecd.supplyVoltage / 2))).ecd.n) false false).1).1 (checkStop env (classifyLoop env (disableAllSegments (enableCounterElectrode (checkStop env ex).1
      ((checkStop env ex).1.ecd.supplyVoltage / 2)))
      (List.range (disableAllSegments (enableCounterElectrode (checkStop env ex).1
      ((checkStop env ex).1.ecd.supplyVoltage / 2))).ecd.n) false false).1).1.ecd.cfg.refreshBleachingVoltage).ecd.consts.maxRefreshRetries + 1)).1
      ((bleachWhile env (enableCounterElectrode (checkStop env (classifyLoop env (disableAllSegments (enableCounterElectrode (checkStop env ex).1
      ((checkStop env ex).1.ecd.supplyVoltage / 2)))
      (List.range (disableAllSegments (enableCounterElectrode (checkStop env ex).1
      ((checkStop env ex).1.ecd.supplyVoltage / 2))).ecd.n) false false).1).1 (checkStop env (classifyLoop env (disableAllSegments (enableCounterElectrode (checkStop env ex).1
      ((checkStop env ex).1.ecd.supplyVoltage / 2)))
      (List.range (disableAllSegments (enableCounterElectrode (checkStop env ex).1
      ((checkStop env ex).1.ecd.supplyVoltage / 2))).ecd.n) false false).1).1.ecd.cfg.refreshBleachingVoltage) (classifyLoop env (disableAllSegments (enableCounterElectrode (checkStop env ex).1
      ((checkStop env ex).1.ecd.supplyVoltage / 2)))
      (List.range (disableAllSegments (enableCounterElectrode (checkStop env ex).1
      ((checkStop env ex).1.ecd.supplyVoltage / 2))).ecd.n) false false).2.2.2 0 ((enableCounterElectrode (checkStop env (classifyLoop env (disableAllSegments (enableCounterElectrode (checkStop env ex).1
      ((checkStop env ex).1.ecd.supplyVoltage / 2)))
      (List.range (disableAllSegments (enableCounterElectrode (checkStop env ex).1
      ((checkStop env ex).1.ecd.supplyVoltage / 2))).ecd.n) false false).1).1 (checkStop env (classifyLoop env (disableAllSegments (enableCounterElectrode (checkStop env ex).1
      ((checkStop env ex).1.ecd.supplyVoltage / 2)))
      (List.range (disableAllSegments (enableCounterElectrode (checkStop env ex).1
      ((checkStop env ex).1.ecd.supplyVoltage / 2))).ecd.n) false false).1).1.ecd.cfg.refreshBleachingVoltage).ecd.consts.maxRefreshRetries + 1)).1.ecd.supplyVoltage - (bleachWhile env (enableCounterElectrode (checkStop env (classifyLoop env (disableAllSegments (enableCounterElectrode (checkStop env ex).1
      ((checkStop env ex).1.ecd.supplyVoltage / 2)))
      (List.range (disableAllSegments (enableCounterElectrode (checkStop env ex).1
      ((checkStop env ex).1.ecd.supplyVoltage / 2))).ecd.n) false false).1).1 (checkStop env (classifyLoop env (disableAllSegments (enableCounterElectrode (checkStop env ex).1
      ((checkStop env ex).1.ecd.supplyVoltage / 2)))
      (List.range (disableAllSegments (enableCounterElectrode (checkStop env ex).1
      ((checkStop env ex).1.ecd.supplyVoltage / 2))).ecd.n) false false).1).1.ecd.cfg.refreshBleachingVoltage) (classifyLoop env (disableAllSegments (enableCounterElectrode (checkStop env ex).1
      ((checkStop env ex).1.ecd.supplyVoltage / 2)))
      (List.range (disableAllSegments (enableCounterElectrode (checkStop env ex).1
      ((checkStop env ex).1.ecd.supplyVoltage / 2))).ecd.n) false false).2.2.2 0 ((enableCounterElectrode (checkStop env (classifyLoop env (disableAllSegments (enableCounterElectrode (checkStop env ex).1
      ((checkStop env ex).1.ecd.supplyVoltage / 2)))
      (List.range (disableAllSegments (enableCounterElectrode (checkStop env ex).1
      ((checkStop env ex).1.ecd.supplyVoltage / 2))).ecd.n) false false).1).1 (checkStop env (classifyLoop env (disableAllSegments (enableCounterElectrode (checkStop env ex).1
      ((checkStop env ex).1.ecd.supplyVoltage / 2)))
      (List.range (disableAllSegments (enableCounterElectrode (checkStop env ex).1
      ((checkStop env ex).1.ecd.supplyVoltage / 2))).ecd.n) false false).1).1.ecd.cfg.refreshBleachingVoltage).ecd.consts.maxRefreshRetries + 1)).1.ecd.cfg.refreshColoringVoltage)).ecd.consts.maxRefreshRetries + 1)).1.ecd.cePin
      = (enableCounterElectrode (bleachWhile env (enableCounterElectrode (checkStop env (classifyLoop env (disableAllSegments (enableCounterElectrode (checkStop env ex).1
      ((checkStop env ex).1.ecd.supplyVoltage / 2)))
      (List.range (disableAllSegments (enableCounterElectrode (checkStop env ex).1
      ((checkStop env ex).1.ecd.supplyVoltage / 2))).ecd.n) false false).1).1 (checkStop env (classifyLoop env (disableAllSegments (enableCounterElectrode (checkStop env ex).1
      ((checkStop env ex).1.ecd.supplyVoltage / 2)))
      (List.range (disableAllSegments (enableCounterElectrode (checkStop env ex).1
      ((checkStop env ex).1.ecd.supplyVoltage / 2))).ecd.n) false false).1).1.ecd.cfg.refreshBleachingVoltage) (classifyLoop env (disableAllSegments (enableCounterElectrode (checkStop env ex).1
      ((checkStop env ex).1.ecd.supplyVoltage / 2)))
      (List.range (disableAllSegments (enableCounterElectrode (checkStop env ex).1
      ((checkStop env ex).1.ecd.supplyVoltage / 2))).ecd.n) false false).2.2.2 0 ((enableCounterElectrode (checkStop env (classifyLoop env (disableAllSegments (enableCounterElectrode (checkStop env ex).1
      ((checkStop env ex).1.ecd.supplyVoltage / 2)))
      (List.range (disableAllSegments (enableCounterElectrode (checkStop env ex).1
      ((checkStop env ex).1.ecd.supplyVoltage / 2))).ecd.n) false false).1).1 (checkStop env (classifyLoop env (disableAllSegments (enableCounterElectrode (checkStop env ex).1
      ((checkStop env ex).1.ecd.supplyVoltage / 2)))
      (List.range (disableAllSegments (enableCounterElectrode (checkStop env ex).1
      ((checkStop env ex).1.ecd.supplyVoltage / 2))).ecd.n) false false).1).1.ecd.cfg.refreshBleachingVoltage).ecd.consts.maxRefreshRetries + 1)).1
      ((bleachWhile env (enableCounterElectrode (checkStop env (classifyLoop env (disableAllSegments (enableCounterElectrode (checkStop env ex).1
      ((checkStop env ex).1.ecd.supplyVoltage / 2)))
      (List.range (disableAllSegments (enableCounterElectrode (checkStop env ex).1
      ((checkStop env ex).1.ecd.supplyVoltage / 2))).ecd.n) false false).1).1 (checkStop env (classifyLoop env (disableAllSegments (enableCounterElectrode (checkStop env ex).1
      ((checkStop env ex).1.ecd.supplyVoltage / 2)))
      (List.range (disableAllSegments (enableCounterElectrode (checkStop env ex).1
      ((checkStop env ex).1.ecd.supplyVoltage / 2))).ecd.n) false false).1).1.ecd.cfg.refreshBleachingVoltage) (classifyLoop env (disableAllSegments (enableCounterElectrode (checkStop env ex).1
      ((checkStop env ex).1.ecd.supplyVoltage / 2)))
      (List.range (disableAllSegments (enableCounterElectrode (checkStop env ex).1
      ((checkStop env ex).1.ecd.supplyVoltage / 2))).ecd.n) false false).2.2.2 0 ((enableCounterElectrode (checkStop env (classifyLoop env (disableAllSegments (enableCounterElectrode (checkStop env ex).1
      ((checkStop env ex).1.ecd.supplyVoltage / 2)))
      (List.range (disableAllSegments (enableCounterElectrode (checkStop env ex).1
      ((checkStop env ex).1.ecd.supplyVoltage / 2))).ecd.n) false false).1).1 (checkStop env (classifyLoop env (disableAllSegments (enableCounterElectrode (checkStop env ex).1
      ((checkStop env ex).1.ecd.supplyVoltage / 2)))
      (List.range (disableAllSegments (enableCounterElectrode (checkStop env ex).1
      ((checkStop env ex).1.ecd.supplyVoltage / 2))).ecd.n) false false).1).1.ecd.cfg.refreshBleachingVoltage).ecd.consts.maxRefreshRetries + 1)).1.ecd.supplyVoltage - (bleachWhile env (enableCounterElectrode (checkStop env (classifyLoop env (disableAllSegments (enableCounterElectrode (checkStop env ex).1
      ((checkStop env ex).1.ecd.supplyVoltage / 2)))
      (List.range (disableAllSegments (enableCounterElectrode (checkStop env ex).1
      ((checkStop env ex).1.ecd.supplyVoltage / 2))).ecd.n) false false).1).1 (checkStop env (classifyLoop env (disableAllSegments (enableCounterElectrode (checkStop env ex).1
      ((checkStop env ex).1.ecd.supplyVoltage / 2)))
      (List.range (disableAllSegments (enableCounterElectrode (checkStop env ex).1
      ((checkStop env ex).1.ecd.supplyVoltage / 2))).ecd.n) false false).1).1.ecd.cfg.refreshBleachingVoltage) (classifyLoop env (disableAllSegments (enableCounterElectrode (checkStop env ex).1
      ((checkStop env ex).1.ecd.supplyVoltage / 2)))
      (List.range (disableAllSegments (enableCounterElectrode (checkStop env ex).1
      ((checkStop env ex).1.ecd.supplyVoltage / 2))).ecd.n) false false).2.2.2 0 ((enableCounterElectrode (checkStop env (classifyLoop env (disableAllSegments (enableCounterElectrode (checkStop env ex).1
      ((checkStop env ex).1.ecd.supplyVoltage / 2)))
      (List.range (disableAllSegments (enableCounterElectrode (checkStop env ex).1
      ((checkStop env ex).1.ecd.supplyVoltage / 2))).ecd.n) false false).1).1 (checkStop env (classifyLoop env (disableAllSegments (enableCounterElectrode (checkStop env ex).1
      ((checkStop env ex).1.ecd.supplyVoltage / 2)))
      (List.range (disableAllSegments (enableCounterElectrode (checkStop env ex).1
      ((checkStop env ex).1.ecd.supplyVoltage / 2))).ecd.n) false false).1).1.ecd.cfg.refreshBleachingVoltage).ecd.consts.maxRefreshRetries + 1)).1.ecd.cfg.refreshColoringVoltage)).ecd.cePin :=
    flagsOnly_cePin (colorWhile_rframe env ((enableCounterElectrode (bleachWhile env (enableCounterElectrode (checkStop env (classifyLoop env (disableAllSegments (enableCounterElectrode (checkStop env ex).1
      ((checkStop env ex).1.ecd.supplyVoltage / 2)))
      (List.range (disableAllSegments (enableCounterElectrode (checkStop env ex).1
      ((checkStop env ex).1.ecd.supplyVoltage / 2))).ecd.n) false false).1).1 (checkStop env (classifyLoop env (disableAllSegments (enableCounterElectrode (checkStop env ex).1
      ((checkStop env ex).1.ecd.supplyVoltage / 2)))
      (List.range (disableAllSegments (enableCounterElectrode (checkStop env ex).1
      ((checkStop env ex).1.ecd.supplyVoltage / 2))).ecd.n) false false).1).1.ecd.cfg.refreshBleachingVoltage) (classifyLoop env (disableAllSegments (enableCounterElectrode (checkStop env ex).1
      ((checkStop env ex).1.ecd.supplyVoltage / 2)))
      (List.range (disableAllSegments (enableCounterElectrode (checkStop env ex).1
      ((checkStop env ex).1.ecd.supplyVoltage / 2))).ecd.n) false false).2.2.2 0 ((enableCounterElectrode (checkStop env (classifyLoop env (disableAllSegments (enableCounterElectrode (checkStop env ex).1
      ((checkStop env ex).1.ecd.supplyVoltage / 2)))
      (List.range (disableAllSegments (enableCounterElectrode (checkStop env ex).1
      ((checkStop env ex).1.ecd.supplyVoltage / 2))).ecd.n) false false).1).1 (checkStop env (classifyLoop env (disableAllSegments (enableCounterElectrode (checkStop env ex).1
      ((checkStop env ex).1.ecd.supplyVoltage / 2)))
      (List.range (disableAllSegments (enableCounterElectrode (checkStop env ex).1
      ((checkStop env ex).1.ecd.supplyVoltage / 2))).ecd.n) false false).1).1.ecd.cfg.refreshBleachingVoltage).ecd.consts.maxRefreshRetries + 1)).1
      ((bleachWhile env (enableCounterElectrode (checkStop env (classifyLoop env (disableAllSegments (enableCounterElectrode (checkStop env ex).1
      ((checkStop env ex).1.ecd.supplyVoltage / 2)))
      (List.range (disableAllSegments (enableCounterElectrode (checkStop env ex).1
      ((checkStop env ex).1.ecd.supplyVoltage / 2))).ecd.n) false false).1).1 (checkStop env (classifyLoop env (disableAllSegments (enableCounterElectrode (checkStop env ex).1
      ((checkStop env ex).1.ecd.supplyVoltage / 2)))
      (List.range (disableAllSegments (enableCounterElectrode (checkStop env ex).1
      ((checkStop env ex).1.ecd.supplyVoltage / 2))).ecd.n) false false).1).1.ecd.cfg.refreshBleachingVoltage) (classifyLoop env (disableAllSegments (enableCounterElectrode (checkStop env ex).1
      ((checkStop env ex).1.ecd.supplyVoltage / 2)))
      (List.range (disableAllSegments (enableCounterElectrode (checkStop env ex).1
      ((checkStop env ex).1.ecd.supplyVoltage / 2))).ecd.n) false false).2.2.2 0 ((enableCounterElectrode (checkStop env (classifyLoop env (disableAllSegments (enableCounterElectrode (checkStop env ex).1
      ((checkStop env ex).1.ecd.supplyVoltage / 2)))
      (List.range (disableAllSegments (enableCounterElectrode (checkStop env ex).1
      ((checkStop env ex).1.ecd.supplyVoltage / 2))).ecd.n) false false).1).1 (checkStop env (classifyLoop env (disableAllSegments (enableCounterElectrode (checkStop env ex).1
      ((checkStop env ex).1.ecd.supplyVoltage / 2)))
      (List.range (disableAllSegments (enableCounterElectrode (checkStop env ex).1
      ((checkStop env ex).1.ecd.supplyVoltage / 2))).ecd.n) false false).1).1.ecd.cfg.refreshBleachingVoltage).ecd.consts.maxRefreshRetries + 1)).1.ecd.supplyVoltage - (bleachWhile env (enableCounterElectrode (checkStop env (classifyLoop env (disableAllSegments (enableCounterElectrode (checkStop env ex).1
      ((checkStop env ex).1.ecd.supplyVoltage / 2)))
      (List.range (disableAllSegments (enableCounterElectrode (checkStop env ex).1
      ((checkStop env ex).1.ecd.supplyVoltage / 2))).ecd.n) false false).1).1 (checkStop env (classifyLoop env (disableAllSegments (enableCounterElectrode (checkStop env ex).1
      ((checkStop env ex).1.ecd.supplyVoltage / 2)))
      (List.range (disableAllSegments (enableCounterElectrode (checkStop env ex).1
      ((checkStop env ex).1.ecd.supplyVoltage / 2))).ecd.n) false false).1).1.ecd.cfg.refreshBleachingVoltage) (classifyLoop env (disableAllSegments (enableCounterElectrode (checkStop env ex).1
      ((checkStop env ex).1.ecd.supplyVoltage / 2)))
      (List.range (disableAllSegments (enableCounterElectrode (checkStop env ex).1
      ((checkStop env ex).1.ecd.supplyVoltage / 2))).ecd.n) false false).2.2.2 0 ((enableCounterElectrode (checkStop env (classifyLoop env (disableAllSegments (enableCounterElectrode (checkStop env ex).1
      ((checkStop env ex).1.ecd.supplyVoltage / 2)))
      (List.range (disableAllSegments (enableCounterElectrode (checkStop env ex).1
      ((checkStop env ex).1.ecd.supplyVoltage / 2))).ecd.n) false false).1).1 (checkStop env (classifyLoop env (disableAllSegments (enableCounterElectrode (checkStop env ex).1
      ((checkStop env ex).1.ecd.supplyVoltage / 2)))
      (List.range (disableAllSegments (enableCounterElectrode (checkStop env ex).1
      ((checkStop env ex).1.ecd.supplyVoltage / 2))).ecd.n) false false).1).1.ecd.cfg.refreshBleachingVoltage).ecd.consts.maxRefreshRetries + 1)).1.ecd.cfg.refreshColoringVoltage)).ecd.consts.maxRefreshRetries + 1)
      (enableCounterElectrode (bleachWhile env (enableCounterElectrode (checkStop env (classifyLoop env (disableAllSegments (enableCounterElectrode (checkStop env ex).1
      ((checkStop env ex).1.ecd.supplyVoltage / 2)))
      (List.range (disableAllSegments (enableCounterElectrode (checkStop env ex).1
      ((checkStop env ex).1.ecd.supplyVoltage / 2))).ecd.n) false false).1).1 (checkStop env (classifyLoop env (disableAllSegments (enableCounterElectrode (checkStop env ex).1
      ((checkStop env ex).1.ecd.supplyVoltage / 2)))
      (List.range (disableAllSegments (enableCounterElectrode (checkStop env ex).1
      ((checkStop env ex).1.ecd.supplyVoltage / 2))).ecd.n) false false).1).1.ecd.cfg.refreshBleachingVoltage) (classifyLoop env (disableAllSegments (enableCounterElectrode (checkStop env ex).1
      ((checkStop env ex).1.ecd.supplyVoltage / 2)))
      (List.range (disableAllSegments (enableCounterElectrode (checkStop env ex).1
      ((checkStop env ex).1.ecd.supplyVoltage / 2))).ecd.n) false false).2.2.2 0 ((enableCounterElectrode (checkStop env (classifyLoop env (disableAllSegments (enableCounterElectrode (checkStop env ex).1
      ((checkStop env ex).1.ecd.supplyVoltage / 2)))
      (List.range (disableAllSegments (enableCounterElectrode (checkStop env ex).1
      ((checkStop env ex).1.ecd.supplyVoltage / 2))).ecd.n) false false).1).1 (checkStop env (classifyLoop env (disableAllSegments (enableCounterElectrode (checkStop env ex).1
      ((checkStop env ex).1.ecd.supplyVoltage / 2)))
      (List.range (disableAllSegments (enableCounterElectrode (checkStop env ex).1
      ((checkStop env ex).1.ecd.supplyVoltage / 2))).ecd.n) false false).1).1.ecd.cfg.refreshBleachingVoltage).ecd.consts.maxRefreshRetries + 1)).1
      ((bleachWhile env (enableCounterElectrode (checkStop env (classifyLoop env (disableAllSegments (enableCounterElectrode (checkStop env ex).1
      ((checkStop env ex).1.ecd.supplyVoltage / 2)))
      (List.range (disableAllSegments (enableCounterElectrode (checkStop env ex).1
      ((checkStop env ex).1.ecd.supplyVoltage / 2))).ecd.n) false false).1).1 (checkStop env (classifyLoop env (disableAllSegments (enableCounterElectrode (checkStop env ex).1
      ((checkStop env ex).1.ecd.supplyVoltage / 2)))
      (List.range (disableAllSegments (enableCounterElectrode (checkStop env ex).1
      ((checkStop env ex).1.ecd.supplyVoltage / 2))).ecd.n) false false).1).1.ecd.cfg.refreshBleachingVoltage) (classifyLoop env (disableAllSegments (enableCounterElectrode (checkStop env ex).1
      ((checkStop env ex).1.ecd.supplyVoltage / 2)))
      (List.range (disableAllSegments (enableCounterElectrode (checkStop env ex).1
      ((checkStop env ex).1.ecd.supplyVoltage / 2))).ecd.n) false false).2.2.2 0 ((enableCounterElectrode (checkStop env (classifyLoop env (disableAllSegments (enableCounterElectrode (checkStop env ex).1
      ((checkStop env ex).1.ecd.supplyVoltage / 2)))
      (List.range (disableAllSegments (enableCounterElectrode (checkStop env ex).1
      ((checkStop env ex).1.ecd.supplyVoltage / 2))).ecd.n) false false).1).1 (checkStop env (classifyLoop env (disableAllSegments (enableCounterElectrode (checkStop env ex).1
      ((checkStop env ex).1.ecd.supplyVoltage / 2)))
      (List.range (disableAllSegments (enableCounterElectrode (checkStop env ex).1
      ((checkStop env ex).1.ecd.supplyVoltage / 2))).ecd.n) false false).1).1.ecd.cfg.refreshBleachingVoltage).ecd.consts.maxRefreshRetries + 1)).1.ecd.supplyVoltage - (bleachWhile env (enableCounterElectrode (checkStop env (classifyLoop env (disableAllSegments (enableCounterElectrode (checkStop env ex).1
      ((checkStop env ex).1.ecd.supplyVoltage / 2)))
      (List.range (disableAllSegments (enableCounterElectrode (checkStop env ex).1
      ((checkStop env ex).1.ecd.supplyVoltage / 2))).ecd.n) false false).1).1 (checkStop env (classifyLoop env (disableAllSegments (enableCounterElectrode (checkStop env ex).1
      ((checkStop env ex).1.ecd.supplyVoltage / 2)))
      (List.range (disableAllSegments (enableCounterElectrode (checkStop env ex).1
      ((checkStop env ex).1.ecd.supplyVoltage / 2))).ecd.n) false false).1).1.ecd.cfg.refreshBleachingVoltage) (classifyLoop env (disableAllSegments (enableCounterElectrode (checkStop env ex).1
      ((checkStop env ex).1.ecd.supplyVoltage / 2)))
      (List.range (disableAllSegments (enableCounterElectrode (checkStop env ex).1
      ((checkStop env ex).1.ecd.supplyVoltage / 2))).ecd.n) false false).2.2.2 0 ((enableCounterElectrode (checkStop env (classifyLoop env (disableAllSegments (enableCounterElectrode (checkStop env ex).1
      ((checkStop env ex).1.ecd.supplyVoltage / 2)))
      (List.range (disableAllSegments (enableCounterElectrode (checkStop env ex).1
      ((checkStop env ex).1.ecd.supplyVoltage / 2))).ecd.n) false false).1).1 (checkStop env (classifyLoop env (disableAllSegments (enableCounterElectrode (checkStop env ex).1
      ((checkStop env ex).1.ecd.supplyVoltage / 2)))
      (List.range (disableAllSegments (enableCounterElectrode (checkStop env ex).1
      ((checkStop env ex).1.ecd.supplyVoltage / 2))).ecd.n) false false).1).1.ecd.cfg.refreshBleachingVoltage).ecd.consts.maxRefreshRetries + 1)).1.ecd.cfg.refreshColoringVoltage)) (classifyLoop env (disableAllSegments (enableCounterElectrode (checkStop env ex).1
      ((checkStop env ex).1.ecd.supplyVoltage / 2)))
      (List.range (disableAllSegments (enableCounterElectrode (checkStop env ex).1
      ((checkStop env ex).1.ecd.supplyVoltage / 2))).ecd.n) false false).2.2.1 0).1
  have h2 : (bleachWhile env (enableCounterElectrode (checkStop env (classifyLoop env (disableAllSegments (enableCounterElectrode (checkStop env ex).1
      ((checkStop env ex).1.ecd.supplyVoltage / 2)))
      (List.range (disableAllSegments (enableCounterElectrode (checkStop env ex).1
      ((checkStop env ex).1.ecd.supplyVoltage / 2))).ecd.n) false false).1).1 (checkStop env (classifyLoop env (disableAllSegments (enableCounterElectrode (checkStop env ex).1
      ((checkStop env ex).1.ecd.supplyVoltage / 2)))
      (List.range (disableAllSegments (enableCounterElectrode (checkStop env ex).1
      ((checkStop env ex).1.ecd.supplyVoltage / 2))).ecd.n) false false).1).1.ecd.cfg.refreshBleachingVoltage) (classifyLoop env (disableAllSegments (enableCounterElectrode (checkStop env ex).1
      ((checkStop env ex).1.ecd.supplyVoltage / 2)))
      (List.range (disableAllSegments (enableCounterElectrode (checkStop env ex).1
      ((checkStop env ex).1.ecd.supplyVoltage / 2))).ecd.n) false false).2.2.2 0 ((enableCounterElectrode (checkStop env (classifyLoop env (disableAllSegments (enableCounterElectrode (checkStop env ex).1
      ((checkStop env ex).1.ecd.supplyVoltage / 2)))
      (List.range (disableAllSegments (enableCounterElectrode (checkStop env ex).1
      ((checkStop env ex).1.ecd.supplyVoltage / 2))).ecd.n) false false).1).1 (checkStop env (classifyLoop env (disableAllSegments (enableCounterElectrode (checkStop env ex).1
      ((checkStop env ex).1.ecd.supplyVoltage / 2)))
      (List.range (disableAllSegments (enableCounterElectrode (checkStop env ex).1
      ((checkStop env ex).1.ecd.supplyVoltage / 2))).ecd.n) false false).1).1.ecd.cfg.refreshBleachingVoltage).ecd.consts.maxRefreshRetries + 1)).1.ecd.cePin
      = (enableCounterElectrode (checkStop env (classifyLoop env (disableAllSegments (enableCounterElectrode (checkStop env ex).1
      ((checkStop env ex).1.ecd.supplyVoltage / 2)))
      (List.range (disableAllSegments (enableCounterElectrode (checkStop env ex).1
      ((checkStop env ex).1.ecd.supplyVoltage / 2))).ecd.n) false false).1).1 (checkStop env (classifyLoop env (disableAllSegments (enableCounterElectrode (checkStop env ex).1
      ((checkStop env ex).1.ecd.supplyVoltage / 2)))
      (List.range (disableAllSegments (enableCounterElectrode (checkStop env ex).1
      ((checkStop env ex).1.ecd.supplyVoltage / 2))).ecd.n) false false).1).1.ecd.cfg.refreshBleachingVoltage).ecd.cePin :=
    flagsOnly_cePin (bleachWhile_rframe env ((enableCounterElectrode (checkStop env (classifyLoop env (disableAllSegments (enableCounterElectrode (checkStop env ex).1
      ((checkStop env ex).1.ecd.supplyVoltage / 2)))
      (List.range (disableAllSegments (enableCounterElectrode (checkStop env ex).1
      ((checkStop env ex).1.ecd.supplyVoltage / 2))).ecd.n) false false).1).1 (checkStop env (classifyLoop env (disableAllSegments (enableCounterElectrode (checkStop env ex).1
      ((checkStop env ex).1.ecd.supplyVoltage / 2)))
      (List.range (disableAllSegments (enableCounterElectrode (checkStop env ex).1
      ((checkStop env ex).1.ecd.supplyVoltage / 2))).ecd.n) false false).1).1.ecd.cfg.refreshBleachingVoltage).ecd.consts.maxRefreshRetries + 1)
      (enableCounterElectrode (checkStop env (classifyLoop env (disableAllSegments (enableCounterElectrode (checkStop env ex).1
      ((checkStop env ex).1.ecd.supplyVoltage / 2)))
      (List.range (disableAllSegments (enableCounterElectrode (checkStop env ex).1
      ((checkStop env ex).1.ecd.supplyVoltage / 2))).ecd.n) false false).1).1 (checkStop env (classifyLoop env (disableAllSegments (enableCounterElectrode (checkStop env ex).1
      ((checkStop env ex).1.ecd.supplyVoltage / 2)))
      (List.range (disableAllSegments (enableCounterElectrode (checkStop env ex).1
      ((checkStop env ex).1.ecd.supplyVoltage / 2))).ecd.n) false false).1).1.ecd.cfg.refreshBleachingVoltage) (classifyLoop env (disableAllSegments (enableCounterElectrode (checkStop env ex).1
      ((checkStop env ex).1.ecd.supplyVoltage / 2)))
      (List.range (disableAllSegments (enableCounterElectrode (checkStop env ex).1
      ((checkStop env ex).1.ecd.supplyVoltage / 2))).ecd.n) false false).2.2.2 0).1
  have h3 : (classifyLoop env (disableAllSegments (enableCounterElectrode (checkStop env ex).1
      ((checkStop env ex).1.ecd.supplyVoltage / 2)))
      (List.range (disableAllSegments (enableCounterElectrode (checkStop env ex).1
      ((checkStop env ex).1.ecd.supplyVoltage / 2))).ecd.n) false false).1.ecd.cePin
      = (disableAllSegments (enableCounterElectrode (checkStop env ex).1
      ((checkStop env ex).1.ecd.supplyVoltage / 2))).ecd.cePin :=
    flagsOnly_cePin (classifyLoop_rframe env (List.range (disableAllSegments (enableCounterElectrode (checkStop env ex).1
      ((checkStop env ex).1.ecd.supplyVoltage / 2))).ecd.n)
      (disableAllSegments (enableCounterElectrode (checkStop env ex).1
      ((checkStop env ex).1.ecd.supplyVoltage / 2))) false false).1
  have hce : (colorWhile env (enableCounterElectrode (bleachWhile env (enableCounterElectrode (checkStop env (classifyLoop env (disableAllSegments (enableCounterElectrode (checkStop env ex).1
      ((checkStop env ex).1.ecd.supplyVoltage / 2)))
      (List.range (disableAllSegments (enableCounterElectrode (checkStop env ex).1
      ((checkStop env ex).1.ecd.supplyVoltage / 2))).ecd.n) false false).1).1 (checkStop env (classifyLoop env (disableAllSegments (enableCounterElectrode (checkStop env ex).1
      ((checkStop env ex).1.ecd.supplyVoltage / 2)))
      (List.range (disableAllSegments (enableCounterElectrode (checkStop env ex).1
      ((checkStop env ex).1.ecd.supplyVoltage / 2))).ecd.n) false false).1).1.ecd.cfg.refreshBleachingVoltage) (classifyLoop env (disableAllSegments (enableCounterElectrode (checkStop env ex).1
      ((checkStop env ex).1.ecd.supplyVoltage / 2)))
      (List.range (disableAllSegments (enableCounterElectrode (checkStop env ex).1
      ((checkStop env ex).1.ecd.supplyVoltage / 2))).ecd.n) false false).2.2.2 0 ((enableCounterElectrode (checkStop env (classifyLoop env (disableAllSegments (enableCounterElectrode (checkStop env ex).1
      ((checkStop env ex).1.ecd.supplyVoltage / 2)))
      (List.range (disableAllSegments (enableCounterElectrode (checkStop env ex).1
      ((checkStop env ex).1.ecd.supplyVoltage / 2))).ecd.n) false false).1).1 (checkStop env (classifyLoop env (disableAllSegments (enableCounterElectrode (checkStop env ex).1
      ((checkStop env ex).1.ecd.supplyVoltage / 2)))
      (List.range (disableAllSegments (enableCounterElectrode (checkStop env ex).1
      ((checkStop env ex).1.ecd.supplyVoltage / 2))).ecd.n) false false).1).1.ecd.cfg.refreshBleachingVoltage).ecd.consts.maxRefreshRetries + 1)).1
      ((bleachWhile env (enableCounterElectrode (checkStop env (classifyLoop env (disableAllSegments (enableCounterElectrode (checkStop env ex).1
      ((checkStop env ex).1.ecd.supplyVoltage / 2)))
      (List.range (disableAllSegments (enableCounterElectrode (checkStop env ex).1
      ((checkStop env ex).1.ecd.supplyVoltage / 2))).ecd.n) false false).1).1 (checkStop env (classifyLoop env (disableAllSegments (enableCounterElectrode (checkStop env ex).1
      ((checkStop env ex).1.ecd.supplyVoltage / 2)))
      (List.range (disableAllSegments (enableCounterElectrode (checkStop env ex).1
      ((checkStop env ex).1.ecd.supplyVoltage / 2))).ecd.n) false false).1).1.ecd.cfg.refreshBleachingVoltage) (classifyLoop env (disableAllSegments (enableCounterElectrode (checkStop env ex).1
      ((checkStop env ex).1.ecd.supplyVoltage / 2)))
      (List.range (disableAllSegments (enableCounterElectrode (checkStop env ex).1
      ((checkStop env ex).1.ecd.supplyVoltage / 2))).ecd.n) false false).2.2.2 0 ((enableCounterElectrode (checkStop env (classifyLoop env (disableAllSegments (enableCounterElectrode (checkStop env ex).1
      ((checkStop env ex).1.ecd.supplyVoltage / 2)))
      (List.range (disableAllSegments (enableCounterElectrode (checkStop env ex).1
      ((checkStop env ex).1.ecd.supplyVoltage / 2))).ecd.n) false false).1).1 (checkStop env (classifyLoop env (disableAllSegments (enableCounterElectrode (checkStop env ex).1
      ((checkStop env ex).1.ecd.supplyVoltage / 2)))
      (List.range (disableAllSegments (enableCounterElectrode (checkStop env ex).1
      ((checkStop env ex).1.ecd.supplyVoltage / 2))).ecd.n) false false).1).1.ecd.cfg.refreshBleachingVoltage).ecd.consts.maxRefreshRetries + 1)).1.ecd.supplyVoltage - (bleachWhile env (enableCounterElectrode (checkStop env (classifyLoop env (disableAllSegments (enableCounterElectrode (checkStop env ex).1
      ((checkStop env ex).1.ecd.supplyVoltage / 2)))
      (List.range (disableAllSegments (enableCounterElectrode (checkStop env ex).1
      ((checkStop env ex).1.ecd.supplyVoltage / 2))).ecd.n) false false).1).1 (checkStop env (classifyLoop env (disableAllSegments (enableCounterElectrode (checkStop env ex).1
      ((checkStop env ex).1.ecd.supplyVoltage / 2)))
      (List.range (disableAllSegments (enableCounterElectrode (checkStop env ex).1
      ((checkStop env ex).1.ecd.supplyVoltage / 2))).ecd.n) false false).1).1.ecd.cfg.refreshBleachingVoltage) (classifyLoop env (disableAllSegments (enableCounterElectrode (checkStop env ex).1
      ((checkStop env ex).1.ecd.supplyVoltage / 2)))
      (List.range (disableAllSegments (enableCounterElectrode (checkStop env ex).1
      ((checkStop env ex).1.ecd.supplyVoltage / 2))).ecd.n) false false).2.2.2 0 ((enableCounterElectrode (checkStop env (classifyLoop env (disableAllSegments (enableCounterElectrode (checkStop env ex).1
      ((checkStop env ex).1.ecd.supplyVoltage / 2)))
      (List.range (disableAllSegments (enableCounterElectrode (checkStop env ex).1
      ((checkStop env ex).1.ecd.supplyVoltage / 2))).ecd.n) false false).1).1 (checkStop env (classifyLoop env (disableAllSegments (enableCounterElectrode (checkStop env ex).1
      ((checkStop env ex).1.ecd.supplyVoltage / 2)))
      (List.range (disableAllSegments (enableCounterElectrode (checkStop env ex).1
      ((checkStop env ex).1.ecd.supplyVoltage / 2))).ecd.n) false false).1).1.ecd.cfg.refreshBleachingVoltage).ecd.consts.maxRefreshRetries + 1)).1.ecd.cfg.refreshColoringVoltage)) (classifyLoop env (disableAllSegments (enableCounterElectrode (checkStop env ex).1
      ((checkStop env ex).1.ecd.supplyVoltage / 2)))
      (List.range (disableAllSegments (enableCounterElectrode (checkStop env ex).1
      ((checkStop env ex).1.ecd.supplyVoltage / 2))).ecd.n) false false).2.2.1 0 ((enableCounterElectrode (bleachWhile env (enableCounterElectrode (checkStop env (classifyLoop env (disableAllSegments (enableCounterElectrode (checkStop env ex).1
      ((checkStop env ex).1.ecd.supplyVoltage / 2)))
      (List.range (disableAllSegments (enableCounterElectrode (checkStop env ex).1
      ((checkStop env ex).1.ecd.supplyVoltage / 2))).ecd.n) false false).1).1 (checkStop env (classifyLoop env (disableAllSegments (enableCounterElectrode (checkStop env ex).1
      ((checkStop env ex).1.ecd.supplyVoltage / 2)))
      (List.range (disableAllSegments (enableCounterElectrode (checkStop env ex).1
      ((checkStop env ex).1.ecd.supplyVoltage / 2))).ecd.n) false false).1).1.ecd.cfg.refreshBleachingVoltage) (classifyLoop env (disableAllSegments (enableCounterElectrode (checkStop env ex).1
      ((checkStop env ex).1.ecd.supplyVoltage / 2)))
      (List.range (disableAllSegments (enableCounterElectrode (checkStop env ex).1
      ((checkStop env ex).1.ecd.supplyVoltage / 2))).ecd.n) false false).2.2.2 0 ((enableCounterElectrode (checkStop env (classifyLoop env (disableAllSegments (enableCounterElectrode (checkStop env ex).1
      ((checkStop env ex).1.ecd.supplyVoltage / 2)))
      (List.range (disableAllSegments (enableCounterElectrode (checkStop env ex).1
      ((checkStop env ex).1.ecd.supplyVoltage / 2))).ecd.n) false false).1).1 (checkStop env (classifyLoop env (disableAllSegments (enableCounterElectrode (checkStop env ex).1
      ((checkStop env ex).1.ecd.supplyVoltage / 2)))
      (List.range (disableAllSegments (enableCounterElectrode (checkStop env ex).1
      ((checkStop env ex).1.ecd.supplyVoltage / 2))).ecd.n) false false).1).1.ecd.cfg.refreshBleachingVoltage).ecd.consts.maxRefreshRetries + 1)).1
      ((bleachWhile env (enableCounterElectrode (checkStop env (classifyLoop env (disableAllSegments (enableCounterElectrode (checkStop env ex).1
      ((checkStop env ex).1.ecd.supplyVoltage / 2)))
      (List.range (disableAllSegments (enableCounterElectrode (checkStop env ex).1
      ((checkStop env ex).1.ecd.supplyVoltage / 2))).ecd.n) false false).1).1 (checkStop env (classifyLoop env (disableAllSegments (enableCounterElectrode (checkStop env ex).1
      ((checkStop env ex).1.ecd.supplyVoltage / 2)))
      (List.range (disableAllSegments (enableCounterElectrode (checkStop env ex).1
      ((checkStop env ex).1.ecd.supplyVoltage / 2))).ecd.n) false false).1).1.ecd.cfg.refreshBleachingVoltage) (classifyLoop env (disableAllSegments (enableCounterElectrode (checkStop env ex).1
      ((checkStop env ex).1.ecd.supplyVoltage / 2)))
      (List.range (disableAllSegments (enableCounterElectrode (checkStop env ex).1
      ((checkStop env ex).1.ecd.supplyVoltage / 2))).ecd.n) false false).2.2.2 0 ((enableCounterElectrode (checkStop env (classifyLoop env (disableAllSegments (enableCounterElectrode (checkStop env ex).1
      ((checkStop env ex).1.ecd.supplyVoltage / 2)))
      (List.range (disableAllSegments (enableCounterElectrode (checkStop env ex).1
      ((checkStop env ex).1.ecd.supplyVoltage / 2))).ecd.n) false false).1).1 (checkStop env (classifyLoop env (disableAllSegments (enableCounterElectrode (checkStop env ex).1
      ((checkStop env ex).1.ecd.supplyVoltage / 2)))
      (List.range (disableAllSegments (enableCounterElectrode (checkStop env ex).1
      ((checkStop env ex).1.ecd.supplyVoltage / 2))).ecd.n) false false).1).1.ecd.cfg.refreshBleachingVoltage).ecd.consts.maxRefreshRetries + 1)).1.ecd.supplyVoltage - (bleachWhile env (enableCounterElectrode (checkStop env (classifyLoop env (disableAllSegments (enableCounterElectrode (checkStop env ex).1
      ((checkStop env ex).1.ecd.supplyVoltage / 2)))
      (List.range (disableAllSegments (enableCounterElectrode (checkStop env ex).1
      ((checkStop env ex).1.ecd.supplyVoltage / 2))).ecd.n) false false).1).1 (checkStop env (classifyLoop env (disableAllSegments (enableCounterElectrode (checkStop env ex).1
      ((checkStop env ex).1.ecd.supplyVoltage / 2)))
      (List.range (disableAllSegments (enableCounterElectrode (checkStop env ex).1
      ((checkStop env ex).1.ecd.supplyVoltage / 2))).ecd.n) false false).1).1.ecd.cfg.refreshBleachingVoltage) (classifyLoop env (disableAllSegments (enableCounterElectrode (checkStop env ex).1
      ((checkStop env ex).1.ecd.supplyVoltage / 2)))
      (List.range (disableAllSegments (enableCounterElectrode (checkStop env ex).1
      ((checkStop env ex).1.ecd.supplyVoltage / 2))).ecd.n) false false).2.2.2 0 ((enableCounterElectrode (checkStop env (classifyLoop env (disableAllSegments (enableCounterElectrode (checkStop env ex).1
      ((checkStop env ex).1.ecd.supplyVoltage / 2)))
      (List.range (disableAllSegments (enableCounterElectrode (checkStop env ex).1
      ((checkStop env ex).1.ecd.supplyVoltage / 2))).ecd.n) false false).1).1 (checkStop env (classifyLoop env (disableAllSegments (enableCounterElectrode (checkStop env ex).1
      ((checkStop env ex).1.ecd.supplyVoltage / 2)))
      (List.range (disableAllSegments (enableCounterElectrode (checkStop env ex).1
      ((checkStop env ex).1.ecd.supplyVoltage / 2))).ecd.n) false false).1).1.ecd.cfg.refreshBleachingVoltage).ecd.consts.maxRefreshRetries + 1)).1.ecd.cfg.refreshColoringVoltage)).ecd.consts.maxRefreshRetries + 1)).1.ecd.cePin = ex.ecd.cePin := by
    refine h1.trans ?_
    show (bleachWhile env (enableCounterElectrode (checkStop env (classifyLoop env (disableAllSegments (enableCounterElectrode (checkStop env ex).1
      ((checkStop env ex).1.ecd.supplyVoltage / 2)))
      (List.range (disableAllSegments (enableCounterElectrode (checkStop env ex).1
      ((checkStop env ex).1.ecd.supplyVoltage / 2))).ecd.n) false false).1).1 (checkStop env (classifyLoop env (disableAllSegments (enableCounterElectrode (checkStop env ex).1
      ((checkStop env ex).1.ecd.supplyVoltage / 2)))
      (List.range (disableAllSegments (enableCounterElectrode (checkStop env ex).1
      ((checkStop env ex).1.ecd.supplyVoltage / 2))).ecd.n) false false).1).1.ecd.cfg.refreshBleachingVoltage) (classifyLoop env (disableAllSegments (enableCounterElectrode (checkStop env ex).1
      ((checkStop env ex).1.ecd.supplyVoltage / 2)))
      (List.range (disableAllSegments (enableCounterElectrode (checkStop env ex).1
      ((checkStop env ex).1.ecd.supplyVoltage / 2))).ecd.n) false false).2.2.2 0 ((enableCounterElectrode (checkStop env (classifyLoop env (disableAllSegments (enableCounterElectrode (checkStop env ex).1
      ((checkStop env ex).1.ecd.supplyVoltage / 2)))
      (List.range (disableAllSegments (enableCounterElectrode (checkStop env ex).1
      ((checkStop env ex).1.ecd.supplyVoltage / 2))).ecd.n) false false).1).1 (checkStop env (classifyLoop env (disableAllSegments (enableCounterElectrode (checkStop env ex).1
      ((checkStop env ex).1.ecd.supplyVoltage / 2)))
      (List.range (disableAllSegments (enableCounterElectrode (checkStop env ex).1
      ((checkStop env ex).1.ecd.supplyVoltage / 2))).ecd.n) false false).1).1.ecd.cfg.refreshBleachingVoltage).ecd.consts.maxRefreshRetries + 1)).1.ecd.cePin = ex.ecd.cePin
    refine h2.trans ?_
    show (classifyLoop env (disableAllSegments (enableCounterElectrode (checkStop env ex).1
      ((checkStop env ex).1.ecd.supplyVoltage / 2)))
      (List.range (disableAllSegments (enableCounterElectrode (checkStop env ex).1
      ((checkStop env ex).1.ecd.supplyVoltage / 2))).ecd.n) false false).1.ecd.cePin = ex.ecd.cePin
    refine h3.trans ?_
    rfl
  simp only [refreshDisplay]
  split
  · next h =>
      rw [checkStop_snd, hstop] at h
      exact absurd h (by simp)
  · obtain ⟨hcl0, hclC, hclB, hclF⟩ := classifyLoop_noStop env hstop
      (List.range (disableAllSegments (enableCounterElectrode (checkStop env ex).1
      ((checkStop env ex).1.ecd.supplyVoltage / 2))).ecd.n)
      (disableAllSegments (enableCounterElectrode (checkStop env ex).1
      ((checkStop env ex).1.ecd.supplyVoltage / 2)))
      false false (List.nodup_range _) hinj
    have htrig2 : (((List.range (disableAllSegments (enableCounterElectrode (checkStop env ex).1
      ((checkStop env ex).1.ecd.supplyVoltage / 2))).ecd.n).any
          fun i => decide (classBleachCond env (disableAllSegments (enableCounterElectrode (checkStop env ex).1
      ((checkStop env ex).1.ecd.supplyVoltage / 2))) i))
        || ((List.range (disableAllSegments (enableCounterElectrode (checkStop env ex).1
      ((checkStop env ex).1.ecd.supplyVoltage / 2))).ecd.n).any
          fun i => decide (classColorCond env (disableAllSegments (enableCounterElectrode (checkStop env ex).1
      ((checkStop env ex).1.ecd.supplyVoltage / 2))) i))) = true := htrig
    have hBC : ((classifyLoop env (disableAllSegments (enableCounterElectrode (checkStop env ex).1
      ((checkStop env ex).1.ecd.supplyVoltage / 2)))
      (List.range (disableAllSegments (enableCounterElectrode (checkStop env ex).1
      ((checkStop env ex).1.ecd.supplyVoltage / 2))).ecd.n) false false).2.2.2
        || (classifyLoop env (disableAllSegments (enableCounterElectrode (checkStop env ex).1
      ((checkStop env ex).1.ecd.supplyVoltage / 2)))
      (List.range (disableAllSegments (enableCounterElectrode (checkStop env ex).1
      ((checkStop env ex).1.ecd.supplyVoltage / 2))).ecd.n) false false).2.2.1) = true := by
      rw [hclB, hclC, Bool.false_or, Bool.false_or]
      exact htrig2
    have hBCn : ¬ (((classifyLoop env (disableAllSegments (enableCounterElectrode (checkStop env ex).1
      ((checkStop env ex).1.ecd.supplyVoltage / 2)))
      (List.range (disableAllSegments (enableCounterElectrode (checkStop env ex).1
      ((checkStop env ex).1.ecd.supplyVoltage / 2))).ecd.n) false false).2.2.2
        || (classifyLoop env (disableAllSegments (enableCounterElectrode (checkStop env ex).1
      ((checkStop env ex).1.ecd.supplyVoltage / 2)))
      (List.range (disableAllSegments (enableCounterElectrode (checkStop env ex).1
      ((checkStop env ex).1.ecd.supplyVoltage / 2))).ecd.n) false false).2.2.1) = false) := by
      rw [hBC]
      simp
    split
    · next h =>
        rw [hcl0] at h
        exact absurd h (by simp)
    · split
      · next h =>
          rw [checkStop_snd, hstop] at h
          exact absurd h (by simp)
      · split
        · next h => exact absurd h (bleachWhile_not_stopped env hstop _ _ _ _)
        · split
          · next h => exact absurd h (colorWhile_not_stopped env hstop _ _ _ _)
          · refine ⟨rfl, ?_⟩
            rw [disableCounterElectrode_trace, hce]
            exact ⟨_, rfl⟩

/-- C2 (corrected): in `refreshDisplay`'s bleach retry loop, a flagged
bleached segment whose re-sample is always out of range (above
`refreshBleachLimitL`) makes the loop exit normally — no infinite loop — but
the segment receives `MAX_REFRESH_RETRIES + 1` refresh pulses, one more than
the spec's "exactly `MAX_REFRESH_RETRIES`", and it is re-sampled only
`MAX_REFRESH_RETRIES` times: once the retry count reaches the cap the segment
is no longer sampled at all (the `retries < MAX_REFRESH_RETRIES` guard at cpp
line 300 skips sampling), rather than "sampled but not corrected". -/
theorem C2_bleach_retry_cap (env : Env) (ex : Exec) (s : Nat)
    (hstop : ∀ k, env.stop k = false)
    (hs : s < ex.ecd.n)
    (hcur : ex.ecd.currentState s = SegState.bleached)
    (hflag : ex.ecd.refreshSegmentNeeded s = true)
    (hinj : PinsInjOn ex.ecd (List.range ex.ecd.n))
    (hsam : ∀ k, (env.samples (ex.ecd.pins s) k : ℚ) > ex.ecd.refreshBleachLimitL) :
    (bleachWhile env ex true 0 (ex.ecd.consts.maxRefreshRetries + 1)).2 = LoopExit.done ∧
    ((bleachWhile env ex true 0 (ex.ecd.consts.maxRefreshRetries + 1)).1.trace).count
        (Ev.digWrite (ex.ecd.pins s) false)
      = ex.trace.count (Ev.digWrite (ex.ecd.pins s) false)
        + (ex.ecd.consts.maxRefreshRetries + 1) ∧
    readsTo (ex.ecd.pins s)
        ((bleachWhile env ex true 0 (ex.ecd.consts.maxRefreshRetries + 1)).1.trace)
      = readsTo (ex.ecd.pins s) ex.trace + ex.ecd.consts.maxRefreshRetries := by
  obtain ⟨h1, h2, h3⟩ := bleachWhile_always_out env hstop
    (ex.ecd.consts.maxRefreshRetries + 1) 0 ex s (by omega) hs hcur hflag hinj hsam (by omega)
  exact ⟨h1, h2, by omega⟩

/-- C2 witness: the retry-cap theorem applied to the concrete one-segment
state `exC2` (flag raised, retry cap 1, every sample 500 against bleach
limit 100): the loop exits normally after 2 pulses and 1 re-sample. -/
theorem C2_bleach_retry_cap_witness :
    (bleachWhile envW exC2 true 0 (exC2.ecd.consts.maxRefreshRetries + 1)).2
        = LoopExit.done ∧
    ((bleachWhile envW exC2 true 0 (exC2.ecd.consts.maxRefreshRetries + 1)).1.trace).count
        (Ev.digWrite (exC2.ecd.pins 0) false)
      = exC2.trace.count (Ev.digWrite (exC2.ecd.pins 0) false)
        + (exC2.ecd.consts.maxRefreshRetries + 1) ∧
    readsTo (exC2.ecd.pins 0)
        ((bleachWhile envW exC2 true 0 (exC2.ecd.consts.maxRefreshRetries + 1)).1.trace)
      = readsTo (exC2.ecd.pins 0) exC2.trace + exC2.ecd.consts.maxRefreshRetries :=
  C2_bleach_retry_cap envW exC2 0 (fun _ => rfl) (by decide) rfl rfl
    (by
      intro i hi j hj h
      simp only [List.mem_range] at hi hj
      have hn : exC2.ecd.n = 1 := rfl
      omega)
    (fun k => by
      show ((500 : Int) : ℚ) > (100 : ℚ)
      norm_num)

/-- C2 counterexample: the concrete always-out-of-range run through
`refreshDisplay` itself (one bleached segment, retry cap 1, every sample 500,
bleach limits 100) completes without abort, drives the segment's bleach pulse
twice — not the "exactly `MAX_REFRESH_RETRIES` = 1" the spec states — and
reads the segment's pin only twice in total (once at classification, once in
the single under-cap retry round), so the segment is not "still sampled"
after the cap is reached. -/
theorem C2_counterexample :
    ecdC.consts.maxRefreshRetries = 1 ∧
    (refreshDisplay envW exC).2 = false ∧
    ((refreshDisplay envW exC).1.trace).count (Ev.digWrite 0 false) = 2 ∧
    readsTo 0 ((refreshDisplay envW exC).1.trace) = 2 := by
  refine ⟨rfl, ?_, ?_, ?_⟩ <;> decide

/-- C5 (corrected): a `refreshDisplay` call that completes without abort
disables the counter electrode (final event `analogWrite(ce, 0)`) only on the
path that enters the refresh loops, i.e. when classification flags at least
one segment.  On the early-return path (no segment classified) the method
returns with the counter electrode still driven at the mid-rail level set at
entry, `int(ADC_DAC_MAX_LSB * ((supplyVoltage/2) / supplyVoltage))`, not
zero. -/
theorem C5_refreshDisplay_ce_disable (env : Env) (ex : Exec)
    (hstop : ∀ k, env.stop k = false)
    (hinj : PinsInjOn ex.ecd (List.range ex.ecd.n)) :
    ((((List.range ex.ecd.n).any fun i => decide (classBleachCond env ex i))
        || ((List.range ex.ecd.n).any fun i => decide (classColorCond env ex i))) = true →
      (refreshDisplay env ex).2 = false ∧
      ∃ pre, (refreshDisplay env ex).1.trace = pre ++ [Ev.anWrite ex.ecd.cePin 0]) ∧
    ((((List.range ex.ecd.n).any fun i => decide (classBleachCond env ex i))
        || ((List.range ex.ecd.n).any fun i => decide (classColorCond env ex i))) = false →
      (refreshDisplay env ex).2 = false ∧
      lastAnWrite ex.ecd.cePin ((refreshDisplay env ex).1.trace)
        = some (cIntTrunc (ex.ecd.consts.maxLSB
            * ((ex.ecd.supplyVoltage / 2) / ex.ecd.supplyVoltage)))) :=
  ⟨fun h => refreshDisplay_full env ex hstop hinj h,
   fun h => refreshDisplay_early env ex hstop hinj h⟩

/-- C5 witness: on the concrete triggering run (`exC`, bleached segment out
of range) the claim theorem yields completion with the zero write as the
final counter-electrode event. -/
theorem C5_witness :
    (refreshDisplay envW exC).2 = false ∧
    ∃ pre, (refreshDisplay envW exC).1.trace = pre ++ [Ev.anWrite exC.ecd.cePin 0] :=
  (C5_refreshDisplay_ce_disable envW exC (fun _ => rfl)
    (by
      intro i hi j hj h
      simp only [List.mem_range] at hi hj
      have hn : exC.ecd.n = 1 := rfl
      omega)).1 (by decide)

/-- C5 counterexample: the concrete early-return run (`exD`, one colored
in-range segment) completes without abort, yet the last analog write to the
counter-electrode pin 99 is the mid-rail 511, not 0 — the electrode is left
driven. -/
theorem C5_counterexample :
    (refreshDisplay envW exD).2 = false ∧
    lastAnWrite 99 ((refreshDisplay envW exD).1.trace)
      = some (cIntTrunc (1023 * (((5 : ℚ) / 2) / 5))) ∧
    cIntTrunc (1023 * (((5 : ℚ) / 2) / 5)) ≠ 0 := by
  refine ⟨by decide, by rfl, ?_⟩
  norm_num [cIntTrunc]
  decide

lemma phases_noop (env : Env) (hstop : ∀ k, env.stop k = false) (ex : Exec)
    (h : ∀ i, i < ex.ecd.n →
      ex.ecd.nextState i = ex.ecd.currentState i ∨ ex.ecd.nextState i = SegState.undefined) :
    bTransIdxs ex.ecd (List.range ex.ecd.n) = [] ∧
    cTransIdxs ex.ecd (List.range ex.ecd.n) = [] ∧
    execBleachPhase env ex
      = ({ ex with
            checks := ex.checks + (List.range ex.ecd.n).length,
            trace := ex.trace ++ ceTrace ex.ecd ex.ecd.cfg.bleachingVoltage
              ++ floatTrace ex.ecd }, false) ∧
    execColorPhase env ex
      = ({ ex with
            checks := ex.checks + (List.range ex.ecd.n).length,
            trace := ex.trace ++ ceTrace ex.ecd (ex.ecd.supplyVoltage - ex.ecd.cfg.coloringVoltage)
              ++ floatTrace ex.ecd ++ [Ev.anWrite ex.ecd.cePin 0] }, false) := by
  have hgb : ∀ i ∈ List.range ex.ecd.n, ¬ bleachGuard ex.ecd i := by
    intro i hi hg
    rcases h i (List.mem_range.mp hi) with h1 | h1
    · exact hg.1 h1
    · have hg2 : ex.ecd.nextState i = SegState.bleached := hg.2
      rw [h1] at hg2
      exact SegState.noConfusion hg2
  have hgc : ∀ i ∈ List.range ex.ecd.n, ¬ colorGuard ex.ecd i := by
    intro i hi hg
    rcases h i (List.mem_range.mp hi) with h1 | h1
    · exact hg.1 h1
    · have hg2 : ex.ecd.nextState i = SegState.colored := hg.2
      rw [h1] at hg2
      exact SegState.noConfusion hg2
  have hB : bTransIdxs ex.ecd (List.range ex.ecd.n) = [] := by
    unfold bTransIdxs
    rw [List.filter_eq_nil]
    intro i hi
    simp only [decide_eq_true_eq]
    exact hgb i hi
  have hC : cTransIdxs ex.ecd (List.range ex.ecd.n) = [] := by
    unfold cTransIdxs
    rw [List.filter_eq_nil]
    intro i hi
    simp only [decide_eq_true_eq]
    exact hgc i hi
  have hpb : phaseApplyB ex.ecd (List.range ex.ecd.n) = ex.ecd.currentState := by
    funext i
    unfold phaseApplyB
    by_cases hi : i ∈ List.range ex.ecd.n
    · rw [if_neg (fun hcon => hgb i hi hcon.2)]
    · rw [if_neg (fun hcon => hi hcon.1)]
  have hpc : phaseApplyC ex.ecd (List.range ex.ecd.n) = ex.ecd.currentState := by
    funext i
    unfold phaseApplyC
    by_cases hi : i ∈ List.range ex.ecd.n
    · rw [if_neg (fun hcon => hgc i hi hcon.2)]
    · rw [if_neg (fun hcon => hi hcon.1)]
  refine ⟨hB, hC, ?_, ?_⟩
  · rw [execBleachPhase_noStop env hstop ex, hpb, hB]
    simp [bTransTrace, hB]
  · rw [execColorPhase_noStop env hstop ex, hpc, hC]
    simp [cTransTrace, hC]

/-- C7: after a completed `executeDisplay` with `nextState` unchanged, a
second call makes no segment transitions: both phase transition-index lists
are empty, the second bleach phase emits only the counter-electrode enable
and the segment float (no segment pin write, no bleaching-time hold delay)
and leaves the driver state untouched, and likewise the second color phase
(ending in the counter-electrode disable) emits no segment pin write and no
coloring-time hold delay. -/
theorem C7_executeDisplay_idempotent (env : Env) (ex : Exec)
    (hstop : ∀ k, env.stop k = false) :
    bTransIdxs (executeDisplay env ex).1.ecd (List.range (executeDisplay env ex).1.ecd.n) = [] ∧
    cTransIdxs (executeDisplay env ex).1.ecd (List.range (executeDisplay env ex).1.ecd.n) = [] ∧
    execBleachPhase env (executeDisplay env ex).1
      = ({ (executeDisplay env ex).1 with
            checks := (executeDisplay env ex).1.checks + (List.range (executeDisplay env ex).1.ecd.n).length,
            trace := (executeDisplay env ex).1.trace
              ++ ceTrace (executeDisplay env ex).1.ecd (executeDisplay env ex).1.ecd.cfg.bleachingVoltage
              ++ floatTrace (executeDisplay env ex).1.ecd }, false) ∧
    execColorPhase env (execBleachPhase env (executeDisplay env ex).1).1
      = ({ (execBleachPhase env (executeDisplay env ex).1).1 with
            checks := (execBleachPhase env (executeDisplay env ex).1).1.checks + (List.range (execBleachPhase env (executeDisplay env ex).1).1.ecd.n).length,
            trace := (execBleachPhase env (executeDisplay env ex).1).1.trace
              ++ ceTrace (execBleachPhase env (executeDisplay env ex).1).1.ecd ((execBleachPhase env (executeDisplay env ex).1).1.ecd.supplyVoltage - (execBleachPhase env (executeDisplay env ex).1).1.ecd.cfg.coloringVoltage)
              ++ floatTrace (execBleachPhase env (executeDisplay env ex).1).1.ecd ++ [Ev.anWrite (execBleachPhase env (executeDisplay env ex).1).1.ecd.cePin 0] }, false) := by
  have hfr := executeDisplay_eframe env ex
  obtain ⟨hdone, hreach⟩ := executeDisplay_noStop env hstop ex
  have h : ∀ i, i < (executeDisplay env ex).1.ecd.n →
      (executeDisplay env ex).1.ecd.nextState i = (executeDisplay env ex).1.ecd.currentState i
      ∨ (executeDisplay env ex).1.ecd.nextState i = SegState.undefined := by
    intro i hi
    rw [hfr.1] at hi
    rw [hfr.2.2.2.1]
    cases hns : ex.ecd.nextState i with
    | undefined => exact Or.inr rfl
    | bleached =>
        have hcur := (hreach i hi (Or.inl hns)).symm
        rw [hns] at hcur
        exact Or.inl hcur
    | colored =>
        have hcur := (hreach i hi (Or.inr hns)).symm
        rw [hns] at hcur
        exact Or.inl hcur
  obtain ⟨hB, hC, hbleach, _⟩ := phases_noop env hstop (executeDisplay env ex).1 h
  obtain ⟨_, _, _, hcolor⟩ := phases_noop env hstop
    (execBleachPhase env (executeDisplay env ex).1).1
    (by
      rw [hbleach]
      exact h)
  exact ⟨hB, hC, hbleach, hcolor⟩

/-- C7 witness: the second-call no-op theorem at the concrete completed run
over `exW`. -/
theorem C7_witness :
    bTransIdxs (executeDisplay envW exW).1.ecd (List.range (executeDisplay envW exW).1.ecd.n) = [] ∧
    cTransIdxs (executeDisplay envW exW).1.ecd (List.range (executeDisplay envW exW).1.ecd.n) = [] ∧
    execBleachPhase envW (executeDisplay envW exW).1
      = ({ (executeDisplay envW exW).1 with
            checks := (executeDisplay envW exW).1.checks + (List.range (executeDisplay envW exW).1.ecd.n).length,
            trace := (executeDisplay envW exW).1.trace
              ++ ceTrace (executeDisplay envW exW).1.ecd (executeDisplay envW exW).1.ecd.cfg.bleachingVoltage
              ++ floatTrace (executeDisplay envW exW).1.ecd }, false) ∧
    execColorPhase envW (execBleachPhase envW (executeDisplay envW exW).1).1
      = ({ (execBleachPhase envW (executeDisplay envW exW).1).1 with
            checks := (execBleachPhase envW (executeDisplay envW exW).1).1.checks + (List.range (execBleachPhase envW (executeDisplay envW exW).1).1.ecd.n).length,
            trace := (execBleachPhase envW (executeDisplay envW exW).1).1.trace
              ++ ceTrace (execBleachPhase envW (executeDisplay envW exW).1).1.ecd ((execBleachPhase envW (executeDisplay envW exW).1).1.ecd.supplyVoltage - (execBleachPhase envW (executeDisplay envW exW).1).1.ecd.cfg.coloringVoltage)
              ++ floatTrace (execBleachPhase envW (executeDisplay envW exW).1).1.ecd ++ [Ev.anWrite (execBleachPhase envW (executeDisplay envW exW).1).1.ecd.cePin 0] }, false) :=
  C7_executeDisplay_idempotent envW exW (fun _ => rfl)

lemma executeDisplay_flagMono (env : Env) (ex : Exec) :
    FlagMono ex.ecd (executeDisplay env ex).1.ecd := by
  obtain ⟨tB, _, hecdB, _⟩ := execBleachPhase_partial env ex
  obtain ⟨tC, _, hecdC, _⟩ := execColorPhase_partial env (execBleachPhase env ex).1
  rw [executeDisplay]
  by_cases hb : (execBleachPhase env ex).2 = true
  · rw [if_pos hb]
    intro i h
    rw [hecdB]
    exact h
  · rw [if_neg hb]
    by_cases hc : (execColorPhase env (execBleachPhase env ex).1).2 = true
    · rw [if_pos hc]
      intro i h
      rw [hecdC, hecdB]
      exact h
    · rw [if_neg hc]
      rw [checkStop_fst_ecd]
      intro i h
      apply (refreshDisplay_rframe env (execColorPhase env (execBleachPhase env ex).1).1).2.1 i
      rw [hecdC, hecdB]
      exact h

lemma refreshDisplay_flag_pulse (env : Env) (ex : Exec) (s : Nat)
    (hstop : ∀ k, env.stop k = false)
    (hinj : PinsInjOn ex.ecd (List.range ex.ecd.n))
    (hs : s < ex.ecd.n)
    (hcur : ex.ecd.currentState s = SegState.bleached)
    (hflag : ex.ecd.refreshSegmentNeeded s = true)
    (htrig : ((List.range ex.ecd.n).any fun i => decide (classBleachCond env ex i)) = true) :
    Ev.digWrite (ex.ecd.pins s) false ∈ (refreshDisplay env ex).1.trace := by
  simp only [refreshDisplay]
  split
  · next h =>
      rw [checkStop_snd, hstop] at h
      exact absurd h (by simp)
  · obtain ⟨hcl0, hclC, hclB, hclF⟩ := classifyLoop_noStop env hstop
      (List.range (disableAllSegments (enableCounterElectrode (checkStop env ex).1
      ((checkStop env ex).1.ecd.supplyVoltage / 2))).ecd.n)
      (disableAllSegments (enableCounterElectrode (checkStop env ex).1
      ((checkStop env ex).1.ecd.supplyVoltage / 2)))
      false false (List.nodup_range _) hinj
    have htrig2 : ((List.range (disableAllSegments (enableCounterElectrode (checkStop env ex).1
      ((checkStop env ex).1.ecd.supplyVoltage / 2))).ecd.n).any
          fun i => decide (classBleachCond env (disableAllSegments (enableCounterElectrode (checkStop env ex).1
      ((checkStop env ex).1.ecd.supplyVoltage / 2))) i)) = true := htrig
    have hbn : (classifyLoop env (disableAllSegments (enableCounterElectrode (checkStop env ex).1
      ((checkStop env ex).1.ecd.supplyVoltage / 2)))
      (List.range (disableAllSegments (enableCounterElectrode (checkStop env ex).1
      ((checkStop env ex).1.ecd.supplyVoltage / 2))).ecd.n) false false).2.2.2 = true := by
      rw [hclB, Bool.false_or]
      exact htrig2
    have hBC : ((classifyLoop env (disableAllSegments (enableCounterElectrode (checkStop env ex).1
      ((checkStop env ex).1.ecd.supplyVoltage / 2)))
      (List.range (disableAllSegments (enableCounterElectrode (checkStop env ex).1
      ((checkStop env ex).1.ecd.supplyVoltage / 2))).ecd.n) false false).2.2.2
        || (classifyLoop env (disableAllSegments (enableCounterElectrode (checkStop env ex).1
      ((checkStop env ex).1.ecd.supplyVoltage / 2)))
      (List.range (disableAllSegments (enableCounterElectrode (checkStop env ex).1
      ((checkStop env ex).1.ecd.supplyVoltage / 2))).ecd.n) false false).2.2.1) = true := by
      rw [hbn]
      simp
    have hBCn : ¬ (((classifyLoop env (disableAllSegments (enableCounterElectrode (checkStop env ex).1
      ((checkStop env ex).1.ecd.supplyVoltage / 2)))
      (List.range (disableAllSegments (enableCounterElectrode (checkStop env ex).1
      ((checkStop env ex).1.ecd.supplyVoltage / 2))).ecd.n) false false).2.2.2
        || (classifyLoop env (disableAllSegments (enableCounterElectrode (checkStop env ex).1
      ((checkStop env ex).1.ecd.supplyVoltage / 2)))
      (List.range (disableAllSegments (enableCounterElectrode (checkStop env ex).1
      ((checkStop env ex).1.ecd.supplyVoltage / 2))).ecd.n) false false).2.2.1) = false) := by
      rw [hBC]
      simp
    have hpins : (enableCounterElectrode (checkStop env (classifyLoop env (disableAllSegments (enableCounterElectrode (checkStop env ex).1
      ((checkStop env ex).1.ecd.supplyVoltage / 2)))
      (List.range (disableAllSegments (enableCounterElectrode (checkStop env ex).1
      ((checkStop env ex).1.ecd.supplyVoltage / 2))).ecd.n) false false).1).1 (checkStop env (classifyLoop env (disableAllSegments (enableCounterElectrode (checkStop env ex).1
      ((checkStop env ex).1.ecd.supplyVoltage / 2)))
      (List.range (disableAllSegments (enableCounterElectrode (checkStop env ex).1
      ((checkStop env ex).1.ecd.supplyVoltage / 2))).ecd.n) false false).1).1.ecd.cfg.refreshBleachingVoltage).ecd.pins = ex.ecd.pins :=
      flagsOnly_pins (classifyLoop_rframe env (List.range (disableAllSegments (enableCounterElectrode (checkStop env ex).1
      ((checkStop env ex).1.ecd.supplyVoltage / 2))).ecd.n)
        (disableAllSegments (enableCounterElectrode (checkStop env ex).1
      ((checkStop env ex).1.ecd.supplyVoltage / 2))) false false).1
    have hn2 : (enableCounterElectrode (checkStop env (classifyLoop env (disableAllSegments (enableCounterElectrode (checkStop env ex).1
      ((checkStop env ex).1.ecd.supplyVoltage / 2)))
      (List.range (disableAllSegments (enableCounterElectrode (checkStop env ex).1
      ((checkStop env ex).1.ecd.supplyVoltage / 2))).ecd.n) false false).1).1 (checkStop env (classifyLoop env (disableAllSegments (enableCounterElectrode (checkStop env ex).1
      ((checkStop env ex).1.ecd.supplyVoltage / 2)))
      (List.range (disableAllSegments (enableCounterElectrode (checkStop env ex).1
      ((checkStop env ex).1.ecd.supplyVoltage / 2))).ecd.n) false false).1).1.ecd.cfg.refreshBleachingVoltage).ecd.n = ex.ecd.n :=
      flagsOnly_n (classifyLoop_rframe env (List.range (disableAllSegments (enableCounterElectrode (checkStop env ex).1
      ((checkStop env ex).1.ecd.supplyVoltage / 2))).ecd.n)
        (disableAllSegments (enableCounterElectrode (checkStop env ex).1
      ((checkStop env ex).1.ecd.supplyVoltage / 2))) false false).1
    have hcs : (enableCounterElectrode (checkStop env (classifyLoop env (disableAllSegments (enableCounterElectrode (checkStop env ex).1
      ((checkStop env ex).1.ecd.supplyVoltage / 2)))
      (List.range (disableAllSegments (enableCounterElectrode (checkStop env ex).1
      ((checkStop env ex).1.ecd.supplyVoltage / 2))).ecd.n) false false).1).1 (checkStop env (classifyLoop env (disableAllSegments (enableCounterElectrode (checkStop env ex).1
      ((checkStop env ex).1.ecd.supplyVoltage / 2)))
      (List.range (disableAllSegments (enableCounterElectrode (checkStop env ex).1
      ((checkStop env ex).1.ecd.supplyVoltage / 2))).ecd.n) false false).1).1.ecd.cfg.refreshBleachingVoltage).ecd.currentState = ex.ecd.currentState :=
      flagsOnly_currentState (classifyLoop_rframe env (List.range (disableAllSegments (enableCounterElectrode (checkStop env ex).1
      ((checkStop env ex).1.ecd.supplyVoltage / 2))).ecd.n)
        (disableAllSegments (enableCounterElectrode (checkStop env ex).1
      ((checkStop env ex).1.ecd.supplyVoltage / 2))) false false).1
    have hcur2 : (enableCounterElectrode (checkStop env (classifyLoop env (disableAllSegments (enableCounterElectrode (checkStop env ex).1
      ((checkStop env ex).1.ecd.supplyVoltage / 2)))
      (List.range (disableAllSegments (enableCounterElectrode (checkStop env ex).1
      ((checkStop env ex).1.ecd.supplyVoltage / 2))).ecd.n) false false).1).1 (checkStop env (classifyLoop env (disableAllSegments (enableCounterElectrode (checkStop env ex).1
      ((checkStop env ex).1.ecd.supplyVoltage / 2)))
      (List.range (disableAllSegments (enableCounterElectrode (checkStop env ex).1
      ((checkStop env ex).1.ecd.supplyVoltage / 2))).ecd.n) false false).1).1.ecd.cfg.refreshBleachingVoltage).ecd.currentState s = SegState.bleached := by
      rw [hcs]
      exact hcur
    have hflag2 : (enableCounterElectrode (checkStop env (classifyLoop env (disableAllSegments (enableCounterElectrode (checkStop env ex).1
      ((checkStop env ex).1.ecd.supplyVoltage / 2)))
      (List.range (disableAllSegments (enableCounterElectrode (checkStop env ex).1
      ((checkStop env ex).1.ecd.supplyVoltage / 2))).ecd.n) false false).1).1 (checkStop env (classifyLoop env (disableAllSegments (enableCounterElectrode (checkStop env ex).1
      ((checkStop env ex).1.ecd.supplyVoltage / 2)))
      (List.range (disableAllSegments (enableCounterElectrode (checkStop env ex).1
      ((checkStop env ex).1.ecd.supplyVoltage / 2))).ecd.n) false false).1).1.ecd.cfg.refreshBleachingVoltage).ecd.refreshSegmentNeeded s = true := by
      have hfs : (enableCounterElectrode (checkStop env (classifyLoop env (disableAllSegments (enableCounterElectrode (checkStop env ex).1
      ((checkStop env ex).1.ecd.supplyVoltage / 2)))
      (List.range (disableAllSegments (enableCounterElectrode (checkStop env ex).1
      ((checkStop env ex).1.ecd.supplyVoltage / 2))).ecd.n) false false).1).1 (checkStop env (classifyLoop env (disableAllSegments (enableCounterElectrode (checkStop env ex).1
      ((checkStop env ex).1.ecd.supplyVoltage / 2)))
      (List.range (disableAllSegments (enableCounterElectrode (checkStop env ex).1
      ((checkStop env ex).1.ecd.supplyVoltage / 2))).ecd.n) false false).1).1.ecd.cfg.refreshBleachingVoltage).ecd.refreshSegmentNeeded s
          = (ex.ecd.refreshSegmentNeeded s
             || (decide (s ∈ List.range (disableAllSegments (enableCounterElectrode (checkStop env ex).1
      ((checkStop env ex).1.ecd.supplyVoltage / 2))).ecd.n)
                 && (decide (classColorCond env (disableAllSegments (enableCounterElectrode (checkStop env ex).1
      ((checkStop env ex).1.ecd.supplyVoltage / 2))) s)
                     || decide (classBleachCond env (disableAllSegments (enableCounterElectrode (checkStop env ex).1
      ((checkStop env ex).1.ecd.supplyVoltage / 2))) s)))) := hclF s
      rw [hfs, hflag]
      simp
    have hsmem : s ∈ List.range (enableCounterElectrode (checkStop env (classifyLoop env (disableAllSegments (enableCounterElectrode (checkStop env ex).1
      ((checkStop env ex).1.ecd.supplyVoltage / 2)))
      (List.range (disableAllSegments (enableCounterElectrode (checkStop env ex).1
      ((checkStop env ex).1.ecd.supplyVoltage / 2))).ecd.n) false false).1).1 (checkStop env (classifyLoop env (disableAllSegments (enableCounterElectrode (checkStop env ex).1
      ((checkStop env ex).1.ecd.supplyVoltage / 2)))
      (List.range (disableAllSegments (enableCounterElectrode (checkStop env ex).1
      ((checkStop env ex).1.ecd.supplyVoltage / 2))).ecd.n) false false).1).1.ecd.cfg.refreshBleachingVoltage).ecd.n := by
      rw [hn2]
      exact List.mem_range.mpr hs
    split
    · next h =>
        rw [hcl0] at h
        exact absurd h (by simp)
    · split
      · next h =>
          rw [checkStop_snd, hstop] at h
          exact absurd h (by simp)
      · split
        · next h => exact absurd h (bleachWhile_not_stopped env hstop _ _ _ _)
        · split
          · next h => exact absurd h (colorWhile_not_stopped env hstop _ _ _ _)
          · rw [disableCounterElectrode_trace]
            refine List.mem_append.mpr (Or.inl ?_)
            rw [hbn]
            obtain ⟨-, -, trC, htrC⟩ := colorWhile_rframe env
              ((enableCounterElectrode (bleachWhile env (enableCounterElectrode (checkStop env (classifyLoop env (disableAllSegments (enableCounterElectrode (checkStop env ex).1
      ((checkStop env ex).1.ecd.supplyVoltage / 2)))
      (List.range (disableAllSegments (enableCounterElectrode (checkStop env ex).1
      ((checkStop env ex).1.ecd.supplyVoltage / 2))).ecd.n) false false).1).1 (checkStop env (classifyLoop env (disableAllSegments (enableCounterElectrode (checkStop env ex).1
      ((checkStop env ex).1.ecd.supplyVoltage / 2)))
      (List.range (disableAllSegments (enableCounterElectrode (checkStop env ex).1
      ((checkStop env ex).1.ecd.supplyVoltage / 2))).ecd.n) false false).1).1.ecd.cfg.refreshBleachingVoltage) true 0 ((enableCounterElectrode (checkStop env (classifyLoop env (disableAllSegments (enableCounterElectrode (checkStop env ex).1
      ((checkStop env ex).1.ecd.supplyVoltage / 2)))
      (List.range (disableAllSegments (enableCounterElectrode (checkStop env ex).1
      ((checkStop env ex).1.ecd.supplyVoltage / 2))).ecd.n) false false).1).1 (checkStop env (classifyLoop env (disableAllSegments (enableCounterElectrode (checkStop env ex).1
      ((checkStop env ex).1.ecd.supplyVoltage / 2)))
      (List.range (disableAllSegments (enableCounterElectrode (checkStop env ex).1
      ((checkStop env ex).1.ecd.supplyVoltage / 2))).ecd.n) false false).1).1.ecd.cfg.refreshBleachingVoltage).ecd.consts.maxRefreshRetries + 1)).1
      ((bleachWhile env (enableCounterElectrode (checkStop env (classifyLoop env (disableAllSegments (enableCounterElectrode (checkStop env ex).1
      ((checkStop env ex).1.ecd.supplyVoltage / 2)))
      (List.range (disableAllSegments (enableCounterElectrode (checkStop env ex).1
      ((checkStop env ex).1.ecd.supplyVoltage / 2))).ecd.n) false false).1).1 (checkStop env (classifyLoop env (disableAllSegments (enableCounterElectrode (checkStop env ex).1
      ((checkStop env ex).1.ecd.supplyVoltage / 2)))
      (List.range (disableAllSegments (enableCounterElectrode (checkStop env ex).1
      ((checkStop env ex).1.ecd.supplyVoltage / 2))).ecd.n) false false).1).1.ecd.cfg.refreshBleachingVoltage) true 0 ((enableCounterElectrode (checkStop env (classifyLoop env (disableAllSegments (enableCounterElectrode (checkStop env ex).1
      ((checkStop env ex).1.ecd.supplyVoltage / 2)))
      (List.range (disableAllSegments (enableCounterElectrode (checkStop env ex).1
      ((checkStop env ex).1.ecd.supplyVoltage / 2))).ecd.n) false false).1).1 (checkStop env (classifyLoop env (disableAllSegments (enableCounterElectrode (checkStop env ex).1
      ((checkStop env ex).1.ecd.supplyVoltage / 2)))
      (List.range (disableAllSegments (enableCounterElectrode (checkStop env ex).1
      ((checkStop env ex).1.ecd.supplyVoltage / 2))).ecd.n) false false).1).1.ecd.cfg.refreshBleachingVoltage).ecd.consts.maxRefreshRetries + 1)).1.ecd.supplyVoltage - (bleachWhile env (enableCounterElectrode (checkStop env (classifyLoop env (disableAllSegments (enableCounterElectrode (checkStop env ex).1
      ((checkStop env ex).1.ecd.supplyVoltage / 2)))
      (List.range (disableAllSegments (enableCounterElectrode (checkStop env ex).1
      ((checkStop env ex).1.ecd.supplyVoltage / 2))).ecd.n) false false).1).1 (checkStop env (classifyLoop env (disableAllSegments (enableCounterElectrode (checkStop env ex).1
      ((checkStop env ex).1.ecd.supplyVoltage / 2)))
      (List.range (disableAllSegments (enableCounterElectrode (checkStop env ex).1
      ((checkStop env ex).1.ecd.supplyVoltage / 2))).ecd.n) false false).1).1.ecd.cfg.refreshBleachingVoltage) true 0 ((enableCounterElectrode (checkStop env (classifyLoop env (disableAllSegments (enableCounterElectrode (checkStop env ex).1
      ((checkStop env ex).1.ecd.supplyVoltage / 2)))
      (List.range (disableAllSegments (enableCounterElectrode (checkStop env ex).1
      ((checkStop env ex).1.ecd.supplyVoltage / 2))).ecd.n) false false).1).1 (checkStop env (classifyLoop env (disableAllSegments (enableCounterElectrode (checkStop env ex).1
      ((checkStop env ex).1.ecd.supplyVoltage / 2)))
      (List.range (disableAllSegments (enableCounterElectrode (checkStop env ex).1
      ((checkStop env ex).1.ecd.supplyVoltage / 2))).ecd.n) false false).1).1.ecd.cfg.refreshBleachingVoltage).ecd.consts.maxRefreshRetries + 1)).1.ecd.cfg.refreshColoringVoltage)).ecd.consts.maxRefreshRetries + 1)
              (enableCounterElectrode (bleachWhile env (enableCounterElectrode (checkStop env (classifyLoop env (disableAllSegments (enableCounterElectrode (checkStop env ex).1
      ((checkStop env ex).1.ecd.supplyVoltage / 2)))
      (List.range (disableAllSegments (enableCounterElectrode (checkStop env ex).1
      ((checkStop env ex).1.ecd.supplyVoltage / 2))).ecd.n) false false).1).1 (checkStop env (classifyLoop env (disableAllSegments (enableCounterElectrode (checkStop env ex).1
      ((checkStop env ex).1.ecd.supplyVoltage / 2)))
      (List.range (disableAllSegments (enableCounterElectrode (checkStop env ex).1
      ((checkStop env ex).1.ecd.supplyVoltage / 2))).ecd.n) false false).1).1.ecd.cfg.refreshBleachingVoltage) true 0 ((enableCounterElectrode (checkStop env (classifyLoop env (disableAllSegments (enableCounterElectrode (checkStop env ex).1
      ((checkStop env ex).1.ecd.supplyVoltage / 2)))
      (List.range (disableAllSegments (enableCounterElectrode (checkStop env ex).1
      ((checkStop env ex).1.ecd.supplyVoltage / 2))).ecd.n) false false).1).1 (checkStop env (classifyLoop env (disableAllSegments (enableCounterElectrode (checkStop env ex).1
      ((checkStop env ex).1.ecd.supplyVoltage / 2)))
      (List.range (disableAllSegments (enableCounterElectrode (checkStop env ex).1
      ((checkStop env ex).1.ecd.supplyVoltage / 2))).ecd.n) false false).1).1.ecd.cfg.refreshBleachingVoltage).ecd.consts.maxRefreshRetries + 1)).1
      ((bleachWhile env (enableCounterElectrode (checkStop env (classifyLoop env (disableAllSegments (enableCounterElectrode (checkStop env ex).1
      ((checkStop env ex).1.ecd.supplyVoltage / 2)))
      (List.range (disableAllSegments (enableCounterElectrode (checkStop env ex).1
      ((checkStop env ex).1.ecd.supplyVoltage / 2))).ecd.n) false false).1).1 (checkStop env (classifyLoop env (disableAllSegments (enableCounterElectrode (checkStop env ex).1
      ((checkStop env ex).1.ecd.supplyVoltage / 2)))
      (List.range (disableAllSegments (enableCounterElectrode (checkStop env ex).1
      ((checkStop env ex).1.ecd.supplyVoltage / 2))).ecd.n) false false).1).1.ecd.cfg.refreshBleachingVoltage) true 0 ((enableCounterElectrode (checkStop env (classifyLoop env (disableAllSegments (enableCounterElectrode (checkStop env ex).1
      ((checkStop env ex).1.ecd.supplyVoltage / 2)))
      (List.range (disableAllSegments (enableCounterElectrode (checkStop env ex).1
      ((checkStop env ex).1.ecd.supplyVoltage / 2))).ecd.n) false false).1).1 (checkStop env (classifyLoop env (disableAllSegments (enableCounterElectrode (checkStop env ex).1
      ((checkStop env ex).1.ecd.supplyVoltage / 2)))
      (List.range (disableAllSegments (enableCounterElectrode (checkStop env ex).1
      ((checkStop env ex).1.ecd.supplyVoltage / 2))).ecd.n) false false).1).1.ecd.cfg.refreshBleachingVoltage).ecd.consts.maxRefreshRetries + 1)).1.ecd.supplyVoltage - (bleachWhile env (enableCounterElectrode (checkStop env (classifyLoop env (disableAllSegments (enableCounterElectrode (checkStop env ex).1
      ((checkStop env ex).1.ecd.supplyVoltage / 2)))
      (List.range (disableAllSegments (enableCounterElectrode (checkStop env ex).1
      ((checkStop env ex).1.ecd.supplyVoltage / 2))).ecd.n) false false).1).1 (checkStop env (classifyLoop env (disableAllSegments (enableCounterElectrode (checkStop env ex).1
      ((checkStop env ex).1.ecd.supplyVoltage / 2)))
      (List.range (disableAllSegments (enableCounterElectrode (checkStop env ex).1
      ((checkStop env ex).1.ecd.supplyVoltage / 2))).ecd.n) false false).1).1.ecd.cfg.refreshBleachingVoltage) true 0 ((enableCounterElectrode (checkStop env (classifyLoop env (disableAllSegments (enableCounterElectrode (checkStop env ex).1
      ((checkStop env ex).1.ecd.supplyVoltage / 2)))
      (List.range (disableAllSegments (enableCounterElectrode (checkStop env ex).1
      ((checkStop env ex).1.ecd.supplyVoltage / 2))).ecd.n) false false).1).1 (checkStop env (classifyLoop env (disableAllSegments (enableCounterElectrode (checkStop env ex).1
      ((checkStop env ex).1.ecd.supplyVoltage / 2)))
      (List.range (disableAllSegments (enableCounterElectrode (checkStop env ex).1
      ((checkStop env ex).1.ecd.supplyVoltage / 2))).ecd.n) false false).1).1.ecd.cfg.refreshBleachingVoltage).ecd.consts.maxRefreshRetries + 1)).1.ecd.cfg.refreshColoringVoltage))
              (classifyLoop env (disableAllSegments (enableCounterElectrode (checkStop env ex).1
      ((checkStop env ex).1.ecd.supplyVoltage / 2)))
      (List.range (disableAllSegments (enableCounterElectrode (checkStop env ex).1
      ((checkStop env ex).1.ecd.supplyVoltage / 2))).ecd.n) false false).2.2.1 0
            rw [htrC]
            refine List.mem_append.mpr (Or.inl ?_)
            rw [enableCounterElectrode_trace]
            refine List.mem_append.mpr (Or.inl ?_)
            rw [bleachWhile_succ_noStop env hstop]
            obtain ⟨-, -, trW, htrW⟩ := bleachWhile_rframe env
              (enableCounterElectrode (checkStop env (classifyLoop env (disableAllSegments (enableCounterElectrode (checkStop env ex).1
      ((checkStop env ex).1.ecd.supplyVoltage / 2)))
      (List.range (disableAllSegments (enableCounterElectrode (checkStop env ex).1
      ((checkStop env ex).1.ecd.supplyVoltage / 2))).ecd.n) false false).1).1 (checkStop env (classifyLoop env (disableAllSegments (enableCounterElectrode (checkStop env ex).1
      ((checkStop env ex).1.ecd.supplyVoltage / 2)))
      (List.range (disableAllSegments (enableCounterElectrode (checkStop env ex).1
      ((checkStop env ex).1.ecd.supplyVoltage / 2))).ecd.n) false false).1).1.ecd.cfg.refreshBleachingVoltage).ecd.consts.maxRefreshRetries
              (delayE (bleachRecheckLoop env (bIterMid env (enableCounterElectrode (checkStop env (classifyLoop env (disableAllSegments (enableCounterElectrode (checkStop env ex).1
      ((checkStop env ex).1.ecd.supplyVoltage / 2)))
      (List.range (disableAllSegments (enableCounterElectrode (checkStop env ex).1
      ((checkStop env ex).1.ecd.supplyVoltage / 2))).ecd.n) false false).1).1 (checkStop env (classifyLoop env (disableAllSegments (enableCounterElectrode (checkStop env ex).1
      ((checkStop env ex).1.ecd.supplyVoltage / 2)))
      (List.range (disableAllSegments (enableCounterElectrode (checkStop env ex).1
      ((checkStop env ex).1.ecd.supplyVoltage / 2))).ecd.n) false false).1).1.ecd.cfg.refreshBleachingVoltage)) (List.range (bIterMid env (enableCounterElectrode (checkStop env (classifyLoop env (disableAllSegments (enableCounterElectrode (checkStop env ex).1
      ((checkStop env ex).1.ecd.supplyVoltage / 2)))
      (List.range (disableAllSegments (enableCounterElectrode (checkStop env ex).1
      ((checkStop env ex).1.ecd.supplyVoltage / 2))).ecd.n) false false).1).1 (checkStop env (classifyLoop env (disableAllSegments (enableCounterElectrode (checkStop env ex).1
      ((checkStop env ex).1.ecd.supplyVoltage / 2)))
      (List.range (disableAllSegments (enableCounterElectrode (checkStop env ex).1
      ((checkStop env ex).1.ecd.supplyVoltage / 2))).ecd.n) false false).1).1.ecd.cfg.refreshBleachingVoltage)).ecd.n) 0 false).1 500)
              (bleachRecheckLoop env (bIterMid env (enableCounterElectrode (checkStop env (classifyLoop env (disableAllSegments (enableCounterElectrode (checkStop env ex).1
      ((checkStop env ex).1.ecd.supplyVoltage / 2)))
      (List.range (disableAllSegments (enableCounterElectrode (checkStop env ex).1
      ((checkStop env ex).1.ecd.supplyVoltage / 2))).ecd.n) false false).1).1 (checkStop env (classifyLoop env (disableAllSegments (enableCounterElectrode (checkStop env ex).1
      ((checkStop env ex).1.ecd.supplyVoltage / 2)))
      (List.range (disableAllSegments (enableCounterElectrode (checkStop env ex).1
      ((checkStop env ex).1.ecd.supplyVoltage / 2))).ecd.n) false false).1).1.ecd.cfg.refreshBleachingVoltage)) (List.range (bIterMid env (enableCounterElectrode (checkStop env (classifyLoop env (disableAllSegments (enableCounterElectrode (checkStop env ex).1
      ((checkStop env ex).1.ecd.supplyVoltage / 2)))
      (List.range (disableAllSegments (enableCounterElectrode (checkStop env ex).1
      ((checkStop env ex).1.ecd.supplyVoltage / 2))).ecd.n) false false).1).1 (checkStop env (classifyLoop env (disableAllSegments (enableCounterElectrode (checkStop env ex).1
      ((checkStop env ex).1.ecd.supplyVoltage / 2)))
      (List.range (disableAllSegments (enableCounterElectrode (checkStop env ex).1
      ((checkStop env ex).1.ecd.supplyVoltage / 2))).ecd.n) false false).1).1.ecd.cfg.refreshBleachingVoltage)).ecd.n) 0 false).2.2 (0 + 1)
            rw [htrW]
            refine List.mem_append.mpr (Or.inl ?_)
            rw [delayE_trace]
            refine List.mem_append.mpr (Or.inl ?_)
            obtain ⟨-, -, trR, htrR⟩ := bleachRecheckLoop_rframe env
              (List.range (bIterMid env (enableCounterElectrode (checkStop env (classifyLoop env (disableAllSegments (enableCounterElectrode (checkStop env ex).1
      ((checkStop env ex).1.ecd.supplyVoltage / 2)))
      (List.range (disableAllSegments (enableCounterElectrode (checkStop env ex).1
      ((checkStop env ex).1.ecd.supplyVoltage / 2))).ecd.n) false false).1).1 (checkStop env (classifyLoop env (disableAllSegments (enableCounterElectrode (checkStop env ex).1
      ((checkStop env ex).1.ecd.supplyVoltage / 2)))
      (List.range (disableAllSegments (enableCounterElectrode (checkStop env ex).1
      ((checkStop env ex).1.ecd.supplyVoltage / 2))).ecd.n) false false).1).1.ecd.cfg.refreshBleachingVoltage)).ecd.n) (bIterMid env (enableCounterElectrode (checkStop env (classifyLoop env (disableAllSegments (enableCounterElectrode (checkStop env ex).1
      ((checkStop env ex).1.ecd.supplyVoltage / 2)))
      (List.range (disableAllSegments (enableCounterElectrode (checkStop env ex).1
      ((checkStop env ex).1.ecd.supplyVoltage / 2))).ecd.n) false false).1).1 (checkStop env (classifyLoop env (disableAllSegments (enableCounterElectrode (checkStop env ex).1
      ((checkStop env ex).1.ecd.supplyVoltage / 2)))
      (List.range (disableAllSegments (enableCounterElectrode (checkStop env ex).1
      ((checkStop env ex).1.ecd.supplyVoltage / 2))).ecd.n) false false).1).1.ecd.cfg.refreshBleachingVoltage)) 0 false
            rw [htrR]
            refine List.mem_append.mpr (Or.inl ?_)
            rw [bIterMid_eq env hstop]
            refine List.mem_append.mpr (Or.inl ?_)
            refine List.mem_append.mpr (Or.inl ?_)
            refine List.mem_append.mpr (Or.inr ?_)
            rw [← hpins]
            exact mem_bPulseTrace hsmem hcur2 hflag2

/-- C9: the refresh-needed flags are write-true-only.  The constructor leaves
`m_refreshSegmentNeeded` exactly as found in pre-construction memory;
`setSegmentState` and `updateSupplyVoltage` never touch it; `refreshDisplay`
and `executeDisplay` only ever raise flags (a set flag stays set); and in a
later no-abort `refreshDisplay` call in which some segment triggers the
bleach classification, a still-flagged bleached segment is driven with a
bleach refresh pulse regardless of its own sample. -/
theorem C9_flags_write_true_only (nSeg : Nat) (segPins : Nat → Nat) (ce : Nat)
    (rest : ECD) (e : ECD) (i0 : Nat) (b : Bool) (v : ℚ)
    (env2 : Env) (ex2 : Exec)
    (env : Env) (ex : Exec) (s : Nat)
    (hstop : ∀ k, env.stop k = false)
    (hinj : PinsInjOn ex.ecd (List.range ex.ecd.n))
    (hs : s < ex.ecd.n)
    (hcur : ex.ecd.currentState s = SegState.bleached)
    (hflag : ex.ecd.refreshSegmentNeeded s = true)
    (htrig : ((List.range ex.ecd.n).any fun i => decide (classBleachCond env ex i)) = true) :
    (constructECD nSeg segPins ce rest).refreshSegmentNeeded = rest.refreshSegmentNeeded ∧
    (setSegmentState e i0 b).refreshSegmentNeeded = e.refreshSegmentNeeded ∧
    (updateSupplyVoltage e v).refreshSegmentNeeded = e.refreshSegmentNeeded ∧
    FlagMono ex2.ecd (refreshDisplay env2 ex2).1.ecd ∧
    FlagMono ex2.ecd (executeDisplay env2 ex2).1.ecd ∧
    Ev.digWrite (ex.ecd.pins s) false ∈ (refreshDisplay env ex).1.trace :=
  ⟨rfl, rfl, rfl,
   (refreshDisplay_rframe env2 ex2).2.1,
   executeDisplay_flagMono env2 ex2,
   refreshDisplay_flag_pulse env ex s hstop hinj hs hcur hflag htrig⟩

/-- C9 witness: the concrete run over `exC` (bleached, flagged via the
triggering classification sample 500 > 100): the segment's bleach pulse
appears in the refresh trace, and the frame conjuncts at the concrete
states. -/
theorem C9_witness :
    (constructECD 1 (fun i => i) 99 ecdW).refreshSegmentNeeded = ecdW.refreshSegmentNeeded ∧
    (setSegmentState ecdW 0 true).refreshSegmentNeeded = ecdW.refreshSegmentNeeded ∧
    (updateSupplyVoltage ecdW 5).refreshSegmentNeeded = ecdW.refreshSegmentNeeded ∧
    FlagMono exW.ecd (refreshDisplay envW exW).1.ecd ∧
    FlagMono exW.ecd (executeDisplay envW exW).1.ecd ∧
    Ev.digWrite (exC2.ecd.pins 0) false ∈ (refreshDisplay envW exC2).1.trace :=
  C9_flags_write_true_only 1 (fun i => i) 99 ecdW ecdW 0 true 5 envW exW envW exC2 0
    (fun _ => rfl)
    (by
      intro i hi j hj h
      simp only [List.mem_range] at hi hj
      have hn : exC2.ecd.n = 1 := rfl
      omega)
    (by decide) rfl rfl (by decide)

/-- C10: the retry re-sampling pass ranges over every segment whose current
state matches the phase, not only previously flagged ones.  A bleached
segment that entered the bleach retry loop unflagged (it passed the initial
classification) is re-sampled against `refreshBleachLimitL`; if that sample
is out of range while `retries < MAX_REFRESH_RETRIES`, the segment is newly
flagged — the flag is set in the loop's final state — and it receives a
bleach refresh pulse in the subsequent iteration. -/
theorem C10_recheck_all_matching (env : Env) (ex : Exec) (s : Nat)
    (hstop : ∀ k, env.stop k = false)
    (hinj : PinsInjOn ex.ecd (List.range ex.ecd.n))
    (hs : s < ex.ecd.n)
    (hcur : ex.ecd.currentState s = SegState.bleached)
    (hflag0 : ex.ecd.refreshSegmentNeeded s = false)
    (hM : 0 < ex.ecd.consts.maxRefreshRetries)
    (hsam1 : (env.samples (ex.ecd.pins s) (ex.reads (ex.ecd.pins s)) : ℚ)
      > ex.ecd.refreshBleachLimitL) :
    (bleachWhile env ex true 0
        (ex.ecd.consts.maxRefreshRetries + 1)).1.ecd.refreshSegmentNeeded s = true ∧
    Ev.digWrite (ex.ecd.pins s) false
      ∈ (bleachWhile env ex true 0 (ex.ecd.consts.maxRefreshRetries + 1)).1.trace := by
  obtain ⟨m, hm⟩ : ∃ m, ex.ecd.consts.maxRefreshRetries = m + 1 :=
    ⟨ex.ecd.consts.maxRefreshRetries - 1, by omega⟩
  have hmecd : (bIterMid env ex).ecd = ex.ecd := by
    rw [bIterMid_eq env hstop ex]
  have hmreads : (bIterMid env ex).reads = ex.reads := by
    rw [bIterMid_eq env hstop ex]
  have hnd : (List.range ex.ecd.n).Nodup := List.nodup_range _
  have hmem : s ∈ List.range ex.ecd.n := List.mem_range.mpr hs
  have hpinjm : PinsInjOn (bIterMid env ex).ecd (List.range ex.ecd.n) := by
    rw [hmecd]
    exact fun i hi j hj h => hinj i hi j hj h
  obtain ⟨hrl1, hrl2, hrl3⟩ := bleachRecheckLoop_noStop env hstop
    (List.range ex.ecd.n) (bIterMid env ex) 0 false hnd hpinjm
  simp only [hmecd] at hrl3
  have hconds : recheckBleachCond env (bIterMid env ex) 0 s := by
    unfold recheckBleachCond
    refine ⟨?_, ?_, ?_⟩
    · rw [hmecd]; exact hcur
    · rw [hmecd]; exact hM
    · rw [hmecd, hmreads]; exact hsam1
  have hneed : (bleachRecheckLoop env (bIterMid env ex) (List.range ex.ecd.n) 0 false).2.2 = true := by
    rw [hrl2]
    simp only [Bool.false_or]
    rw [List.any_eq_true]
    exact ⟨s, hmem, by rw [decide_eq_true_eq]; exact hconds⟩
  have hflagRL : (bleachRecheckLoop env (bIterMid env ex) (List.range ex.ecd.n) 0 false).1.ecd.refreshSegmentNeeded s = true := by
    rw [hrl3 s]
    simp [hmem, hconds]
  rw [bleachWhile_succ_noStop env hstop]
  simp only [hmecd]
  rw [hneed, hm]
  rw [bleachWhile_succ_noStop env hstop]
  have hm2 : (bIterMid env (delayE (bleachRecheckLoop env (bIterMid env ex) (List.range ex.ecd.n) 0 false).1 500)).ecd = (delayE (bleachRecheckLoop env (bIterMid env ex) (List.range ex.ecd.n) 0 false).1 500).ecd := by
    rw [bIterMid_eq env hstop]
  simp only [hm2]
  have hdn : (delayE (bleachRecheckLoop env (bIterMid env ex) (List.range ex.ecd.n) 0 false).1 500).ecd.n = ex.ecd.n := by
    simp only [delayE_ecd, bleachRecheckLoop_fst_n, hmecd]
  have hdp : (delayE (bleachRecheckLoop env (bIterMid env ex) (List.range ex.ecd.n) 0 false).1 500).ecd.pins = ex.ecd.pins := by
    simp only [delayE_ecd, bleachRecheckLoop_fst_pins, hmecd]
  have hdc : (delayE (bleachRecheckLoop env (bIterMid env ex) (List.range ex.ecd.n) 0 false).1 500).ecd.currentState = ex.ecd.currentState := by
    simp only [delayE_ecd, bleachRecheckLoop_fst_currentState, hmecd]
  have hdf : (delayE (bleachRecheckLoop env (bIterMid env ex) (List.range ex.ecd.n) 0 false).1 500).ecd.refreshSegmentNeeded s = true := hflagRL
  constructor
  · apply (bleachWhile_rframe env m (delayE (bleachRecheckLoop env (bIterMid env (delayE (bleachRecheckLoop env (bIterMid env ex) (List.range ex.ecd.n) 0 false).1 500)) (List.range (delayE (bleachRecheckLoop env (bIterMid env ex) (List.range ex.ecd.n) 0 false).1 500).ecd.n) (0 + 1) false).1 500)
      (bleachRecheckLoop env (bIterMid env (delayE (bleachRecheckLoop env (bIterMid env ex) (List.range ex.ecd.n) 0 false).1 500)) (List.range (delayE (bleachRecheckLoop env (bIterMid env ex) (List.range ex.ecd.n) 0 false).1 500).ecd.n) (0 + 1) false).2.2 (0 + 1 + 1)).2.1 s
    apply (bleachRecheckLoop_rframe env (List.range (delayE (bleachRecheckLoop env (bIterMid env ex) (List.range ex.ecd.n) 0 false).1 500).ecd.n)
      (bIterMid env (delayE (bleachRecheckLoop env (bIterMid env ex) (List.range ex.ecd.n) 0 false).1 500)) (0 + 1) false).2.1 s
    rw [hm2]
    exact hdf
  · obtain ⟨-, -, trW, htrW⟩ := bleachWhile_rframe env m (delayE (bleachRecheckLoop env (bIterMid env (delayE (bleachRecheckLoop env (bIterMid env ex) (List.range ex.ecd.n) 0 false).1 500)) (List.range (delayE (bleachRecheckLoop env (bIterMid env ex) (List.range ex.ecd.n) 0 false).1 500).ecd.n) (0 + 1) false).1 500)
      (bleachRecheckLoop env (bIterMid env (delayE (bleachRecheckLoop env (bIterMid env ex) (List.range ex.ecd.n) 0 false).1 500)) (List.range (delayE (bleachRecheckLoop env (bIterMid env ex) (List.range ex.ecd.n) 0 false).1 500).ecd.n) (0 + 1) false).2.2 (0 + 1 + 1)
    rw [htrW]
    refine List.mem_append.mpr (Or.inl ?_)
    rw [delayE_trace]
    refine List.mem_append.mpr (Or.inl ?_)
    obtain ⟨-, -, trR, htrR⟩ := bleachRecheckLoop_rframe env
      (List.range (delayE (bleachRecheckLoop env (bIterMid env ex) (List.range ex.ecd.n) 0 false).1 500).ecd.n) (bIterMid env (delayE (bleachRecheckLoop env (bIterMid env ex) (List.range ex.ecd.n) 0 false).1 500)) (0 + 1) false
    rw [htrR]
    refine List.mem_append.mpr (Or.inl ?_)
    rw [bIterMid_eq env hstop]
    refine List.mem_append.mpr (Or.inl ?_)
    refine List.mem_append.mpr (Or.inl ?_)
    refine List.mem_append.mpr (Or.inr ?_)
    rw [← hdp]
    exact mem_bPulseTrace (by rw [hdn]; exact hmem) (by rw [hdc]; exact hcur) hdf

/-- C10 witness: the concrete unflagged bleached segment of `exC` (sample
500 against bleach limit 100, retry cap 1) is newly flagged by the re-sampling
pass and pulsed by the second loop iteration. -/
theorem C10_witness :
    (bleachWhile envW exC true 0
        (exC.ecd.consts.maxRefreshRetries + 1)).1.ecd.refreshSegmentNeeded 0 = true ∧
    Ev.digWrite (exC.ecd.pins 0) false
      ∈ (bleachWhile envW exC true 0 (exC.ecd.consts.maxRefreshRetries + 1)).1.trace :=
  C10_recheck_all_matching envW exC 0 (fun _ => rfl)
    (by
      intro i hi j hj h
      simp only [List.mem_range] at hi hj
      have hn : exC.ecd.n = 1 := rfl
      omega)
    (by decide) rfl rfl (by decide)
    (by
      show ((500 : Int) : ℚ) > (100 : ℚ)
      norm_num)

lemma count_cPulseTrace_zero {e : ECD} {idxs : List Nat} {s : Nat}
    (hinj : ∀ j ∈ idxs, e.pins j = e.pins s → j = s)
    (hflag : e.refreshSegmentNeeded s = false) :
    (cPulseTrace e idxs).count (Ev.digWrite (e.pins s) true) = 0 := by
  unfold cPulseTrace
  rw [count_pulse_fold]
  rw [List.countP_eq_zero]
  intro j hj
  simp only [decide_eq_true_eq]
  intro heq
  have hjm := List.mem_of_mem_filter hj
  have hjs := hinj j hjm heq
  subst hjs
  have hmem := (List.mem_filter.mp hj).2
  simp only [decide_eq_true_eq] at hmem
  obtain ⟨-, h2⟩ := hmem
  rw [hflag] at h2
  exact Bool.noConfusion h2

/-- C4 (corrected): the classification pass flags exactly the segments whose
current state is COLOR with sample below `refreshColorLimitL` or BLEACH with
sample above `refreshBleachLimitH`, and reports the two needed bits as the
disjunction over segments of those conditions; consequently an unflagged
colored segment whose sample is not below `refreshColorLimitL` leaves
classification unflagged and receives no pulse from a color pulse pass over
the classified state.  The spec's stronger "no refresh pulse is issued for it
during that call" is false: the retry loop re-samples every colored segment
against the different limit `refreshColorLimitH` and can newly flag and pulse
it (see the counterexample). -/
theorem C4_classification_exact (env : Env) (ex : Exec) (s : Nat)
    (hstop : ∀ k, env.stop k = false)
    (hinj : PinsInjOn ex.ecd (List.range ex.ecd.n))
    (hs : s < ex.ecd.n)
    (hcol : ex.ecd.currentState s = SegState.colored)
    (hflag0 : ex.ecd.refreshSegmentNeeded s = false)
    (hin : ¬ ((env.samples (ex.ecd.pins s) (ex.reads (ex.ecd.pins s)) : ℚ)
      < ex.ecd.refreshColorLimitL)) :
    (∀ j, (classifyLoop env ex (List.range ex.ecd.n) false false).1.ecd.refreshSegmentNeeded j
        = (ex.ecd.refreshSegmentNeeded j
           || (decide (j ∈ List.range ex.ecd.n)
               && (decide (classColorCond env ex j) || decide (classBleachCond env ex j))))) ∧
    (classifyLoop env ex (List.range ex.ecd.n) false false).2.2.1
      = ((List.range ex.ecd.n).any fun i => decide (classColorCond env ex i)) ∧
    (classifyLoop env ex (List.range ex.ecd.n) false false).2.2.2
      = ((List.range ex.ecd.n).any fun i => decide (classBleachCond env ex i)) ∧
    (classifyLoop env ex (List.range ex.ecd.n) false false).1.ecd.refreshSegmentNeeded s
      = false ∧
    (cPulseTrace (classifyLoop env ex (List.range ex.ecd.n) false false).1.ecd
        (List.range ex.ecd.n)).count (Ev.digWrite (ex.ecd.pins s) true) = 0 := by
  obtain ⟨hcl0, hclC, hclB, hclF⟩ := classifyLoop_noStop env hstop
    (List.range ex.ecd.n) ex false false (List.nodup_range _) hinj
  have hc1 : ¬ classColorCond env ex s := fun hc => hin hc.2
  have hc2 : ¬ classBleachCond env ex s := by
    intro hc
    have hcb : ex.ecd.currentState s = SegState.bleached := hc.1
    rw [hcol] at hcb
    exact SegState.noConfusion hcb
  have hfs : (classifyLoop env ex (List.range ex.ecd.n) false false).1.ecd.refreshSegmentNeeded s
      = false := by
    rw [hclF s, hflag0]
    simp [hc1, hc2]
  have hpinsCL : (classifyLoop env ex (List.range ex.ecd.n) false false).1.ecd.pins
      = ex.ecd.pins :=
    flagsOnly_pins (classifyLoop_rframe env (List.range ex.ecd.n) ex false false).1
  refine ⟨hclF, by rw [hclC, Bool.false_or], by rw [hclB, Bool.false_or], hfs, ?_⟩
  have hinjCL : ∀ j ∈ List.range ex.ecd.n,
      (classifyLoop env ex (List.range ex.ecd.n) false false).1.ecd.pins j
        = (classifyLoop env ex (List.range ex.ecd.n) false false).1.ecd.pins s → j = s := by
    simp only [hpinsCL]
    intro j hj h
    exact hinj j hj s (List.mem_range.mpr hs) h
  have hz := count_cPulseTrace_zero hinjCL hfs
  rw [hpinsCL] at hz
  exact hz

/-- C4 witness: the classification-exactness theorem at the concrete in-range
colored run `exD` (sample 500 against color limits 100/900). -/
theorem C4_witness :
    (∀ j, (classifyLoop envW exD (List.range exD.ecd.n) false false).1.ecd.refreshSegmentNeeded j
        = (exD.ecd.refreshSegmentNeeded j
           || (decide (j ∈ List.range exD.ecd.n)
               && (decide (classColorCond envW exD j) || decide (classBleachCond envW exD j))))) ∧
    (classifyLoop envW exD (List.range exD.ecd.n) false false).2.2.1
      = ((List.range exD.ecd.n).any fun i => decide (classColorCond envW exD i)) ∧
    (classifyLoop envW exD (List.range exD.ecd.n) false false).2.2.2
      = ((List.range exD.ecd.n).any fun i => decide (classBleachCond envW exD i)) ∧
    (classifyLoop envW exD (List.range exD.ecd.n) false false).1.ecd.refreshSegmentNeeded 0
      = false ∧
    (cPulseTrace (classifyLoop envW exD (List.range exD.ecd.n) false false).1.ecd
        (List.range exD.ecd.n)).count (Ev.digWrite (exD.ecd.pins 0) true) = 0 :=
  C4_classification_exact envW exD 0 (fun _ => rfl)
    (by
      intro i hi j hj h
      simp only [List.mem_range] at hi hj
      have hn : exD.ecd.n = 1 := rfl
      omega)
    (by decide) rfl rfl
    (by
      show ¬ (((500 : Int) : ℚ) < (100 : ℚ))
      norm_num)

/-- C4 counterexample: in the concrete two-segment run `exE`, segment 1 is
colored with every sample 500 above `refreshColorLimitL` = 100, yet the
completed `refreshDisplay` call drives its color refresh pulse (segment 0's
drift pulls the call into the retry loop, whose re-sampling pass flags
segment 1 against `refreshColorLimitH` = 900) — refuting "no refresh pulse is
issued for it during that call". -/
theorem C4_counterexample :
    ecdE.currentState 1 = SegState.colored ∧
    ecdE.refreshSegmentNeeded 1 = false ∧
    (∀ k, (envE.samples (ecdE.pins 1) k : ℚ) > ecdE.refreshColorLimitL) ∧
    (refreshDisplay envE exE).2 = false ∧
    Ev.digWrite (ecdE.pins 1) true ∈ (refreshDisplay envE exE).1.trace := by
  refine ⟨rfl, rfl, ?_, by decide, by decide⟩
  intro k
  show ((500 : Int) : ℚ) > (100 : ℚ)
  norm_num

end YnvECD
